import Mathlib

/-!
Verification development for the NorthstarCapital tool-dispatch and
paper-trading ledger subsystem.

The definitions below are a shallow embedding of the Python source:

* `src/server/db.py` — paper-trading ledger (portfolios, cash ledger, trades,
  positions, trade proposals, cash-balance aggregation, the
  propose → approve/reject state machine);
* `src/server/tools/paper_tools.py` — portfolio summary and price lookup;
* `src/server/tool_dispatch.py` and `src/server/tool_registry.py` — the tool
  dispatcher and the static tool registry.

Modelling conventions:

* SQL numeric/double columns and Python floats are modelled as `Rat`; no claim
  in this development depends on binary floating-point rounding.
* Database tables are association lists; primary-key uniqueness is modelled by
  a freshness check on insert for tables that are looked up by id
  (`paper_portfolios`, `paper_trade_proposals`).  For append-only tables that
  are only ever aggregated (`paper_cash_ledger`, `paper_trades`) a uuid4
  collision is not modelled: the source would abort the transaction, and no
  function reads those tables by id.
* `uuid4()` generation is modelled by passing the generated id as an argument.
* The market-data collaborators `nepse_live_market` / `nepse_price_volume`
  are modelled as the lists of `(symbol, lastTradedPrice)` pairs of the rows
  they return (the price is `Option Rat` because `lastTradedPrice` may be
  missing on a row).
-/

namespace Northstar

/-- Trade side, stored in the source as the strings `'buy'` / `'sell'`.
Every repository entry point that creates a proposal validates
`side in ("buy", "sell")` (`tool_dispatch.py` lines 351-359, `main.py`
lines 730-737), so the embedding uses a two-constructor type. -/
inductive Side where
  | buy
  | sell
deriving DecidableEq

/-- Row of `paper_portfolios` (id is the association-list key). -/
structure Portfolio where
  name : String
  base_currency : String
  starting_cash : Rat
deriving DecidableEq

/-- Row of `paper_cash_ledger`. -/
structure LedgerEntry where
  id : String
  portfolio_id : String
  amount : Rat
  reason : Option String
deriving DecidableEq

/-- Row of `paper_trades`. -/
structure Trade where
  id : String
  portfolio_id : String
  symbol : String
  side : Side
  quantity : Rat
  price : Rat
  amount : Rat
  source : String
deriving DecidableEq

/-- Status column of `paper_trade_proposals`. -/
inductive PStatus where
  | pending
  | approved
  | rejected
deriving DecidableEq

/-- Row of `paper_trade_proposals` (id is the association-list key). -/
structure Proposal where
  portfolio_id : String
  symbol : String
  side : Side
  quantity : Rat
  proposed_price : Option Rat
  status : PStatus
  reason : Option String
  model : Option String
  executed_trade_id : Option String
  executed_price : Option Rat
deriving DecidableEq

/-- Row of `paper_positions`, keyed by `(portfolio_id, symbol)`. -/
structure Position where
  quantity : Rat
  avg_cost : Rat
deriving DecidableEq

/-- The paper-trading tables of the relational store.  There is no stored
cash-balance column anywhere in this state: the balance exists only as the
aggregate computed by `getPaperCashBalance`. -/
structure DBState where
  portfolios : List (String × Portfolio)
  cash_ledger : List LedgerEntry
  trades : List Trade
  positions : List ((String × String) × Position)
  proposals : List (String × Proposal)
deriving DecidableEq

/-- The empty database. -/
def emptyDB : DBState := ⟨[], [], [], [], []⟩

/-- Whitespace as recognised by Python `str.strip()` (the forms appearing in
this system). -/
def isPySpace (c : Char) : Bool :=
  decide (c = ' ' ∨ c = Char.ofNat 9 ∨ c = Char.ofNat 10 ∨ c = Char.ofNat 13)

/-- Python `str.strip()`, written over the character list so that it is
executable inside kernel reduction (`String.trim` is not). -/
def pyStrip (s : String) : String :=
  String.mk ((((s.toList).dropWhile isPySpace).reverse.dropWhile isPySpace).reverse)

/-- Python `str.upper()` (ASCII, as used for ticker symbols). -/
def pyUpper (s : String) : String := String.mk (s.toList.map Char.toUpper)

/-- Python `str.lower()` (ASCII, as used for trade sides). -/
def pyLower (s : String) : String := String.mk (s.toList.map Char.toLower)

/-- Primary-key lookup in `paper_portfolios`. -/
def lookupPortfolio (ps : List (String × Portfolio)) (pid : String) : Option Portfolio :=
  (ps.find? (fun e => decide (e.1 = pid))).map (·.2)

/-- Primary-key lookup in `paper_trade_proposals`. -/
def lookupProposal (ps : List (String × Proposal)) (id : String) : Option Proposal :=
  (ps.find? (fun e => decide (e.1 = id))).map (·.2)

/-- Lookup in `paper_positions` by its key `(portfolio_id, symbol)`. -/
def lookupPos (ps : List ((String × String) × Position)) (pid sym : String) : Option Position :=
  (ps.find? (fun e => decide (e.1.1 = pid ∧ e.1.2 = sym))).map (·.2)

/-- The `INSERT ... ON CONFLICT (portfolio_id, symbol) DO UPDATE` of
`_apply_paper_trade` (db.py lines 866-881). -/
def upsertPos (ps : List ((String × String) × Position)) (pid sym : String) (p : Position) :
    List ((String × String) × Position) :=
  if (ps.find? (fun e => decide (e.1.1 = pid ∧ e.1.2 = sym))).isSome then
    ps.map (fun e => if e.1.1 = pid ∧ e.1.2 = sym then (e.1, p) else e)
  else
    ps ++ [((pid, sym), p)]

/-- The `DELETE FROM paper_positions WHERE portfolio_id = ... AND symbol = ...`
of `_apply_paper_trade` (db.py lines 887-895). -/
def deletePos (ps : List ((String × String) × Position)) (pid sym : String) :
    List ((String × String) × Position) :=
  ps.filter (fun e => decide (¬(e.1.1 = pid ∧ e.1.2 = sym)))

/-- The `UPDATE paper_positions SET quantity = ...` of `_apply_paper_trade`
(db.py lines 897-906); `avg_cost` is left untouched. -/
def updatePosQty (ps : List ((String × String) × Position)) (pid sym : String) (q : Rat) :
    List ((String × String) × Position) :=
  ps.map (fun e => if e.1.1 = pid ∧ e.1.2 = sym then (e.1, { e.2 with quantity := q }) else e)

/-- The `UPDATE paper_trade_proposals ... WHERE id = :id` used by
`approve_paper_trade_proposal` (db.py lines 959-967); note the source UPDATE
carries no status guard. -/
def updateProposal (ps : List (String × Proposal)) (id : String) (f : Proposal → Proposal) :
    List (String × Proposal) :=
  ps.map (fun e => if e.1 = id then (e.1, f e.2) else e)

/-- Sum of `amount` over `paper_cash_ledger` rows of one portfolio:
the `SELECT COALESCE(SUM(amount), 0) FROM paper_cash_ledger WHERE
portfolio_id = :id` of `get_paper_cash_balance`. -/
def ledgerSumFor (s : DBState) (pid : String) : Rat :=
  ((s.cash_ledger.filter (fun e => decide (e.portfolio_id = pid))).map LedgerEntry.amount).sum

/-- Sum of `amount` over `paper_trades` rows of one portfolio and side:
the two `SELECT COALESCE(SUM(amount), 0) FROM paper_trades WHERE
portfolio_id = :id AND side = ...` queries of `get_paper_cash_balance`. -/
def tradeSumFor (s : DBState) (pid : String) (sd : Side) : Rat :=
  ((s.trades.filter (fun t => decide (t.portfolio_id = pid ∧ t.side = sd))).map Trade.amount).sum

/-- Embedding of `get_paper_cash_balance` (db.py lines 656-699): starting cash
(`scalar() or 0`, hence `0` when the portfolio row is missing) plus the ledger
sum, minus the buy-trade sum, plus the sell-trade sum.  The value is computed
from the rows on every call; nothing in `DBState` stores it. -/
def getPaperCashBalance (s : DBState) (pid : String) : Rat :=
  let starting : Rat :=
    match lookupPortfolio s.portfolios pid with
    | some p => p.starting_cash
    | none => 0
  starting + ledgerSumFor s pid - tradeSumFor s pid Side.buy + tradeSumFor s pid Side.sell

/-- Embedding of `create_paper_portfolio` (db.py lines 598-621).  The `Bool`
reports whether the row was inserted; a duplicate id (primary-key violation)
aborts the transaction in the source, leaving the state unchanged.
`name or "Global Portfolio"` treats `None` and the empty string as missing. -/
def createPaperPortfolio (s : DBState) (id : String) (nm : Option String)
    (starting_cash : Rat) (currency : String) : DBState × Bool :=
  if (lookupPortfolio s.portfolios id).isSome then (s, false)
  else
    let theName : String :=
      match nm with
      | some n => if n = "" then "Global Portfolio" else n
      | none => "Global Portfolio"
    ({ s with portfolios := s.portfolios ++ [(id, ⟨theName, currency, starting_cash⟩)] }, true)

/-- Embedding of `add_paper_cash_ledger` (db.py lines 702-721): an
unconditional append to the cash ledger. -/
def addPaperCashLedger (s : DBState) (id pid : String) (amount : Rat)
    (reason : Option String) : DBState :=
  { s with cash_ledger := s.cash_ledger ++ [⟨id, pid, amount, reason⟩] }

/-- Embedding of `create_paper_trade_proposal` (db.py lines 781-817): the
symbol is stored as `symbol.strip().upper()`, the status as `'pending'`.
The `Bool` reports insertion, as in `createPaperPortfolio`. -/
def createPaperTradeProposal (s : DBState) (id pid symbol : String) (side : Side)
    (quantity : Rat) (proposed_price : Option Rat) (reason model : Option String) :
    DBState × Bool :=
  if (lookupProposal s.proposals id).isSome then (s, false)
  else
    ({ s with proposals := s.proposals ++
        [(id, ⟨pid, pyUpper (pyStrip symbol), side, quantity, proposed_price,
               PStatus.pending, reason, model, none, none⟩)] }, true)

/-- Python `max(a, b)` on numbers, written as an executable conditional (the
lattice `max` of `Rat` does not evaluate inside kernel reduction). -/
def ratMax (a b : Rat) : Rat := if a < b then b else a

/-- Embedding of `_apply_paper_trade` (db.py lines 820-907): insert the trade
row with `amount = quantity * price`, then update the position.  A buy
re-averages the cost basis; a sell clamps the new quantity at `0` with
`max(prev_qty - quantity, 0.0)`, deletes the row when the new quantity is
exactly `0` and otherwise updates the quantity only. -/
def applyPaperTrade (s : DBState) (tradeId pid symbol : String) (side : Side)
    (quantity price : Rat) (source : String) : DBState × Trade :=
  let amount := quantity * price
  let trade : Trade := ⟨tradeId, pid, symbol, side, quantity, price, amount, source⟩
  let trades2 := s.trades ++ [trade]
  let posOld := lookupPos s.positions pid symbol
  match side with
  | Side.buy =>
    let prevQty : Rat := match posOld with | some p => p.quantity | none => 0
    let prevCost : Rat := match posOld with | some p => p.avg_cost | none => 0
    let newQty := prevQty + quantity
    let newCost : Rat := if newQty ≠ 0 then (prevQty * prevCost + quantity * price) / newQty else 0
    ({ s with trades := trades2,
              positions := upsertPos s.positions pid symbol ⟨newQty, newCost⟩ }, trade)
  | Side.sell =>
    let prevQty : Rat := match posOld with | some p => p.quantity | none => 0
    let newQty := ratMax (prevQty - quantity) 0
    if newQty = 0 then
      ({ s with trades := trades2, positions := deletePos s.positions pid symbol }, trade)
    else
      ({ s with trades := trades2, positions := updatePosQty s.positions pid symbol newQty }, trade)

/-- Market rows seen by the ledger: for each source, the list of
`(symbol, lastTradedPrice)` pairs of the rows it returns. -/
structure PriceEnv where
  live : List (String × Option Rat)
  priceVolume : List (String × Option Rat)
deriving DecidableEq

/-- Price resolution inside `approve_paper_trade_proposal` (db.py lines
931-944): scan `nepse_live_market` for the first row of the symbol and take
its `lastTradedPrice`; if that leaves no price (symbol absent, or present with
a null price), scan `nepse_price_volume` the same way. -/
def approveExecutionPrice (env : PriceEnv) (symbol : String) : Option Rat :=
  match (env.live.find? (fun r => decide (r.1 = symbol))).bind (fun r => r.2) with
  | some p => some p
  | none => (env.priceVolume.find? (fun r => decide (r.1 = symbol))).bind (fun r => r.2)

/-- Embedding of `_symbol_price` (paper_tools.py lines 22-34): uppercase the
symbol, and if the live-market list contains the symbol return its price
directly — even when that price is null, in which case this function returns
`None` without consulting the second source (unlike `approveExecutionPrice`). -/
def symbolPrice (env : PriceEnv) (symbol : String) : Option Rat :=
  match env.live.find? (fun r => decide (r.1 = pyUpper symbol)) with
  | some row => row.2
  | none =>
    match env.priceVolume.find? (fun r => decide (r.1 = pyUpper symbol)) with
    | some row => row.2
    | none => none

/-- Result statuses of `approve_paper_trade_proposal`; always reported through
the returned value, never raised. -/
inductive ApproveResult where
  | notFound
  | priceUnavailable
  | insufficientCash
  | approved (trade : Trade)
deriving DecidableEq

/-- Result statuses of `reject_paper_trade_proposal`. -/
inductive RejectResult where
  | rejected
  | notFound
deriving DecidableEq

/-- Embedding of `approve_paper_trade_proposal` (db.py lines 910-969):
select the proposal `WHERE id = :id AND status = 'pending'` (no row gives
`not_found`); resolve a fresh execution price (none gives `price_unavailable`
with no state change); read the computed cash balance; for a buy with
`cash < quantity * price` give `insufficient_cash` with no state change;
otherwise apply the trade and mark the proposal approved, linking the trade id
and executed price. -/
def approvePaperTradeProposal (env : PriceEnv) (s : DBState) (proposalId tradeId : String) :
    DBState × ApproveResult :=
  match lookupProposal s.proposals proposalId with
  | none => (s, ApproveResult.notFound)
  | some prop =>
    if prop.status = PStatus.pending then
      match approveExecutionPrice env prop.symbol with
      | none => (s, ApproveResult.priceUnavailable)
      | some price =>
        let cash := getPaperCashBalance s prop.portfolio_id
        if prop.side = Side.buy ∧ cash < prop.quantity * price then
          (s, ApproveResult.insufficientCash)
        else
          let st := applyPaperTrade s tradeId prop.portfolio_id prop.symbol prop.side
            prop.quantity price "paper_approve"
          let markApproved : Proposal → Proposal := fun p =>
            { p with status := PStatus.approved,
                     executed_trade_id := some tradeId,
                     executed_price := some price }
          let s2 := { st.1 with
            proposals := updateProposal st.1.proposals proposalId markApproved }
          (s2, ApproveResult.approved st.2)
    else (s, ApproveResult.notFound)

/-- Embedding of `reject_paper_trade_proposal` (db.py lines 972-985): the
`UPDATE ... SET status = 'rejected' WHERE id = :id AND status = 'pending'`
touches a row exactly when the proposal exists and is pending; a zero rowcount
reports `not_found`. -/
def rejectPaperTradeProposal (s : DBState) (proposalId : String) : DBState × RejectResult :=
  match lookupProposal s.proposals proposalId with
  | some p =>
    if p.status = PStatus.pending then
      let markRejected : Proposal → Proposal := fun q => { q with status := PStatus.rejected }
      ({ s with proposals := updateProposal s.proposals proposalId markRejected },
        RejectResult.rejected)
    else (s, RejectResult.notFound)
  | none => (s, RejectResult.notFound)

/-- Helper projecting the stored status of a proposal id. -/
def proposalStatus (s : DBState) (id : String) : Option PStatus :=
  (lookupProposal s.proposals id).map Proposal.status

/-- Enriched position row of `paper_portfolio_summary` (paper_tools.py
lines 54-69). -/
structure EnrichedPosition where
  portfolio_id : String
  symbol : String
  quantity : Rat
  avg_cost : Rat
  last_price : Option Rat
  market_value : Rat
  unrealized_pnl : Option Rat
deriving DecidableEq

/-- Return value of `paper_portfolio_summary` when the portfolio exists. -/
structure PortfolioSummary where
  portfolio : Portfolio
  cash : Rat
  positions : List EnrichedPosition
  market_value : Rat
  total_value : Rat
deriving DecidableEq

/-- Embedding of `list_paper_positions` (db.py lines 724-738); the
`ORDER BY symbol` is omitted — no claim depends on row order. -/
def listPaperPositions (s : DBState) (pid : String) : List ((String × String) × Position) :=
  s.positions.filter (fun e => decide (e.1.1 = pid))

/-- Embedding of `paper_portfolio_summary` (paper_tools.py lines 47-77).
The source returns the empty dict `{}` for a missing portfolio; that case is
modelled as `none`.  Each position is enriched with the last seen price
(`_symbol_price`), a market value falling back to `avg_cost` when no price is
available, and an unrealized P&L that is `None` without a price. -/
def paperPortfolioSummary (env : PriceEnv) (s : DBState) (pid : String) :
    Option PortfolioSummary :=
  match lookupPortfolio s.portfolios pid with
  | none => none
  | some p =>
    let poss := listPaperPositions s pid
    let cash := getPaperCashBalance s pid
    let enriched := poss.map (fun e =>
      let priceOpt := symbolPrice env e.1.2
      let qty := e.2.quantity
      let avg := e.2.avg_cost
      let value := (match priceOpt with | some pr => pr | none => avg) * qty
      let pnl : Option Rat := match priceOpt with
        | some pr => some ((pr - avg) * qty)
        | none => none
      EnrichedPosition.mk e.1.1 e.1.2 qty avg priceOpt value pnl)
    let mv := (enriched.map EnrichedPosition.market_value).sum
    some ⟨p, cash, enriched, mv, cash + mv⟩

/-- One ledger entry point, as reachable through the repository's REST routes
(`main.py`) and tool dispatcher (`tool_dispatch.py`). -/
inductive Op where
  | createPortfolio (id : String) (nm : Option String) (starting_cash : Rat) (currency : String)
  | addCash (id pid : String) (amount : Rat) (reason : Option String)
  | propose (id pid symbol : String) (side : Side) (quantity : Rat)
      (proposed_price : Option Rat) (reason model : Option String)
  | approve (env : PriceEnv) (proposalId tradeId : String)
  | reject (proposalId : String)

/-- Observable result of one ledger entry point, as a caller (or a test
oracle) sees it. -/
inductive OpOutcome where
  | created (inserted : Bool) (id : String) (starting_cash : Rat)
  | cashAdded (pid : String) (amount : Rat)
  | proposed (inserted : Bool)
  | approveOut (r : ApproveResult)
  | rejectOut (r : RejectResult)

/-- Run one ledger entry point against the store. -/
def applyOp (s : DBState) (op : Op) : DBState × OpOutcome :=
  match op with
  | Op.createPortfolio id nm c cur =>
    let r := createPaperPortfolio s id nm c cur
    (r.1, OpOutcome.created r.2 id c)
  | Op.addCash id pid a reason =>
    (addPaperCashLedger s id pid a reason, OpOutcome.cashAdded pid a)
  | Op.propose id pid sym side q pp reason model =>
    let r := createPaperTradeProposal s id pid sym side q pp reason model
    (r.1, OpOutcome.proposed r.2)
  | Op.approve env pi ti =>
    let r := approvePaperTradeProposal env s pi ti
    (r.1, OpOutcome.approveOut r.2)
  | Op.reject pi =>
    let r := rejectPaperTradeProposal s pi
    (r.1, OpOutcome.rejectOut r.2)

/-- Independent running-total update of the test oracle for one observed
outcome: portfolio creation sets in the starting cash, a ledger entry adds its
amount, an approved buy subtracts the trade amount, an approved sell adds it.
The oracle never looks at the store, only at the outcomes the caller sees. -/
def oracleDelta (target : String) (out : OpOutcome) : Rat :=
  match out with
  | OpOutcome.created true id c => if id = target then c else 0
  | OpOutcome.created false _ _ => 0
  | OpOutcome.cashAdded pid a => if pid = target then a else 0
  | OpOutcome.proposed _ => 0
  | OpOutcome.approveOut (ApproveResult.approved t) =>
    if t.portfolio_id = target then
      (match t.side with | Side.buy => -t.amount | Side.sell => t.amount)
    else 0
  | OpOutcome.approveOut _ => 0
  | OpOutcome.rejectOut _ => 0

/-- Replay a sequence of ledger operations while the oracle maintains its own
running total for the target portfolio. -/
def replayOracle (target : String) : DBState → Rat → List Op → DBState × Rat
  | s, total, [] => (s, total)
  | s, total, op :: ops =>
    let r := applyOp s op
    replayOracle target r.1 (total + oracleDelta target r.2) ops

/-- Store state after a sequence of ledger operations from the empty store. -/
def replayState (ops : List Op) : DBState :=
  ops.foldl (fun s op => (applyOp s op).1) emptyDB

/-- Validation that every repository entry point enforces before a proposal is
created: `quantity > 0` (`tool_dispatch.py` line 360, `main.py` line 734).
Operations other than `propose` carry no quantity. -/
def OpOK : Op → Prop
  | Op.propose _ _ _ _ q _ _ _ => 0 < q
  | _ => True

/-- Every stored position row has a strictly positive quantity (so in
particular none is negative and none is a kept zero row). -/
def posInvariant (s : DBState) : Prop :=
  ∀ e ∈ s.positions, 0 < e.2.quantity

/-- Every stored proposal has a strictly positive quantity. -/
def proposalsQtyPos (s : DBState) : Prop :=
  ∀ e ∈ s.proposals, 0 < e.2.quantity

/-- A primitive database access, tagged by table. -/
inductive DbAction where
  | read (tbl : String)
  | write (tbl : String)
deriving DecidableEq

/-- Whether the action writes. -/
def DbAction.isWrite : DbAction → Bool
  | DbAction.write _ => true
  | DbAction.read _ => false

/-- Whether the action only reads. -/
def DbAction.isRead : DbAction → Bool
  | DbAction.read _ => true
  | DbAction.write _ => false

/-- The four SELECTs run by `get_paper_cash_balance` inside the transaction it
opens for itself (db.py lines 656-699: `get_engine()` builds a fresh engine and
`engine.begin()` a fresh connection and transaction on every call). -/
def cashBalanceTxnActions : List DbAction :=
  [DbAction.read "paper_portfolios", DbAction.read "paper_cash_ledger",
   DbAction.read "paper_trades", DbAction.read "paper_trades"]

/-- Transaction-scope instrumentation of `approve_paper_trade_proposal`
(db.py lines 910-969).  Each list element is `(scope, action)` in program
order, where scope `0` is the `engine.begin()` block of
`approve_paper_trade_proposal` itself and scope `1` is the separate
transaction opened by its call to `get_paper_cash_balance` (which calls
`get_engine()` and `engine.begin()` on its own, so its SELECTs do not run on
the approver's connection).  The price fetch between the proposal SELECT and
the cash read is outbound HTTP, not a database action.  The branching
conditions are exactly those of `approvePaperTradeProposal`. -/
def approveTxnLog (env : PriceEnv) (s : DBState) (proposalId : String) :
    List (Nat × DbAction) :=
  (0, DbAction.read "paper_trade_proposals") ::
  (match lookupProposal s.proposals proposalId with
  | none => []
  | some prop =>
    if prop.status = PStatus.pending then
      match approveExecutionPrice env prop.symbol with
      | none => []
      | some price =>
        (cashBalanceTxnActions.map (fun a => (1, a))) ++
        (if prop.side = Side.buy ∧
            getPaperCashBalance s prop.portfolio_id < prop.quantity * price then
          []
        else
          [(0, DbAction.write "paper_trades"), (0, DbAction.read "paper_positions"),
           (0, DbAction.write "paper_positions"),
           (0, DbAction.write "paper_trade_proposals")])
    else [])

/-- JSON-shaped Python value, as received by `dispatch_tool` in its
`arguments` dict (FastAPI delivers JSON scalars, arrays and objects). -/
inductive PyVal where
  | pynone
  | pybool (b : Bool)
  | pyint (n : Int)
  | pyfloat (q : Rat)
  | pystr (s : String)
  | pylist (xs : List PyVal)
  | pydict (kvs : List (String × PyVal))

/-- Python truthiness, as used by `if not value` checks in the dispatcher. -/
def pyTruthy : PyVal → Bool
  | PyVal.pynone => false
  | PyVal.pybool b => b
  | PyVal.pyint n => decide (n ≠ 0)
  | PyVal.pyfloat q => decide (q ≠ 0)
  | PyVal.pystr s => decide (s ≠ "")
  | PyVal.pylist xs => !xs.isEmpty
  | PyVal.pydict kvs => !kvs.isEmpty

/-- The apostrophe character, used by Python container repr. -/
def quoteChar : String := String.singleton (Char.ofNat 39)

/-- Rendering of a float by `str()`.  The exact decimal rendering of
non-integral values is approximated (numerator and denominator joined by a
slash): the dispatcher only ever tests emptiness of stringified values, and
every rendering below is non-empty. -/
def floatRepr (q : Rat) : String :=
  if q.den = 1 then toString q.num ++ ".0"
  else toString q.num ++ "/" ++ toString q.den

mutual

/-- Python `repr`, as used for values nested inside containers.  String
escaping inside repr is not modelled; only non-emptiness of the result ever
matters to the dispatcher. -/
def pyRepr : PyVal → String
  | PyVal.pynone => "None"
  | PyVal.pybool true => "True"
  | PyVal.pybool false => "False"
  | PyVal.pyint n => toString n
  | PyVal.pyfloat q => floatRepr q
  | PyVal.pystr s => quoteChar ++ s ++ quoteChar
  | PyVal.pylist xs => "[" ++ String.intercalate ", " (pyReprList xs) ++ "]"
  | PyVal.pydict kvs => "\x7b" ++ String.intercalate ", " (pyReprKVs kvs) ++ "\x7d"

/-- Repr of the elements of a list. -/
def pyReprList : List PyVal → List String
  | [] => []
  | x :: xs => pyRepr x :: pyReprList xs

/-- Repr of the entries of a dict. -/
def pyReprKVs : List (String × PyVal) → List String
  | [] => []
  | (k, v) :: xs => (quoteChar ++ k ++ quoteChar ++ ": " ++ pyRepr v) :: pyReprKVs xs

end

/-- Python `str()`: identity on strings, `repr`-style rendering otherwise. -/
def pyStrv : PyVal → String
  | PyVal.pystr s => s
  | v => pyRepr v

/-- Kind of exception raised by a failed Python numeric coercion. -/
inductive PyNumErr where
  | valueError
  | typeError
deriving DecidableEq

/-- Digits of a numeral, most significant first, failing on any non-digit or
on the empty list. -/
def digitsToNat : List Char → Option Nat
  | [] => none
  | cs =>
    cs.foldl (fun acc c =>
      acc.bind (fun n => if c.isDigit then some (n * 10 + (c.toNat - 48)) else none))
      (some 0)

/-- Numeric value of a digit run (0 for the empty run). -/
def digitsVal (cs : List Char) : Nat :=
  cs.foldl (fun n c => n * 10 + (c.toNat - 48)) 0

/-- Parse an unsigned decimal literal `digits`, `digits.digits`, `digits.` or
`.digits` (at least one digit overall). -/
def parseUnsignedFloat (cs : List Char) : Option Rat :=
  let ip := cs.takeWhile Char.isDigit
  let rest := cs.dropWhile Char.isDigit
  match rest with
  | [] => (digitsToNat ip).map (fun n => (n : Rat))
  | c :: frac =>
    if c = Char.ofNat 46 ∧ frac.all Char.isDigit ∧ (ip ≠ [] ∨ frac ≠ []) then
      some ((digitsVal ip : Rat) + (digitsVal frac : Rat) / ((10 : Rat) ^ frac.length))
    else none

/-- Python `float(str)`: surrounding whitespace is ignored, an optional sign
precedes an unsigned decimal literal.  Exponent, `inf`/`nan` and underscore
forms are not modelled; no dispatcher branch depends on them. -/
def parseFloat (s : String) : Option Rat :=
  match (pyStrip s).toList with
  | '-' :: rest => (parseUnsignedFloat rest).map Neg.neg
  | '+' :: rest => parseUnsignedFloat rest
  | cs => parseUnsignedFloat cs

/-- Python `int(str)`: optional sign followed by digits only. -/
def parseIntStr (s : String) : Option Int :=
  match (pyStrip s).toList with
  | '-' :: rest => (digitsToNat rest).map (fun n => -(n : Int))
  | '+' :: rest => (digitsToNat rest).map (fun n => (n : Int))
  | cs => (digitsToNat cs).map (fun n => (n : Int))

/-- Truncation toward zero, as `int()` applied to a float. -/
def ratTrunc (q : Rat) : Int :=
  if q < 0 then -((-q).floor) else q.floor

/-- Python `float(value)`: numbers and bools coerce, strings parse (raising
`ValueError` on failure), `None` and containers raise `TypeError`. -/
def pyFloatE : PyVal → Except PyNumErr Rat
  | PyVal.pyint n => Except.ok (n : Rat)
  | PyVal.pyfloat q => Except.ok q
  | PyVal.pybool b => Except.ok (if b then 1 else 0)
  | PyVal.pystr s =>
    match parseFloat s with
    | some q => Except.ok q
    | none => Except.error PyNumErr.valueError
  | _ => Except.error PyNumErr.typeError

/-- Python `int(value)`: ints and bools coerce, floats truncate toward zero,
strings parse as integer literals (raising `ValueError` on failure), `None`
and containers raise `TypeError`. -/
def pyIntE : PyVal → Except PyNumErr Int
  | PyVal.pyint n => Except.ok n
  | PyVal.pybool b => Except.ok (if b then 1 else 0)
  | PyVal.pyfloat q => Except.ok (ratTrunc q)
  | PyVal.pystr s =>
    match parseIntStr s with
    | some n => Except.ok n
    | none => Except.error PyNumErr.valueError
  | _ => Except.error PyNumErr.typeError

/-- The `arguments` mapping of a tool call. -/
abbrev Args : Type := List (String × PyVal)

/-- Python `arguments.get(key)`: value of the first entry with the key. -/
def getA (args : Args) (k : String) : Option PyVal :=
  (List.find? (fun e => decide (e.1 = k)) args).map (·.2)

/-- Outcome of `dispatch_tool` as classified by the `/invoke` route
(main.py lines 498-511): a `KeyError` becomes a 404 not-found, a `ValueError`
becomes a 400 validation error, any other exception a 500 internal error, and
otherwise the tool result is returned. -/
inductive DOut where
  | notFound (msg : String)
  | valErr (msg : String)
  | typeErr (msg : String)
  | ok (v : PyVal)

/-- External collaborators of the dispatcher: `call` the opaque result of a
domain tool function applied to the extracted arguments, `rows` the row list
returned by a NEPSE list endpoint, `sectorMap` the dict returned by
`nepse_sector_scrips`. -/
structure Env where
  call : String → List PyVal → PyVal
  rows : String → List PyVal → List PyVal
  sectorMap : List (String × PyVal)

/-- Map a numeric-coercion failure to the dispatcher outcome (ValueError is
client-fixable, TypeError surfaces as a 500). -/
def errOut (e : PyNumErr) (m : String) : DOut :=
  match e with
  | PyNumErr.valueError => DOut.valErr m
  | PyNumErr.typeError => DOut.typeErr m

/-- Coerce a value with `float()` and continue. -/
def bindFloat (v : PyVal) (m : String) (k : Rat → DOut) : DOut :=
  match pyFloatE v with
  | Except.ok q => k q
  | Except.error e => errOut e m

/-- Coerce a value with `int()` and continue. -/
def bindInt (v : PyVal) (m : String) (k : Int → DOut) : DOut :=
  match pyIntE v with
  | Except.ok n => k n
  | Except.error e => errOut e m

/-- The recurring dispatcher pattern
`x = str(arguments.get(key, "")).strip()` followed by
`if not x: raise ValueError(f"key is required")`. -/
def reqStrArg (args : Args) (key : String) (k : String → DOut) : DOut :=
  let v := pyStrip (pyStrv ((getA args key).getD (PyVal.pystr "")))
  if v = "" then DOut.valErr (key ++ " is required") else k v

/-- Embedding of `_truncate_list` (tool_dispatch.py lines 57-60). -/
def truncList (xs : List PyVal) (limit : Nat) : List PyVal :=
  if xs.length ≤ limit then xs else xs.take limit

/-- Python dict item assignment: replace the value of an existing key or
append a new entry. -/
def dictSet (kvs : List (String × PyVal)) (k : String) (v : PyVal) :
    List (String × PyVal) :=
  if (List.find? (fun e => decide (e.1 = k)) kvs).isSome then
    kvs.map (fun e => if e.1 = k then (k, v) else e)
  else kvs ++ [(k, v)]

/-- Python `dict.get`. -/
def dictGet (kvs : List (String × PyVal)) (k : String) : Option PyVal :=
  (List.find? (fun e => decide (e.1 = k)) kvs).map (·.2)

/-- Per-value truncation step of `_truncate_sector_map`: list values are
truncated, other values pass through. -/
def truncMapValue (limit : Nat) : PyVal → PyVal
  | PyVal.pylist xs => PyVal.pylist (truncList xs limit)
  | v => v

/-- Embedding of `_truncate_sector_map` (tool_dispatch.py lines 62-71):
truncate every list value, then set `_truncated` to `True` (unconditionally)
and `_limit` to the cap. -/
def truncSectorMap (data : List (String × PyVal)) (limit : Nat) : PyVal :=
  let truncated := data.map (fun e => (e.1, truncMapValue limit e.2))
  PyVal.pydict (dictSet (dictSet truncated "_truncated" (PyVal.pybool true))
    "_limit" (PyVal.pyint limit))

/-- The result-dict literal repeated by every truncating list endpoint:
`{"items": _truncate_list(data, L), "_truncated": len(data) > L, "_limit": L}`
(tool_dispatch.py lines 118-123, 154-156, 162-178). -/
def listPayload (data : List PyVal) (limit : Nat) : PyVal :=
  PyVal.pydict [("items", PyVal.pylist (truncList data limit)),
                ("_truncated", PyVal.pybool (decide (data.length > limit))),
                ("_limit", PyVal.pyint limit)]

/-- One registry entry of `tool_registry.py`: the tool name, the declared
property names of its input schema, and the required subset.  Descriptions
and per-property JSON types are elided — no claim reads them. -/
structure ToolSpec where
  name : String
  properties : List String
  required : List String

/-- The static tool catalog of `tool_registry.py` (names, schema property
names, required subsets), in source order. -/
def TOOLS : List ToolSpec := [
  ⟨"web.search", ["query"], ["query"]⟩,
  ⟨"web.fetch", ["url", "headers"], ["url"]⟩,
  ⟨"web.fetch_browser", ["url", "headers"], ["url"]⟩,
  ⟨"web.extract", ["html"], ["html"]⟩,
  ⟨"market.quote", ["symbol"], ["symbol"]⟩,
  ⟨"market.history", ["symbol", "start", "end", "limit"], ["symbol"]⟩,
  ⟨"market.fx", ["pair"], ["pair"]⟩,
  ⟨"market.crypto", ["symbol", "vs_currency"], ["symbol"]⟩,
  ⟨"company.profile", ["ticker"], ["ticker"]⟩,
  ⟨"company.financials", ["ticker"], ["ticker"]⟩,
  ⟨"sec.search", ["query", "limit"], ["query"]⟩,
  ⟨"sec.filing", ["url"], ["url"]⟩,
  ⟨"macro.series", ["series_id"], ["series_id"]⟩,
  ⟨"news.search", ["query", "max_results"], ["query"]⟩,
  ⟨"news.extract", ["url"], ["url"]⟩,
  ⟨"nepse.company_details", ["symbol"], ["symbol"]⟩,
  ⟨"nepse.price_volume", [], []⟩,
  ⟨"nepse.live_market", [], []⟩,
  ⟨"nepse.symbol_snapshot", ["symbol"], ["symbol"]⟩,
  ⟨"nepse.summary", [], []⟩,
  ⟨"nepse.index", [], []⟩,
  ⟨"nepse.subindices", [], []⟩,
  ⟨"nepse.is_open", [], []⟩,
  ⟨"nepse.top_gainers", [], []⟩,
  ⟨"nepse.top_losers", [], []⟩,
  ⟨"nepse.top_trade_scrips", [], []⟩,
  ⟨"nepse.top_transaction_scrips", [], []⟩,
  ⟨"nepse.top_turnover_scrips", [], []⟩,
  ⟨"nepse.supply_demand", [], []⟩,
  ⟨"nepse.trade_turnover_transaction", [], []⟩,
  ⟨"nepse.company_list", [], []⟩,
  ⟨"nepse.sector_scrips", [], []⟩,
  ⟨"nepse.security_list", [], []⟩,
  ⟨"nepse.price_volume_history", ["symbol"], ["symbol"]⟩,
  ⟨"nepse.floorsheet", [], []⟩,
  ⟨"nepse.floorsheet_of", ["symbol"], ["symbol"]⟩,
  ⟨"nepse.daily_scrip_price_graph", ["symbol"], ["symbol"]⟩,
  ⟨"nepse.daily_index_graph", ["kind"], ["kind"]⟩,
  ⟨"sentiment.analyze", ["text"], ["text"]⟩,
  ⟨"calc.returns", ["prices"], ["prices"]⟩,
  ⟨"calc.risk", ["returns"], ["returns"]⟩,
  ⟨"calc.portfolio", ["weights"], ["weights"]⟩,
  ⟨"memory.put", ["content", "tags", "conversation_id"], ["content"]⟩,
  ⟨"memory.search", ["query", "limit", "conversation_id"], ["query"]⟩,
  ⟨"research.bundle", ["ticker", "horizon_days", "news_limit", "filings_limit"], ["ticker"]⟩,
  ⟨"report.generate", ["ticker", "use_llm", "horizon_days"], ["ticker"]⟩,
  ⟨"compare.prices", ["symbols", "start", "end", "horizon_days"], ["symbols"]⟩,
  ⟨"portfolio.stats", ["symbols", "weights", "start", "end", "horizon_days"],
    ["symbols", "weights"]⟩,
  ⟨"paper.portfolios", [], []⟩,
  ⟨"paper.portfolio_create", ["name", "starting_cash", "currency"], []⟩,
  ⟨"paper.portfolio_summary", ["portfolio_id"], ["portfolio_id"]⟩,
  ⟨"paper.positions", ["portfolio_id"], ["portfolio_id"]⟩,
  ⟨"paper.trades", ["portfolio_id", "limit"], ["portfolio_id"]⟩,
  ⟨"paper.trade_proposals", ["portfolio_id", "status"], ["portfolio_id"]⟩,
  ⟨"paper.trade_propose",
    ["portfolio_id", "symbol", "side", "quantity", "reason", "model"],
    ["portfolio_id", "symbol", "side", "quantity"]⟩]

/-- The `tool_names = {t.name for t in TOOLS}` membership set of
`dispatch_tool` (tool_dispatch.py line 72). -/
def toolNames : List String := TOOLS.map ToolSpec.name

/-- Registry lookup by tool name. -/
def findTool (n : String) : Option ToolSpec :=
  TOOLS.find? (fun t => decide (t.name = n))

/-- Required argument names a tool declares in the registry. -/
def requiredArgs (n : String) : List String :=
  ((findTool n).map ToolSpec.required).getD []

/-- Declared property names of a tool in the registry. -/
def knownKeys (n : String) : List String :=
  ((findTool n).map ToolSpec.properties).getD []

/-- Branch `web.search` of `dispatch_tool`. -/
def dWebSearch (env : Env) (args : Args) : DOut :=
  reqStrArg args "query" fun query => DOut.ok (env.call "web_search" [PyVal.pystr query])

/-- Shared body of the `web.fetch` / `web.fetch_browser` branches: a required
`url`, and a `headers` argument that must be absent, `None` or a dict. -/
def fetchWithHeaders (env : Env) (args : Args) (fname : String) : DOut :=
  reqStrArg args "url" fun url =>
    match getA args "headers" with
    | some (PyVal.pydict kvs) => DOut.ok (env.call fname [PyVal.pystr url, PyVal.pydict kvs])
    | some PyVal.pynone => DOut.ok (env.call fname [PyVal.pystr url, PyVal.pynone])
    | none => DOut.ok (env.call fname [PyVal.pystr url, PyVal.pynone])
    | some _ => DOut.valErr "headers must be an object"

/-- Branch `web.fetch`. -/
def dWebFetch (env : Env) (args : Args) : DOut := fetchWithHeaders env args "web_fetch"

/-- Branch `web.fetch_browser`. -/
def dWebFetchBrowser (env : Env) (args : Args) : DOut :=
  fetchWithHeaders env args "web_fetch_browser"

/-- Branch `web.extract`: `html = str(arguments.get("html", ""))` with no
strip, then `if not html`. -/
def dWebExtract (env : Env) (args : Args) : DOut :=
  let html := pyStrv ((getA args "html").getD (PyVal.pystr ""))
  if html = "" then DOut.valErr "html is required"
  else DOut.ok (env.call "web_extract" [PyVal.pystr html])

/-- Branch `news.search`. -/
def dNewsSearch (env : Env) (args : Args) : DOut :=
  reqStrArg args "query" fun query =>
    bindInt ((getA args "max_results").getD (PyVal.pyint 8)) "invalid max_results" fun n =>
      DOut.ok (env.call "news_search" [PyVal.pystr query, PyVal.pyint n])

/-- Branch `news.extract`: fetch the url, then extract
`fetched.get("text", "")`. -/
def dNewsExtract (env : Env) (args : Args) : DOut :=
  reqStrArg args "url" fun url =>
    match env.call "web_fetch" [PyVal.pystr url, PyVal.pynone] with
    | PyVal.pydict kvs =>
      DOut.ok (env.call "web_extract" [(dictGet kvs "text").getD (PyVal.pystr "")])
    | _ => DOut.typeErr "fetched page has no attribute get"

/-- Branch `nepse.company_details`. -/
def dNepseCompanyDetails (env : Env) (args : Args) : DOut :=
  reqStrArg args "symbol" fun symbol =>
    DOut.ok (env.call "nepse_company_details" [PyVal.pystr symbol])

/-- Branch `nepse.price_volume`. -/
def dNepsePriceVolume (env : Env) (_args : Args) : DOut :=
  DOut.ok (listPayload (env.rows "nepse_price_volume" []) 200)

/-- Branch `nepse.live_market`. -/
def dNepseLiveMarket (env : Env) (_args : Args) : DOut :=
  DOut.ok (listPayload (env.rows "nepse_live_market" []) 200)

/-- Branch `nepse.symbol_snapshot`. -/
def dNepseSymbolSnapshot (env : Env) (args : Args) : DOut :=
  reqStrArg args "symbol" fun symbol =>
    DOut.ok (env.call "nepse_symbol_snapshot" [PyVal.pystr symbol])

/-- Shared shape of the argument-free passthrough NEPSE branches. -/
def plainCall (env : Env) (fname : String) : DOut := DOut.ok (env.call fname [])

/-- Branch `nepse.summary`. -/
def dNepseSummary (env : Env) (_args : Args) : DOut := plainCall env "nepse_summary"

/-- Branch `nepse.index`. -/
def dNepseIndex (env : Env) (_args : Args) : DOut := plainCall env "nepse_index"

/-- Branch `nepse.subindices`. -/
def dNepseSubindices (env : Env) (_args : Args) : DOut := plainCall env "nepse_subindices"

/-- Branch `nepse.is_open`. -/
def dNepseIsOpen (env : Env) (_args : Args) : DOut := plainCall env "nepse_is_open"

/-- Branch `nepse.top_gainers`. -/
def dNepseTopGainers (env : Env) (_args : Args) : DOut := plainCall env "nepse_top_gainers"

/-- Branch `nepse.top_losers`. -/
def dNepseTopLosers (env : Env) (_args : Args) : DOut := plainCall env "nepse_top_losers"

/-- Branch `nepse.top_trade_scrips`. -/
def dNepseTopTradeScrips (env : Env) (_args : Args) : DOut :=
  plainCall env "nepse_top_trade_scrips"

/-- Branch `nepse.top_transaction_scrips`. -/
def dNepseTopTransactionScrips (env : Env) (_args : Args) : DOut :=
  plainCall env "nepse_top_transaction_scrips"

/-- Branch `nepse.top_turnover_scrips`. -/
def dNepseTopTurnoverScrips (env : Env) (_args : Args) : DOut :=
  plainCall env "nepse_top_turnover_scrips"

/-- Branch `nepse.supply_demand`. -/
def dNepseSupplyDemand (env : Env) (_args : Args) : DOut :=
  plainCall env "nepse_supply_demand"

/-- Branch `nepse.trade_turnover_transaction`. -/
def dNepseTradeTurnoverTransaction (env : Env) (_args : Args) : DOut :=
  plainCall env "nepse_trade_turnover_transaction"

/-- Branch `nepse.company_list`. -/
def dNepseCompanyList (env : Env) (_args : Args) : DOut :=
  DOut.ok (listPayload (env.rows "nepse_company_list" []) 200)

/-- Branch `nepse.sector_scrips`. -/
def dNepseSectorScrips (env : Env) (_args : Args) : DOut :=
  DOut.ok (truncSectorMap env.sectorMap 50)

/-- Branch `nepse.security_list`. -/
def dNepseSecurityList (env : Env) (_args : Args) : DOut :=
  DOut.ok (listPayload (env.rows "nepse_security_list" []) 200)

/-- Branch `nepse.price_volume_history`. -/
def dNepsePriceVolumeHistory (env : Env) (args : Args) : DOut :=
  reqStrArg args "symbol" fun symbol =>
    DOut.ok (listPayload (env.rows "nepse_price_volume_history" [PyVal.pystr symbol]) 200)

/-- Branch `nepse.floorsheet`. -/
def dNepseFloorsheet (env : Env) (_args : Args) : DOut :=
  DOut.ok (listPayload (env.rows "nepse_floorsheet" []) 200)

/-- Branch `nepse.floorsheet_of`. -/
def dNepseFloorsheetOf (env : Env) (args : Args) : DOut :=
  reqStrArg args "symbol" fun symbol =>
    DOut.ok (listPayload (env.rows "nepse_floorsheet_of" [PyVal.pystr symbol]) 200)

/-- Branch `nepse.daily_scrip_price_graph`. -/
def dNepseDailyScripPriceGraph (env : Env) (args : Args) : DOut :=
  reqStrArg args "symbol" fun symbol =>
    DOut.ok (env.call "nepse_daily_scrip_price_graph" [PyVal.pystr symbol])

/-- Branch `nepse.daily_index_graph`. -/
def dNepseDailyIndexGraph (env : Env) (args : Args) : DOut :=
  reqStrArg args "kind" fun kind =>
    DOut.ok (env.call "nepse_daily_index_graph" [PyVal.pystr kind])

/-- Branch `market.quote`. -/
def dMarketQuote (env : Env) (args : Args) : DOut :=
  reqStrArg args "symbol" fun symbol =>
    DOut.ok (env.call "market_quote" [PyVal.pystr symbol])

/-- Branch `market.history`: required `symbol`, passthrough `start`/`end`,
`limit` coerced by `int()` with default 500. -/
def dMarketHistory (env : Env) (args : Args) : DOut :=
  reqStrArg args "symbol" fun symbol =>
    let start := (getA args "start").getD PyVal.pynone
    let endv := (getA args "end").getD PyVal.pynone
    bindInt ((getA args "limit").getD (PyVal.pyint 500)) "invalid limit" fun limit =>
      DOut.ok (env.call "market_history" [PyVal.pystr symbol, start, endv, PyVal.pyint limit])

/-- Branch `market.fx`. -/
def dMarketFx (env : Env) (args : Args) : DOut :=
  reqStrArg args "pair" fun pair => DOut.ok (env.call "market_fx" [PyVal.pystr pair])

/-- Branch `market.crypto`: `vs_currency` defaults to `"usd"`, also when the
supplied value strips to the empty string. -/
def dMarketCrypto (env : Env) (args : Args) : DOut :=
  reqStrArg args "symbol" fun symbol =>
    let vs := pyStrip (pyStrv ((getA args "vs_currency").getD (PyVal.pystr "usd")))
    let vs2 := if vs = "" then "usd" else vs
    DOut.ok (env.call "market_crypto" [PyVal.pystr symbol, PyVal.pystr vs2])

/-- Branch `company.profile`. -/
def dCompanyProfile (env : Env) (args : Args) : DOut :=
  reqStrArg args "ticker" fun ticker =>
    DOut.ok (env.call "company_profile" [PyVal.pystr ticker])

/-- Branch `company.financials`. -/
def dCompanyFinancials (env : Env) (args : Args) : DOut :=
  reqStrArg args "ticker" fun ticker =>
    DOut.ok (env.call "company_financials" [PyVal.pystr ticker])

/-- Branch `sec.search`. -/
def dSecSearch (env : Env) (args : Args) : DOut :=
  reqStrArg args "query" fun query =>
    bindInt ((getA args "limit").getD (PyVal.pyint 20)) "invalid limit" fun limit =>
      DOut.ok (env.call "sec_search" [PyVal.pystr query, PyVal.pyint limit])

/-- Branch `sec.filing`. -/
def dSecFiling (env : Env) (args : Args) : DOut :=
  reqStrArg args "url" fun url => DOut.ok (env.call "sec_filing" [PyVal.pystr url])

/-- Branch `macro.series`. -/
def dMacroSeries (env : Env) (args : Args) : DOut :=
  reqStrArg args "series_id" fun sid => DOut.ok (env.call "macro_series" [PyVal.pystr sid])

/-- Branch `sentiment.analyze`. -/
def dSentimentAnalyze (env : Env) (args : Args) : DOut :=
  reqStrArg args "text" fun t => DOut.ok (env.call "sentiment_analyze" [PyVal.pystr t])

/-- Shared body of the three `calc.*` branches:
`xs = arguments.get(key) or []` followed only by an `isinstance(xs, list)`
check — a missing or falsy value silently becomes the empty list and the
domain function is invoked with it. -/
def calcListArg (env : Env) (args : Args) (key fname msg : String) : DOut :=
  let v := (getA args key).getD PyVal.pynone
  let xs := if pyTruthy v then v else PyVal.pylist []
  match xs with
  | PyVal.pylist l => DOut.ok (env.call fname [PyVal.pylist l])
  | _ => DOut.valErr msg

/-- Branch `calc.returns`. -/
def dCalcReturns (env : Env) (args : Args) : DOut :=
  calcListArg env args "prices" "calc_returns" "prices must be a list"

/-- Branch `calc.risk`. -/
def dCalcRisk (env : Env) (args : Args) : DOut :=
  calcListArg env args "returns" "calc_risk" "returns must be a list"

/-- Branch `calc.portfolio`. -/
def dCalcPortfolio (env : Env) (args : Args) : DOut :=
  calcListArg env args "weights" "calc_portfolio" "weights must be a list"

/-- Branch `memory.put`. -/
def dMemoryPut (env : Env) (args : Args) : DOut :=
  reqStrArg args "content" fun content =>
    let tv := (getA args "tags").getD PyVal.pynone
    let tags := if pyTruthy tv then tv else PyVal.pylist []
    match tags with
    | PyVal.pylist l =>
      let conv := (getA args "conversation_id").getD PyVal.pynone
      DOut.ok (env.call "memory_put" [PyVal.pystr content, PyVal.pylist l, conv])
    | _ => DOut.valErr "tags must be a list"

/-- Branch `memory.search`: a non-positive `limit` is replaced by 8. -/
def dMemorySearch (env : Env) (args : Args) : DOut :=
  reqStrArg args "query" fun query =>
    bindInt ((getA args "limit").getD (PyVal.pyint 8)) "invalid limit" fun limit =>
      let limit2 := if limit ≤ 0 then 8 else limit
      let conv := (getA args "conversation_id").getD PyVal.pynone
      DOut.ok (env.call "memory_search" [PyVal.pystr query, PyVal.pyint limit2, conv])

/-- Branch `research.bundle`. -/
def dResearchBundle (env : Env) (args : Args) : DOut :=
  reqStrArg args "ticker" fun ticker =>
    bindInt ((getA args "horizon_days").getD (PyVal.pyint 365)) "invalid horizon_days" fun h =>
      bindInt ((getA args "news_limit").getD (PyVal.pyint 6)) "invalid news_limit" fun nl =>
        bindInt ((getA args "filings_limit").getD (PyVal.pyint 5)) "invalid filings_limit"
          fun fl =>
            DOut.ok (env.call "build_research_bundle"
              [PyVal.pystr ticker, PyVal.pyint h, PyVal.pyint nl, PyVal.pyint fl])

/-- Branch `report.generate`: `use_llm = bool(arguments.get("use_llm", True))`
is plain truthiness and never raises. -/
def dReportGenerate (env : Env) (args : Args) : DOut :=
  reqStrArg args "ticker" fun ticker =>
    let useLlm := pyTruthy ((getA args "use_llm").getD (PyVal.pybool true))
    bindInt ((getA args "horizon_days").getD (PyVal.pyint 365)) "invalid horizon_days" fun h =>
      let bundle := env.call "build_research_bundle" [PyVal.pystr ticker, PyVal.pyint h]
      DOut.ok (env.call "generate_report" [bundle, PyVal.pybool useLlm])

/-- Branch `compare.prices`: `symbols = arguments.get("symbols") or []`, then
`not isinstance(symbols, list) or not symbols` rejects. -/
def dComparePrices (env : Env) (args : Args) : DOut :=
  let v := (getA args "symbols").getD PyVal.pynone
  let symbols := if pyTruthy v then v else PyVal.pylist []
  match symbols with
  | PyVal.pylist xs =>
    if xs.isEmpty then DOut.valErr "symbols must be a non-empty list"
    else
      let start := (getA args "start").getD PyVal.pynone
      let endv := (getA args "end").getD PyVal.pynone
      bindInt ((getA args "horizon_days").getD (PyVal.pyint 365)) "invalid horizon_days"
        fun h =>
          DOut.ok (env.call "compare_prices" [PyVal.pylist xs, start, endv, PyVal.pyint h])
  | _ => DOut.valErr "symbols must be a non-empty list"

/-- Branch `portfolio.stats`: both list arguments default to `[]` when missing
or falsy, and only their list-ness is checked (emptiness is accepted). -/
def dPortfolioStats (env : Env) (args : Args) : DOut :=
  let vs := (getA args "symbols").getD PyVal.pynone
  let symbols := if pyTruthy vs then vs else PyVal.pylist []
  let vw := (getA args "weights").getD PyVal.pynone
  let weights := if pyTruthy vw then vw else PyVal.pylist []
  match symbols, weights with
  | PyVal.pylist xs, PyVal.pylist ws =>
    let start := (getA args "start").getD PyVal.pynone
    let endv := (getA args "end").getD PyVal.pynone
    bindInt ((getA args "horizon_days").getD (PyVal.pyint 365)) "invalid horizon_days"
      fun h =>
        DOut.ok (env.call "portfolio_stats"
          [PyVal.pylist xs, PyVal.pylist ws, start, endv, PyVal.pyint h])
  | _, _ => DOut.valErr "symbols and weights must be lists"

/-- Branch `paper.portfolios`. -/
def dPaperPortfolios (env : Env) (_args : Args) : DOut :=
  DOut.ok (env.call "paper_list_portfolios" [])

/-- Branch `paper.portfolio_create`. -/
def dPaperPortfolioCreate (env : Env) (args : Args) : DOut :=
  let nm := (getA args "name").getD PyVal.pynone
  bindFloat ((getA args "starting_cash").getD (PyVal.pyfloat 100000)) "invalid starting_cash"
    fun sc =>
      let cur := pyStrip (pyStrv ((getA args "currency").getD (PyVal.pystr "NPR")))
      let cur2 := if cur = "" then "NPR" else cur
      DOut.ok (env.call "paper_create_portfolio" [nm, PyVal.pyfloat sc, PyVal.pystr cur2])

/-- Branch `paper.portfolio_summary`. -/
def dPaperPortfolioSummary (env : Env) (args : Args) : DOut :=
  reqStrArg args "portfolio_id" fun pid =>
    DOut.ok (env.call "paper_portfolio_summary" [PyVal.pystr pid])

/-- Branch `paper.positions`. -/
def dPaperPositions (env : Env) (args : Args) : DOut :=
  reqStrArg args "portfolio_id" fun pid =>
    DOut.ok (env.call "paper_positions" [PyVal.pystr pid])

/-- Branch `paper.trades`. -/
def dPaperTrades (env : Env) (args : Args) : DOut :=
  reqStrArg args "portfolio_id" fun pid =>
    bindInt ((getA args "limit").getD (PyVal.pyint 200)) "invalid limit" fun limit =>
      DOut.ok (env.call "paper_trades" [PyVal.pystr pid, PyVal.pyint limit])

/-- Branch `paper.trade_proposals`. -/
def dPaperTradeProposals (env : Env) (args : Args) : DOut :=
  reqStrArg args "portfolio_id" fun pid =>
    let status := (getA args "status").getD PyVal.pynone
    DOut.ok (env.call "paper_trade_proposals" [PyVal.pystr pid, status])

/-- Branch `paper.trade_propose` (tool_dispatch.py lines 348-371): the three
string arguments and the `float()` coercion of `quantity` are evaluated
first, then presence/validity checks run in source order. -/
def dPaperTradePropose (env : Env) (args : Args) : DOut :=
  let pid := pyStrip (pyStrv ((getA args "portfolio_id").getD (PyVal.pystr "")))
  let symbol := pyStrip (pyStrv ((getA args "symbol").getD (PyVal.pystr "")))
  let side := pyLower (pyStrip (pyStrv ((getA args "side").getD (PyVal.pystr ""))))
  bindFloat ((getA args "quantity").getD (PyVal.pyint 0)) "invalid quantity" fun qty =>
    if pid = "" then DOut.valErr "portfolio_id is required"
    else if symbol = "" then DOut.valErr "symbol is required"
    else if ¬(side = "buy" ∨ side = "sell") then DOut.valErr "side must be buy or sell"
    else if qty ≤ 0 then DOut.valErr "quantity must be > 0"
    else
      let reason := (getA args "reason").getD PyVal.pynone
      let model := (getA args "model").getD PyVal.pynone
      DOut.ok (env.call "paper_trade_propose"
        [PyVal.pystr pid, PyVal.pystr symbol, PyVal.pystr side, PyVal.pyfloat qty,
         reason, model])

/-- Embedding of `dispatch_tool` (tool_dispatch.py lines 55-374): reject a
name outside the registry with the `KeyError` (`Unknown tool`), otherwise run
the branch of the name; the trailing `KeyError` (`Unhandled tool`) is the
fallthrough for a registered name with no branch (unreachable for this
registry). -/
def dispatch (env : Env) (name : String) (args : Args) : DOut :=
  if (toolNames.contains name) = false then DOut.notFound ("Unknown tool: " ++ name)
  else match name with
  | "web.search" => dWebSearch env args
  | "web.fetch" => dWebFetch env args
  | "web.fetch_browser" => dWebFetchBrowser env args
  | "web.extract" => dWebExtract env args
  | "news.search" => dNewsSearch env args
  | "news.extract" => dNewsExtract env args
  | "nepse.company_details" => dNepseCompanyDetails env args
  | "nepse.price_volume" => dNepsePriceVolume env args
  | "nepse.live_market" => dNepseLiveMarket env args
  | "nepse.symbol_snapshot" => dNepseSymbolSnapshot env args
  | "nepse.summary" => dNepseSummary env args
  | "nepse.index" => dNepseIndex env args
  | "nepse.subindices" => dNepseSubindices env args
  | "nepse.is_open" => dNepseIsOpen env args
  | "nepse.top_gainers" => dNepseTopGainers env args
  | "nepse.top_losers" => dNepseTopLosers env args
  | "nepse.top_trade_scrips" => dNepseTopTradeScrips env args
  | "nepse.top_transaction_scrips" => dNepseTopTransactionScrips env args
  | "nepse.top_turnover_scrips" => dNepseTopTurnoverScrips env args
  | "nepse.supply_demand" => dNepseSupplyDemand env args
  | "nepse.trade_turnover_transaction" => dNepseTradeTurnoverTransaction env args
  | "nepse.company_list" => dNepseCompanyList env args
  | "nepse.sector_scrips" => dNepseSectorScrips env args
  | "nepse.security_list" => dNepseSecurityList env args
  | "nepse.price_volume_history" => dNepsePriceVolumeHistory env args
  | "nepse.floorsheet" => dNepseFloorsheet env args
  | "nepse.floorsheet_of" => dNepseFloorsheetOf env args
  | "nepse.daily_scrip_price_graph" => dNepseDailyScripPriceGraph env args
  | "nepse.daily_index_graph" => dNepseDailyIndexGraph env args
  | "market.quote" => dMarketQuote env args
  | "market.history" => dMarketHistory env args
  | "market.fx" => dMarketFx env args
  | "market.crypto" => dMarketCrypto env args
  | "company.profile" => dCompanyProfile env args
  | "company.financials" => dCompanyFinancials env args
  | "sec.search" => dSecSearch env args
  | "sec.filing" => dSecFiling env args
  | "macro.series" => dMacroSeries env args
  | "sentiment.analyze" => dSentimentAnalyze env args
  | "calc.returns" => dCalcReturns env args
  | "calc.risk" => dCalcRisk env args
  | "calc.portfolio" => dCalcPortfolio env args
  | "memory.put" => dMemoryPut env args
  | "memory.search" => dMemorySearch env args
  | "research.bundle" => dResearchBundle env args
  | "report.generate" => dReportGenerate env args
  | "compare.prices" => dComparePrices env args
  | "portfolio.stats" => dPortfolioStats env args
  | "paper.portfolios" => dPaperPortfolios env args
  | "paper.portfolio_create" => dPaperPortfolioCreate env args
  | "paper.portfolio_summary" => dPaperPortfolioSummary env args
  | "paper.positions" => dPaperPositions env args
  | "paper.trades" => dPaperTrades env args
  | "paper.trade_proposals" => dPaperTradeProposals env args
  | "paper.trade_propose" => dPaperTradePropose env args
  | other => DOut.notFound ("Unhandled tool: " ++ other)

/-- The four registered tools whose dispatcher branch substitutes an empty
list for a missing required list argument instead of rejecting the call. -/
def lenientTools : List String :=
  ["calc.returns", "calc.risk", "calc.portfolio", "portfolio.stats"]

/-- Scalar JSON values (the shapes for which Python numeric coercion raises
`ValueError` rather than `TypeError`). -/
def scalarVal : PyVal → Prop
  | PyVal.pybool _ => True
  | PyVal.pyint _ => True
  | PyVal.pyfloat _ => True
  | PyVal.pystr _ => True
  | _ => False

/-- An argument mapping whose values are all scalars. -/
def scalarArgs (args : Args) : Prop :=
  ∀ e ∈ args, scalarVal e.2

/-- Classification helper: the outcome is a validation error. -/
def DOut.isValErr : DOut → Prop
  | DOut.valErr _ => True
  | _ => False

/-- Classification helper: the outcome invoked a domain tool and returned. -/
def DOut.isOk : DOut → Prop
  | DOut.ok _ => True
  | _ => False

/-- Lookup of a key in an `ok` dict outcome (used to observe the truncation
markers of a dispatch result). -/
def outGet (o : DOut) (k : String) : Option PyVal :=
  match o with
  | DOut.ok (PyVal.pydict kvs) => dictGet kvs k
  | _ => none

/-! Concrete sample data used by closed witness and counterexample
statements. -/

/-- A market environment quoting symbol `ABC` at 100 on the live feed. -/
def envABC : PriceEnv := ⟨[("ABC", some 100)], []⟩

/-- A store with one portfolio `P1` (starting cash 1000) and one pending sell
proposal `PR1` for 5 units of `ABC`; no position rows at all. -/
def dbPendingSell : DBState :=
  ⟨[("P1", ⟨"Global Portfolio", "NPR", 1000⟩)], [], [], [],
   [("PR1", ⟨"P1", "ABC", Side.sell, 5, some 100, PStatus.pending, none, none, none, none⟩)]⟩

/-- A store with one portfolio `P1` (starting cash 1000) and one pending buy
proposal `PR1` for 50 units of `ABC` (cost 5000 at the quoted price 100). -/
def dbPendingBuy : DBState :=
  ⟨[("P1", ⟨"Global Portfolio", "NPR", 1000⟩)], [], [], [],
   [("PR1", ⟨"P1", "ABC", Side.buy, 50, some 100, PStatus.pending, none, none, none, none⟩)]⟩

/-- A store with only the portfolio `P1` (starting cash 100000). -/
def dbP1 : DBState := ⟨[("P1", ⟨"Global Portfolio", "NPR", 100000⟩)], [], [], [], []⟩

/-- A store with portfolio `P1` holding 10 units of `ABC` at cost 100. -/
def dbWithPos : DBState :=
  ⟨[("P1", ⟨"Global Portfolio", "NPR", 1000⟩)], [], [],
   [(("P1", "ABC"), ⟨10, 100⟩)], []⟩

/-- The store `dbPendingSell` after its proposal has been approved: the
executed trade is recorded and the proposal is terminal. -/
def dbApprovedSell : DBState :=
  ⟨[("P1", ⟨"Global Portfolio", "NPR", 1000⟩)], [],
   [⟨"T1", "P1", "ABC", Side.sell, 5, 100, 500, "paper_approve"⟩], [],
   [("PR1", ⟨"P1", "ABC", Side.sell, 5, some 100, PStatus.approved, none, none,
     some "T1", some 100⟩)]⟩

/-- The `prev_qty` read by `_apply_paper_trade`: the stored quantity, or 0
when no position row exists. -/
def prevQtyOf (s : DBState) (pid sym : String) : Rat :=
  match lookupPos s.positions pid sym with
  | some p => p.quantity
  | none => 0

/-- The `prev_cost` read by `_apply_paper_trade`: the stored average cost, or
0 when no position row exists. -/
def prevCostOf (s : DBState) (pid sym : String) : Rat :=
  match lookupPos s.positions pid sym with
  | some p => p.avg_cost
  | none => 0

/-- A sample dispatcher environment whose scalar backend echoes the called
domain-function name, used to observe which domain function a dispatch
reaches. -/
def env0 : Env := ⟨fun f _ => PyVal.pystr f, fun _ _ => [], []⟩

/-- A sample dispatcher environment with one one-element sector in the sector
map, used to observe `_truncate_sector_map` on data below the cap. -/
def env1 : Env :=
  ⟨fun _ _ => PyVal.pynone, fun _ _ => [],
   [("Banking", PyVal.pylist [PyVal.pystr "NABIL"])]⟩

end Northstar

namespace Northstar

/-! Supporting lemmas for the ledger theorems. -/

/-- Appending a ledger row adds its amount to the portfolio's ledger sum when
the row belongs to the portfolio. -/
theorem ledgerSumFor_snoc (s : DBState) (e : LedgerEntry) (pid : String) :
    ledgerSumFor { s with cash_ledger := s.cash_ledger ++ [e] } pid
      = ledgerSumFor s pid + (if e.portfolio_id = pid then e.amount else 0) := by
  by_cases h : e.portfolio_id = pid <;>
    simp [ledgerSumFor, List.filter_append, List.sum_append, h]

/-- A state rebuilt with the same ledger list has the same ledger sum. -/
theorem ledgerSumFor_congr (s t : DBState) (pid : String)
    (h : t.cash_ledger = s.cash_ledger) : ledgerSumFor t pid = ledgerSumFor s pid := by
  simp [ledgerSumFor, h]

/-- Appending a trade adds its amount to the matching side sum. -/
theorem tradeSumFor_snoc (s : DBState) (tr : Trade) (pid : String) (sd : Side) :
    tradeSumFor { s with trades := s.trades ++ [tr] } pid sd
      = tradeSumFor s pid sd
        + (if tr.portfolio_id = pid ∧ tr.side = sd then tr.amount else 0) := by
  by_cases h : tr.portfolio_id = pid ∧ tr.side = sd <;>
    simp [tradeSumFor, List.filter_append, List.sum_append, h]

/-- A state rebuilt with the same trade list has the same trade sums. -/
theorem tradeSumFor_congr (s t : DBState) (pid : String) (sd : Side)
    (h : t.trades = s.trades) : tradeSumFor t pid sd = tradeSumFor s pid sd := by
  simp [tradeSumFor, h]

/-- The cash balance reads only the portfolio, ledger and trade tables. -/
theorem getPaperCashBalance_congr (s t : DBState) (pid : String)
    (hp : t.portfolios = s.portfolios) (hl : t.cash_ledger = s.cash_ledger)
    (ht : t.trades = s.trades) :
    getPaperCashBalance t pid = getPaperCashBalance s pid := by
  simp [getPaperCashBalance, ledgerSumFor, tradeSumFor, hp, hl, ht]

/-- Appending a fresh portfolio row: lookup of that id afterwards. -/
theorem lookupPortfolio_snoc_self (ps : List (String × Portfolio)) (id : String)
    (p : Portfolio) (h : lookupPortfolio ps id = none) :
    lookupPortfolio (ps ++ [(id, p)]) id = some p := by
  have hf : List.find? (fun e => decide (e.1 = id)) ps = none := by
    simpa [lookupPortfolio] using h
  simp [lookupPortfolio, List.find?_append, hf]

/-- Appending a portfolio row with a different id leaves lookups unchanged. -/
theorem lookupPortfolio_snoc_other (ps : List (String × Portfolio)) (id : String)
    (p : Portfolio) (pid : String) (h : id ≠ pid) :
    lookupPortfolio (ps ++ [(id, p)]) pid = lookupPortfolio ps pid := by
  cases hf : List.find? (fun e => decide (e.1 = pid)) ps <;>
    simp [lookupPortfolio, List.find?_append, hf, h]

/-- A trade-side sum over a state whose trade list extends another state's by
one row. -/
theorem tradeSumFor_snocT (s t : DBState) (tr : Trade) (pid : String) (sd : Side)
    (h : t.trades = s.trades ++ [tr]) :
    tradeSumFor t pid sd
      = tradeSumFor s pid sd
        + (if tr.portfolio_id = pid ∧ tr.side = sd then tr.amount else 0) := by
  by_cases hc : tr.portfolio_id = pid ∧ tr.side = sd <;>
    simp [tradeSumFor, h, List.filter_append, List.sum_append, hc]

/-- The trade row returned by `applyPaperTrade`. -/
theorem applyPaperTrade_trade (s : DBState) (tid pid sym : String) (side : Side)
    (q p : Rat) (src : String) :
    (applyPaperTrade s tid pid sym side q p src).2
      = ⟨tid, pid, sym, side, q, p, q * p, src⟩ := by
  cases side with
  | buy => rfl
  | sell =>
    simp only [applyPaperTrade]
    split <;> rfl

/-- `applyPaperTrade` never touches the portfolio table. -/
theorem applyPaperTrade_portfolios (s : DBState) (tid pid sym : String) (side : Side)
    (q p : Rat) (src : String) :
    (applyPaperTrade s tid pid sym side q p src).1.portfolios = s.portfolios := by
  cases side with
  | buy => rfl
  | sell =>
    simp only [applyPaperTrade]
    split <;> rfl

/-- `applyPaperTrade` never touches the cash ledger. -/
theorem applyPaperTrade_ledger (s : DBState) (tid pid sym : String) (side : Side)
    (q p : Rat) (src : String) :
    (applyPaperTrade s tid pid sym side q p src).1.cash_ledger = s.cash_ledger := by
  cases side with
  | buy => rfl
  | sell =>
    simp only [applyPaperTrade]
    split <;> rfl

/-- `applyPaperTrade` appends exactly its trade row to the trade table. -/
theorem applyPaperTrade_trades (s : DBState) (tid pid sym : String) (side : Side)
    (q p : Rat) (src : String) :
    (applyPaperTrade s tid pid sym side q p src).1.trades
      = s.trades ++ [⟨tid, pid, sym, side, q, p, q * p, src⟩] := by
  cases side with
  | buy => rfl
  | sell =>
    simp only [applyPaperTrade]
    split <;> rfl

/-- Replacing only the proposal table leaves the computed balance alone. -/
theorem balance_setProposals (t : DBState) (x : List (String × Proposal)) (pid : String) :
    getPaperCashBalance { t with proposals := x } pid = getPaperCashBalance t pid := by
  simp [getPaperCashBalance, ledgerSumFor, tradeSumFor]

/-- Balance change produced by `applyPaperTrade`: the appended trade amount is
subtracted on a buy and added on a sell for the trade's portfolio, and no
other portfolio is affected. -/
theorem balance_applyPaperTrade (s : DBState) (tid pid sym : String) (side : Side)
    (q p : Rat) (src : String) (target : String) :
    getPaperCashBalance (applyPaperTrade s tid pid sym side q p src).1 target
      = getPaperCashBalance s target
        + (if pid = target then
            (match side with | Side.buy => -(q * p) | Side.sell => q * p)
          else 0) := by
  unfold getPaperCashBalance
  rw [applyPaperTrade_portfolios,
    ledgerSumFor_congr s _ target (applyPaperTrade_ledger s tid pid sym side q p src),
    tradeSumFor_snocT s _ _ target Side.buy (applyPaperTrade_trades s tid pid sym side q p src),
    tradeSumFor_snocT s _ _ target Side.sell (applyPaperTrade_trades s tid pid sym side q p src)]
  cases side <;> by_cases hpt : pid = target <;> simp [hpt] <;> ring

/-- Single-step form of cash conservation: every ledger entry point changes
the computed balance by exactly the oracle's delta for the observed outcome. -/
theorem balance_applyOp (s : DBState) (op : Op) (target : String) :
    getPaperCashBalance (applyOp s op).1 target
      = getPaperCashBalance s target + oracleDelta target (applyOp s op).2 := by
  cases op with
  | createPortfolio id nm c cur =>
    by_cases hex : (lookupPortfolio s.portfolios id).isSome
    · simp [applyOp, createPaperPortfolio, hex, oracleDelta]
    · have hnone : lookupPortfolio s.portfolios id = none := by
        cases h : lookupPortfolio s.portfolios id
        · rfl
        · simp [h] at hex
      by_cases hid : id = target
      · subst hid
        simp only [applyOp, createPaperPortfolio, hex, Bool.false_eq_true, if_false,
          oracleDelta, if_pos rfl]
        simp [getPaperCashBalance, ledgerSumFor, tradeSumFor,
          lookupPortfolio_snoc_self s.portfolios id _ hnone, hnone]
        ring
      · simp only [applyOp, createPaperPortfolio, hex, Bool.false_eq_true, if_false,
          oracleDelta, if_neg hid]
        simp [getPaperCashBalance, ledgerSumFor, tradeSumFor,
          lookupPortfolio_snoc_other s.portfolios id _ target hid]
  | addCash id pid a reason =>
    by_cases h : pid = target <;>
      simp [applyOp, addPaperCashLedger, oracleDelta, getPaperCashBalance,
        ledgerSumFor, tradeSumFor, List.filter_append, List.sum_append, h] <;> ring
  | propose id pid sym side q pp reason model =>
    by_cases hex : (lookupProposal s.proposals id).isSome <;>
      simp [applyOp, createPaperTradeProposal, hex, oracleDelta,
        getPaperCashBalance, ledgerSumFor, tradeSumFor]
  | approve env pi ti =>
    cases hlk : lookupProposal s.proposals pi with
    | none => simp [applyOp, approvePaperTradeProposal, hlk, oracleDelta]
    | some prop =>
      by_cases hst : prop.status = PStatus.pending
      · cases hpr : approveExecutionPrice env prop.symbol with
        | none => simp [applyOp, approvePaperTradeProposal, hlk, hst, hpr, oracleDelta]
        | some price =>
          by_cases hins : prop.side = Side.buy ∧
              getPaperCashBalance s prop.portfolio_id < prop.quantity * price
          · simp [applyOp, approvePaperTradeProposal, hlk, hst, hpr, hins, oracleDelta]
          · have happ := balance_applyPaperTrade s ti prop.portfolio_id prop.symbol
              prop.side prop.quantity price "paper_approve" target
            have htr := applyPaperTrade_trade s ti prop.portfolio_id prop.symbol
              prop.side prop.quantity price "paper_approve"
            simp only [applyOp, approvePaperTradeProposal, hlk, hst, hpr,
              eq_self_iff_true, if_true, if_neg hins, oracleDelta,
              balance_setProposals, htr]
            rw [happ]
      · simp [applyOp, approvePaperTradeProposal, hlk, hst, oracleDelta]
  | reject pi =>
    cases hlk : lookupProposal s.proposals pi with
    | none => simp [applyOp, rejectPaperTradeProposal, hlk, oracleDelta]
    | some prop =>
      by_cases hst : prop.status = PStatus.pending <;>
        simp [applyOp, rejectPaperTradeProposal, hlk, hst, oracleDelta,
          getPaperCashBalance, ledgerSumFor, tradeSumFor]

/-- Replay invariant: if the balance currently equals the oracle total, it
still does after any further operations. -/
theorem replayOracle_invariant (target : String) (ops : List Op) :
    ∀ (s : DBState) (total : Rat), getPaperCashBalance s target = total →
      getPaperCashBalance (replayOracle target s total ops).1 target
        = (replayOracle target s total ops).2 := by
  induction ops with
  | nil => intro s total h; simpa [replayOracle] using h
  | cons op ops ih =>
    intro s total h
    simp only [replayOracle]
    exact ih _ _ (by rw [balance_applyOp, h])

/-- The empty store has balance 0 for every portfolio id. -/
theorem balance_emptyDB (target : String) : getPaperCashBalance emptyDB target = 0 := by
  simp [getPaperCashBalance, emptyDB, lookupPortfolio, ledgerSumFor, tradeSumFor]

/-- C1: for every portfolio and every sequence of ledger operations (portfolio
creation with starting cash, appended cash-ledger entries, proposal creation,
approvals that record buy/sell trades, rejections), the on-demand
`get_paper_cash_balance` equals the independent running total of a test oracle
that replays the same sequence and only watches the observable outcomes:
starting cash plus ledger amounts, minus approved-buy amounts, plus
approved-sell amounts.  The state type `DBState` stores no balance field, so
the balance exists only as this computed aggregate. -/
theorem cash_balance_matches_replay_oracle (ops : List Op) (target : String) :
    getPaperCashBalance (replayOracle target emptyDB 0 ops).1 target
      = (replayOracle target emptyDB 0 ops).2 :=
  replayOracle_invariant target ops emptyDB 0 (balance_emptyDB target)

/-- `applyPaperTrade` never touches the proposal table. -/
theorem applyPaperTrade_proposals (s : DBState) (tid pid sym : String) (side : Side)
    (q p : Rat) (src : String) :
    (applyPaperTrade s tid pid sym side q p src).1.proposals = s.proposals := by
  cases side with
  | buy => rfl
  | sell =>
    simp only [applyPaperTrade]
    split <;> rfl

/-- Updating a proposal by id rewrites exactly the looked-up row. -/
theorem lookupProposal_update_self (ps : List (String × Proposal)) (i : String)
    (f : Proposal → Proposal) :
    lookupProposal (updateProposal ps i f) i = (lookupProposal ps i).map f := by
  induction ps with
  | nil => rfl
  | cons e ps ih =>
    by_cases h : e.1 = i
    · simp [lookupProposal, updateProposal, h]
    · simpa [lookupProposal, updateProposal, h] using ih

/-- C2: a `TradeProposal` leaves `pending` at most once.  In the sequential
semantics of the embedding: (1) an approve or reject call on a proposal whose
stored status is no longer `pending` (and likewise on an unknown id) returns
`not_found`, appends no trade and leaves the store untouched; (2) an approve
that returns `approved` leaves the proposal stored as `approved` and appends
exactly the one executed trade; (3) a reject that returns `rejected` leaves it
stored as `rejected` and appends no trade.  Together these give the claimed
behaviour of a second call after any terminal transition. -/
theorem proposal_terminal_transition :
    (∀ (s : DBState) (i : String), proposalStatus s i ≠ some PStatus.pending →
      ∀ (env : PriceEnv) (tid : String),
        approvePaperTradeProposal env s i tid = (s, ApproveResult.notFound) ∧
        rejectPaperTradeProposal s i = (s, RejectResult.notFound)) ∧
    (∀ (env : PriceEnv) (s : DBState) (i tid : String) (s2 : DBState) (t : Trade),
      approvePaperTradeProposal env s i tid = (s2, ApproveResult.approved t) →
        proposalStatus s2 i = some PStatus.approved ∧ s2.trades = s.trades ++ [t]) ∧
    (∀ (s : DBState) (i : String) (s2 : DBState),
      rejectPaperTradeProposal s i = (s2, RejectResult.rejected) →
        proposalStatus s2 i = some PStatus.rejected ∧ s2.trades = s.trades) := by
  refine ⟨?_, ?_, ?_⟩
  · intro s i hns env tid
    cases hlk : lookupProposal s.proposals i with
    | none => simp [approvePaperTradeProposal, rejectPaperTradeProposal, hlk]
    | some prop =>
      have hst : ¬ prop.status = PStatus.pending := by
        intro h
        exact hns (by simp [proposalStatus, hlk, h])
      simp [approvePaperTradeProposal, rejectPaperTradeProposal, hlk, hst]
  · intro env s i tid s2 t happ
    cases hlk : lookupProposal s.proposals i with
    | none => simp [approvePaperTradeProposal, hlk] at happ
    | some prop =>
      by_cases hst : prop.status = PStatus.pending
      · cases hpr : approveExecutionPrice env prop.symbol with
        | none => simp [approvePaperTradeProposal, hlk, hst, hpr] at happ
        | some price =>
          by_cases hins : prop.side = Side.buy ∧
              getPaperCashBalance s prop.portfolio_id < prop.quantity * price
          · simp [approvePaperTradeProposal, hlk, hst, hpr, hins] at happ
          · simp only [approvePaperTradeProposal, hlk, hst, hpr, eq_self_iff_true,
              if_true, if_neg hins] at happ
            have hs2 := congrArg Prod.fst happ
            have htr0 := congrArg Prod.snd happ
            simp only at hs2 htr0
            have htr : (applyPaperTrade s tid prop.portfolio_id prop.symbol prop.side
                prop.quantity price "paper_approve").2 = t := by
              injection htr0
            subst hs2
            constructor
            · simp [proposalStatus, lookupProposal_update_self,
                applyPaperTrade_proposals, hlk]
            · rw [applyPaperTrade_trade] at htr
              simp [applyPaperTrade_trades, htr]
      · simp [approvePaperTradeProposal, hlk, hst] at happ
  · intro s i s2 hrj
    cases hlk : lookupProposal s.proposals i with
    | none => simp [rejectPaperTradeProposal, hlk] at hrj
    | some prop =>
      by_cases hst : prop.status = PStatus.pending
      · simp only [rejectPaperTradeProposal, hlk, hst, eq_self_iff_true, if_true] at hrj
        have hs2 := congrArg Prod.fst hrj
        simp only at hs2
        subst hs2
        constructor
        · simp [proposalStatus, lookupProposal_update_self, hlk]
        · rfl
      · simp [rejectPaperTradeProposal, hlk, hst] at hrj

/-- Witness for C2 at a concrete store: on the post-approval store
`dbApprovedSell`, a further approve and a further reject of the same proposal
id both report `not_found` and leave the store untouched. -/
theorem proposal_terminal_transition_witness :
    approvePaperTradeProposal envABC dbApprovedSell "PR1" "T2"
      = (dbApprovedSell, ApproveResult.notFound) ∧
    rejectPaperTradeProposal dbApprovedSell "PR1"
      = (dbApprovedSell, RejectResult.notFound) :=
  proposal_terminal_transition.1 dbApprovedSell "PR1" (by decide) envABC "T2"

/-- The executable `ratMax` agrees with the order-theoretic `max`. -/
theorem ratMax_eq_max (a b : Rat) : ratMax a b = max a b := by
  unfold ratMax
  rcases lt_or_ge a b with h | h
  · rw [if_pos h, max_eq_right h.le]
  · rw [if_neg (not_lt.mpr h), max_eq_left h]

/-- Replacing the value of every row of a present key makes the new value the
looked-up one. -/
theorem find?_replace_isSome (ps : List ((String × String) × Position))
    (pid sym : String) (P : Position)
    (h : (ps.find? (fun e => decide (e.1.1 = pid ∧ e.1.2 = sym))).isSome) :
    lookupPos (ps.map (fun e => if e.1.1 = pid ∧ e.1.2 = sym then (e.1, P) else e))
      pid sym = some P := by
  induction ps with
  | nil => simp at h
  | cons e ps ih =>
    by_cases hc : e.1.1 = pid ∧ e.1.2 = sym
    · unfold lookupPos
      rw [List.map_cons, if_pos hc, List.find?_cons_of_pos _ (by simp [hc])]
      rfl
    · have h2 : (ps.find? (fun e => decide (e.1.1 = pid ∧ e.1.2 = sym))).isSome := by
        rw [List.find?_cons_of_neg _ (by simp [hc])] at h
        exact h
      unfold lookupPos
      rw [List.map_cons, if_neg hc, List.find?_cons_of_neg _ (by simp [hc])]
      exact ih h2

/-- Upserting a position makes it the looked-up row for its key. -/
theorem lookupPos_upsert_self (ps : List ((String × String) × Position))
    (pid sym : String) (P : Position) :
    lookupPos (upsertPos ps pid sym P) pid sym = some P := by
  unfold upsertPos
  by_cases h : (ps.find? (fun e => decide (e.1.1 = pid ∧ e.1.2 = sym))).isSome
  · rw [if_pos h]
    exact find?_replace_isSome ps pid sym P h
  · rw [if_neg h]
    have hn : ps.find? (fun e => decide (e.1.1 = pid ∧ e.1.2 = sym)) = none :=
      Option.not_isSome_iff_eq_none.mp h
    unfold lookupPos
    rw [List.find?_append, hn, Option.none_or, List.find?_cons_of_pos _ (by simp)]
    rfl

/-- Updating a position quantity rewrites exactly the looked-up row, keeping
its `avg_cost`. -/
theorem lookupPos_update_self (ps : List ((String × String) × Position))
    (pid sym : String) (q : Rat) :
    lookupPos (updatePosQty ps pid sym q) pid sym
      = (lookupPos ps pid sym).map (fun p => { p with quantity := q }) := by
  induction ps with
  | nil => rfl
  | cons e ps ih =>
    by_cases hc : e.1.1 = pid ∧ e.1.2 = sym
    · unfold lookupPos updatePosQty
      rw [List.map_cons, if_pos hc, List.find?_cons_of_pos _ (by simp [hc]),
        List.find?_cons_of_pos _ (by simp [hc])]
      rfl
    · unfold lookupPos updatePosQty at ih ⊢
      rw [List.map_cons, if_neg hc, List.find?_cons_of_neg _ (by simp [hc]),
        List.find?_cons_of_neg _ (by simp [hc])]
      exact ih

/-- Deleting a position removes every row of its key. -/
theorem lookupPos_delete (ps : List ((String × String) × Position))
    (pid sym : String) :
    lookupPos (deletePos ps pid sym) pid sym = none := by
  induction ps with
  | nil => rfl
  | cons e ps ih =>
    by_cases hc : e.1.1 = pid ∧ e.1.2 = sym
    · unfold deletePos at ih ⊢
      rw [List.filter_cons, if_neg (by simp [hc])]
      exact ih
    · unfold deletePos lookupPos at ih ⊢
      rw [List.filter_cons, if_pos (by simp [hc]),
        List.find?_cons_of_neg _ (by simp [hc])]
      exact ih

/-- Shared lemma: the position row after a buy. -/
theorem buy_position_update (s : DBState) (tid pid sym src : String) (q p : Rat)
    (hq : 0 < q) (hprev : 0 ≤ prevQtyOf s pid sym) :
    lookupPos (applyPaperTrade s tid pid sym Side.buy q p src).1.positions pid sym
      = some ⟨prevQtyOf s pid sym + q,
          (prevQtyOf s pid sym * prevCostOf s pid sym + q * p)
            / (prevQtyOf s pid sym + q)⟩ := by
  have hne : prevQtyOf s pid sym + q ≠ 0 := ne_of_gt (by linarith)
  simp only [applyPaperTrade]
  rw [lookupPos_upsert_self]
  simp only [prevQtyOf, prevCostOf] at hne ⊢
  rw [if_pos hne]

/-- Shared lemma: the position row after a sell smaller than the holding. -/
theorem sell_position_update (s : DBState) (tid pid sym src : String) (q p : Rat)
    (hq : 0 < q) (hlt : q < prevQtyOf s pid sym) :
    lookupPos (applyPaperTrade s tid pid sym Side.sell q p src).1.positions pid sym
      = some ⟨prevQtyOf s pid sym - q, prevCostOf s pid sym⟩ := by
  simp only [applyPaperTrade]
  have hmax : ratMax ((match lookupPos s.positions pid sym with
      | some p0 => p0.quantity | none => 0) - q) 0 = prevQtyOf s pid sym - q := by
    rw [ratMax_eq_max]
    simp only [prevQtyOf] at hlt ⊢
    exact max_eq_left (by linarith)
  rw [hmax, if_neg (ne_of_gt (by linarith)), lookupPos_update_self]
  cases hl : lookupPos s.positions pid sym with
  | none =>
    exfalso
    simp [prevQtyOf, hl] at hlt
    linarith
  | some pos => simp [prevQtyOf, prevCostOf, hl]

/-- Shared lemma: a sell of at least the holding deletes the position row. -/
theorem sell_position_delete (s : DBState) (tid pid sym src : String) (q p : Rat)
    (hge : prevQtyOf s pid sym ≤ q) :
    lookupPos (applyPaperTrade s tid pid sym Side.sell q p src).1.positions pid sym
      = none := by
  simp only [applyPaperTrade]
  have hmax : ratMax ((match lookupPos s.positions pid sym with
      | some p0 => p0.quantity | none => 0) - q) 0 = 0 := by
    rw [ratMax_eq_max]
    simp only [prevQtyOf] at hge
    exact max_eq_right (by linarith)
  rw [hmax, if_pos rfl]
  exact lookupPos_delete s.positions pid sym

/-- C4: applying a buy of quantity `q` at price `p` yields
`new_qty = prev_qty + q` and
`new_avg_cost = (prev_qty * prev_avg_cost + q * p) / new_qty`; applying a sell
reduces the quantity without touching `avg_cost`; concretely, buying 10 @ 100
then 10 @ 200 yields quantity 20 at `avg_cost` 150, and selling 5 afterwards
yields quantity 15 with `avg_cost` still 150. -/
theorem position_averaging :
    (∀ (s : DBState) (tid pid sym src : String) (q p : Rat),
      0 < q → 0 ≤ prevQtyOf s pid sym →
      lookupPos (applyPaperTrade s tid pid sym Side.buy q p src).1.positions pid sym
        = some ⟨prevQtyOf s pid sym + q,
            (prevQtyOf s pid sym * prevCostOf s pid sym + q * p)
              / (prevQtyOf s pid sym + q)⟩) ∧
    (∀ (s : DBState) (tid pid sym src : String) (q p : Rat),
      0 < q → q < prevQtyOf s pid sym →
      lookupPos (applyPaperTrade s tid pid sym Side.sell q p src).1.positions pid sym
        = some ⟨prevQtyOf s pid sym - q, prevCostOf s pid sym⟩) ∧
    (lookupPos (applyPaperTrade (applyPaperTrade dbP1 "T1" "P1" "ABC" Side.buy 10 100
        "paper_approve").1 "T2" "P1" "ABC" Side.buy 10 200 "paper_approve").1.positions
        "P1" "ABC" = some ⟨20, 150⟩) ∧
    (lookupPos (applyPaperTrade (applyPaperTrade (applyPaperTrade dbP1 "T1" "P1" "ABC"
        Side.buy 10 100 "paper_approve").1 "T2" "P1" "ABC" Side.buy 10 200
        "paper_approve").1 "T3" "P1" "ABC" Side.sell 5 180 "paper_approve").1.positions
        "P1" "ABC" = some ⟨15, 150⟩) := by
  have hbuy := fun s tid pid sym src q p hq hprev =>
    buy_position_update s tid pid sym src q p hq hprev
  have hsell := fun s tid pid sym src q p hq hlt =>
    sell_position_update s tid pid sym src q p hq hlt
  have e0q : prevQtyOf dbP1 "P1" "ABC" = 0 := rfl
  have e0c : prevCostOf dbP1 "P1" "ABC" = 0 := rfl
  have h1 := hbuy dbP1 "T1" "P1" "ABC" "paper_approve" 10 100 (by norm_num)
    (by rw [e0q])
  rw [e0q, e0c] at h1
  norm_num at h1
  have e1q : prevQtyOf (applyPaperTrade dbP1 "T1" "P1" "ABC" Side.buy 10 100
      "paper_approve").1 "P1" "ABC" = 10 := by
    simp [prevQtyOf, h1]
  have e1c : prevCostOf (applyPaperTrade dbP1 "T1" "P1" "ABC" Side.buy 10 100
      "paper_approve").1 "P1" "ABC" = 100 := by
    simp [prevCostOf, h1]
  have h2 := hbuy (applyPaperTrade dbP1 "T1" "P1" "ABC" Side.buy 10 100
      "paper_approve").1 "T2" "P1" "ABC" "paper_approve" 10 200 (by norm_num)
    (by rw [e1q]; norm_num)
  rw [e1q, e1c] at h2
  norm_num at h2
  have e2q : prevQtyOf (applyPaperTrade (applyPaperTrade dbP1 "T1" "P1" "ABC" Side.buy
      10 100 "paper_approve").1 "T2" "P1" "ABC" Side.buy 10 200
      "paper_approve").1 "P1" "ABC" = 20 := by
    simp [prevQtyOf, h2]
  have e2c : prevCostOf (applyPaperTrade (applyPaperTrade dbP1 "T1" "P1" "ABC" Side.buy
      10 100 "paper_approve").1 "T2" "P1" "ABC" Side.buy 10 200
      "paper_approve").1 "P1" "ABC" = 150 := by
    simp [prevCostOf, h2]
  have h3 := hsell (applyPaperTrade (applyPaperTrade dbP1 "T1" "P1" "ABC" Side.buy
      10 100 "paper_approve").1 "T2" "P1" "ABC" Side.buy 10 200
      "paper_approve").1 "T3" "P1" "ABC" "paper_approve" 5 180 (by norm_num)
    (by rw [e2q]; norm_num)
  rw [e2q, e2c] at h3
  norm_num at h3
  exact ⟨hbuy, hsell, h2, h3⟩

/-- Witness for C4: the buy branch applied at the fresh portfolio store and
the sell branch applied after a 10-unit buy, hypotheses discharged at the
concrete inputs. -/
theorem position_averaging_witness :
    (lookupPos (applyPaperTrade dbP1 "T1" "P1" "ABC" Side.buy 10 100
        "paper_approve").1.positions "P1" "ABC"
      = some ⟨prevQtyOf dbP1 "P1" "ABC" + 10,
          (prevQtyOf dbP1 "P1" "ABC" * prevCostOf dbP1 "P1" "ABC" + 10 * 100)
            / (prevQtyOf dbP1 "P1" "ABC" + 10)⟩) ∧
    (lookupPos (applyPaperTrade (applyPaperTrade dbP1 "T1" "P1" "ABC" Side.buy 10 100
        "paper_approve").1 "T2" "P1" "ABC" Side.sell 5 180 "paper_approve").1.positions
        "P1" "ABC"
      = some ⟨prevQtyOf (applyPaperTrade dbP1 "T1" "P1" "ABC" Side.buy 10 100
            "paper_approve").1 "P1" "ABC" - 5,
          prevCostOf (applyPaperTrade dbP1 "T1" "P1" "ABC" Side.buy 10 100
            "paper_approve").1 "P1" "ABC"⟩) := by
  have e0q : prevQtyOf dbP1 "P1" "ABC" = 0 := rfl
  constructor
  · exact position_averaging.1 dbP1 "T1" "P1" "ABC" "paper_approve" 10 100
      (by norm_num) (by rw [e0q])
  · have h1 := position_averaging.1 dbP1 "T1" "P1" "ABC" "paper_approve" 10 100
      (by norm_num) (by rw [e0q])
    rw [e0q] at h1
    norm_num at h1
    refine position_averaging.2.1 (applyPaperTrade dbP1 "T1" "P1" "ABC" Side.buy 10 100
      "paper_approve").1 "T2" "P1" "ABC" "paper_approve" 5 180 (by norm_num) ?_
    rw [show prevQtyOf (applyPaperTrade dbP1 "T1" "P1" "ABC" Side.buy 10 100
      "paper_approve").1 "P1" "ABC" = 10 by simp [prevQtyOf, h1]]
    norm_num

/-- A looked-up position is (up to its key) a member of the table. -/
theorem lookupPos_mem (ps : List ((String × String) × Position)) (pid sym : String)
    (pos : Position) (h : lookupPos ps pid sym = some pos) : ∃ k, (k, pos) ∈ ps := by
  unfold lookupPos at h
  cases hf : ps.find? (fun e => decide (e.1.1 = pid ∧ e.1.2 = sym)) with
  | none =>
    rw [hf] at h
    simp at h
  | some e =>
    rw [hf] at h
    simp only [Option.map] at h
    have h2 : e.2 = pos := by
      cases h
      rfl
    exact ⟨e.1, by simpa [← h2] using List.mem_of_find?_eq_some hf⟩

/-- A looked-up proposal is a member of the table under its id. -/
theorem lookupProposal_mem (ps : List (String × Proposal)) (i : String)
    (prop : Proposal) (h : lookupProposal ps i = some prop) : (i, prop) ∈ ps := by
  unfold lookupProposal at h
  cases hf : ps.find? (fun e => decide (e.1 = i)) with
  | none =>
    rw [hf] at h
    simp at h
  | some e =>
    rw [hf] at h
    simp only [Option.map] at h
    have h2 : e.2 = prop := by
      cases h
      rfl
    have hm := List.mem_of_find?_eq_some hf
    have hk : e.1 = i := by
      have := List.find?_some hf
      simpa using this
    have he : e = (i, prop) := by
      cases e
      simp only at hk h2
      rw [hk, h2]
    rwa [he] at hm

/-- Stored quantities are nonnegative, so the `prev_qty` read is too. -/
theorem prevQtyOf_nonneg (s : DBState) (pid sym : String) (hinv : posInvariant s) :
    0 ≤ prevQtyOf s pid sym := by
  unfold prevQtyOf
  cases hl : lookupPos s.positions pid sym with
  | none => exact le_refl 0
  | some pos =>
    obtain ⟨k, hk⟩ := lookupPos_mem s.positions pid sym pos hl
    exact le_of_lt (hinv (k, pos) hk)

/-- Membership in an upserted position table. -/
theorem mem_upsertPos (ps : List ((String × String) × Position)) (pid sym : String)
    (P : Position) (e : (String × String) × Position) (he : e ∈ upsertPos ps pid sym P) :
    e.2 = P ∨ e ∈ ps := by
  unfold upsertPos at he
  by_cases h : (ps.find? (fun x => decide (x.1.1 = pid ∧ x.1.2 = sym))).isSome
  · rw [if_pos h] at he
    obtain ⟨a, ha, hfa⟩ := List.mem_map.mp he
    by_cases hc : a.1.1 = pid ∧ a.1.2 = sym
    · rw [if_pos hc] at hfa
      left
      rw [← hfa]
    · rw [if_neg hc] at hfa
      right
      rwa [← hfa]
  · rw [if_neg h] at he
    rcases List.mem_append.mp he with hm | hm
    · exact Or.inr hm
    · left
      rw [List.mem_singleton.mp hm]

/-- Membership in a quantity-updated position table. -/
theorem mem_updatePosQty (ps : List ((String × String) × Position)) (pid sym : String)
    (q : Rat) (e : (String × String) × Position) (he : e ∈ updatePosQty ps pid sym q) :
    e.2.quantity = q ∨ e ∈ ps := by
  unfold updatePosQty at he
  obtain ⟨a, ha, hfa⟩ := List.mem_map.mp he
  by_cases hc : a.1.1 = pid ∧ a.1.2 = sym
  · rw [if_pos hc] at hfa
    left
    rw [← hfa]
  · rw [if_neg hc] at hfa
    right
    rwa [← hfa]

/-- `applyPaperTrade` with a positive quantity keeps every stored position
quantity strictly positive. -/
theorem posInvariant_applyPaperTrade (s : DBState) (tid pid sym : String) (side : Side)
    (q p : Rat) (src : String) (hq : 0 < q) (hinv : posInvariant s) :
    posInvariant (applyPaperTrade s tid pid sym side q p src).1 := by
  have hprev : 0 ≤ prevQtyOf s pid sym := prevQtyOf_nonneg s pid sym hinv
  cases side with
  | buy =>
    intro e he
    simp only [applyPaperTrade] at he
    rcases mem_upsertPos _ _ _ _ _ he with hP | hm
    · rw [hP]
      show 0 < prevQtyOf s pid sym + q
      linarith
    · exact hinv e hm
  | sell =>
    intro e he
    simp only [applyPaperTrade] at he
    by_cases hz : ratMax ((match lookupPos s.positions pid sym with
        | some p0 => p0.quantity | none => 0) - q) 0 = 0
    · rw [if_pos hz] at he
      exact hinv e (List.mem_filter.mp he).1
    · rw [if_neg hz] at he
      rcases mem_updatePosQty _ _ _ _ _ he with hP | hm
      · rw [hP]
        have hnn : 0 ≤ ratMax ((match lookupPos s.positions pid sym with
            | some p0 => p0.quantity | none => 0) - q) 0 := by
          rw [ratMax_eq_max]
          exact le_max_right _ 0
        exact lt_of_le_of_ne hnn (Ne.symm hz)
      · exact hinv e hm

/-- Updating a proposal with a quantity-preserving edit keeps every stored
proposal quantity strictly positive. -/
theorem proposalsQty_update (ps : List (String × Proposal)) (i : String)
    (f : Proposal → Proposal) (hf : ∀ p, (f p).quantity = p.quantity)
    (h : ∀ e ∈ ps, 0 < e.2.quantity) :
    ∀ e ∈ updateProposal ps i f, 0 < e.2.quantity := by
  intro e he
  obtain ⟨a, ha, hfa⟩ := List.mem_map.mp he
  by_cases hc : a.1 = i
  · rw [if_pos hc] at hfa
    rw [← hfa]
    show 0 < (f a.2).quantity
    rw [hf]
    exact h a ha
  · rw [if_neg hc] at hfa
    rw [← hfa]
    exact h a ha

/-- One entry-point step preserves both quantity invariants. -/
theorem inv_applyOp (s : DBState) (op : Op) (hok : OpOK op)
    (h1 : posInvariant s) (h2 : proposalsQtyPos s) :
    posInvariant (applyOp s op).1 ∧ proposalsQtyPos (applyOp s op).1 := by
  cases op with
  | createPortfolio id nm c cur =>
    simp only [applyOp, createPaperPortfolio]
    split
    · exact ⟨h1, h2⟩
    · exact ⟨h1, h2⟩
  | addCash id pid a reason => exact ⟨h1, h2⟩
  | propose id pid sym side q pp reason model =>
    simp only [applyOp, createPaperTradeProposal]
    split
    · exact ⟨h1, h2⟩
    · refine ⟨h1, ?_⟩
      intro e he
      rcases List.mem_append.mp he with hm | hm
      · exact h2 e hm
      · rw [List.mem_singleton.mp hm]
        exact hok
  | approve env pi ti =>
    cases hlk : lookupProposal s.proposals pi with
    | none => simp only [applyOp, approvePaperTradeProposal, hlk]; exact ⟨h1, h2⟩
    | some prop =>
      by_cases hst : prop.status = PStatus.pending
      · cases hpr : approveExecutionPrice env prop.symbol with
        | none =>
          simp only [applyOp, approvePaperTradeProposal, hlk, hst, hpr,
            eq_self_iff_true, if_true]
          exact ⟨h1, h2⟩
        | some price =>
          by_cases hins : prop.side = Side.buy ∧
              getPaperCashBalance s prop.portfolio_id < prop.quantity * price
          · simp only [applyOp, approvePaperTradeProposal, hlk, hst, hpr,
              eq_self_iff_true, if_true, if_pos hins]
            exact ⟨h1, h2⟩
          · simp only [applyOp, approvePaperTradeProposal, hlk, hst, hpr,
              eq_self_iff_true, if_true, if_neg hins]
            have hq : 0 < prop.quantity := h2 (pi, prop) (lookupProposal_mem _ _ _ hlk)
            constructor
            · exact posInvariant_applyPaperTrade s ti prop.portfolio_id prop.symbol
                prop.side prop.quantity price "paper_approve" hq h1
            · intro e he
              refine proposalsQty_update s.proposals pi (fun p => { p with status := PStatus.approved, executed_trade_id := some ti, executed_price := some price }) (fun p => rfl) h2 e ?_
              simpa [applyPaperTrade_proposals] using he
      · simp only [applyOp, approvePaperTradeProposal, hlk, hst, Bool.false_eq_true,
          if_false]
        exact ⟨h1, h2⟩
  | reject pi =>
    cases hlk : lookupProposal s.proposals pi with
    | none => simp only [applyOp, rejectPaperTradeProposal, hlk]; exact ⟨h1, h2⟩
    | some prop =>
      by_cases hst : prop.status = PStatus.pending
      · simp only [applyOp, rejectPaperTradeProposal, hlk, hst, eq_self_iff_true,
          if_true]
        refine ⟨h1, ?_⟩
        intro e he
        exact proposalsQty_update s.proposals pi (fun q => { q with status := PStatus.rejected }) (fun p => rfl) h2 e (by simpa using he)
      · simp only [applyOp, rejectPaperTradeProposal, hlk, hst, Bool.false_eq_true,
          if_false]
        exact ⟨h1, h2⟩

/-- Replaying validated operations from any invariant-satisfying store keeps
the invariants. -/
theorem inv_foldOps (ops : List Op) :
    (∀ op ∈ ops, OpOK op) → ∀ s : DBState, posInvariant s → proposalsQtyPos s →
      posInvariant (ops.foldl (fun s op => (applyOp s op).1) s) ∧
      proposalsQtyPos (ops.foldl (fun s op => (applyOp s op).1) s) := by
  induction ops with
  | nil => intro _ s h1 h2; exact ⟨h1, h2⟩
  | cons op ops ih =>
    intro hops s h1 h2
    have hstep := inv_applyOp s op (hops op (List.mem_cons_self op ops)) h1 h2
    exact ih (fun o ho => hops o (List.mem_cons_of_mem op ho)) _ hstep.1 hstep.2

/-- C5: an applied sell never leaves a negative quantity — selling at least the
held quantity (including selling with no position row) floors at 0 and the
position row is deleted rather than stored at 0, while a smaller sell leaves a
nonnegative quantity; and every sequence of validated ledger operations keeps
every stored position quantity strictly positive (hence never negative, and
never a kept zero row). -/
theorem oversell_clamp_and_nonneg :
    (∀ (s : DBState) (tid pid sym src : String) (q p : Rat), 0 < q →
      (prevQtyOf s pid sym ≤ q →
        lookupPos (applyPaperTrade s tid pid sym Side.sell q p src).1.positions pid sym
          = none) ∧
      (q < prevQtyOf s pid sym →
        lookupPos (applyPaperTrade s tid pid sym Side.sell q p src).1.positions pid sym
          = some ⟨prevQtyOf s pid sym - q, prevCostOf s pid sym⟩ ∧
        0 ≤ prevQtyOf s pid sym - q)) ∧
    (∀ (ops : List Op), (∀ op ∈ ops, OpOK op) → posInvariant (replayState ops)) := by
  constructor
  · intro s tid pid sym src q p hq
    constructor
    · intro hge
      exact sell_position_delete s tid pid sym src q p hge
    · intro hlt
      exact ⟨sell_position_update s tid pid sym src q p hq hlt, by linarith⟩
  · intro ops hops
    have hempty1 : posInvariant emptyDB := by
      intro e he
      cases he
    have hempty2 : proposalsQtyPos emptyDB := by
      intro e he
      cases he
    exact (inv_foldOps ops hops emptyDB hempty1 hempty2).1

/-- Witness for C5: selling 15 units against a 10-unit position deletes the
row, and a concrete validated create/propose sequence satisfies the stored
positivity invariant. -/
theorem oversell_clamp_and_nonneg_witness :
    (lookupPos (applyPaperTrade dbWithPos "T1" "P1" "ABC" Side.sell 15 100
        "paper_approve").1.positions "P1" "ABC" = none) ∧
    posInvariant (replayState [Op.createPortfolio "P1" none 1000 "NPR",
      Op.propose "PR1" "P1" "ABC" Side.buy 5 (some 100) none none]) := by
  constructor
  · refine (oversell_clamp_and_nonneg.1 dbWithPos "T1" "P1" "ABC" "paper_approve" 15 100
      (by norm_num)).1 ?_
    rw [show prevQtyOf dbWithPos "P1" "ABC" = 10 from rfl]
    norm_num
  · refine oversell_clamp_and_nonneg.2 _ ?_
    intro op hop
    fin_cases hop
    · exact trivial
    · show (0 : Rat) < 5
      norm_num

/-- C6: on a pending proposal, an unavailable execution price makes approve
return `price_unavailable`, and insufficient computed cash on a buy makes it
return `insufficient_cash`; in both cases the returned store is exactly the
input store (no trade, no position change, proposal still pending) and the
condition is a returned status value of the total function, not an
exception. -/
theorem approve_recoverable_failures :
    (∀ (env : PriceEnv) (s : DBState) (i tid : String) (prop : Proposal),
      lookupProposal s.proposals i = some prop → prop.status = PStatus.pending →
      approveExecutionPrice env prop.symbol = none →
      approvePaperTradeProposal env s i tid = (s, ApproveResult.priceUnavailable) ∧
      proposalStatus s i = some PStatus.pending) ∧
    (∀ (env : PriceEnv) (s : DBState) (i tid : String) (prop : Proposal) (price : Rat),
      lookupProposal s.proposals i = some prop → prop.status = PStatus.pending →
      approveExecutionPrice env prop.symbol = some price → prop.side = Side.buy →
      getPaperCashBalance s prop.portfolio_id < prop.quantity * price →
      approvePaperTradeProposal env s i tid = (s, ApproveResult.insufficientCash) ∧
      proposalStatus s i = some PStatus.pending) := by
  constructor
  · intro env s i tid prop hlk hst hpr
    constructor
    · simp [approvePaperTradeProposal, hlk, hst, hpr]
    · simp [proposalStatus, hlk, hst]
  · intro env s i tid prop price hlk hst hpr hside hlt
    constructor
    · have hins : prop.side = Side.buy ∧
          getPaperCashBalance s prop.portfolio_id < prop.quantity * price :=
        ⟨hside, hlt⟩
      simp [approvePaperTradeProposal, hlk, hst, hpr, hins]
    · simp [proposalStatus, hlk, hst]

/-- Witness for C6: with no quoted prices the pending sell stays pending with
status `price_unavailable`; with cash 1000 against a 5000-cost pending buy the
store is untouched with status `insufficient_cash`. -/
theorem approve_recoverable_failures_witness :
    (approvePaperTradeProposal ⟨[], []⟩ dbPendingSell "PR1" "T1"
      = (dbPendingSell, ApproveResult.priceUnavailable) ∧
     proposalStatus dbPendingSell "PR1" = some PStatus.pending) ∧
    (approvePaperTradeProposal envABC dbPendingBuy "PR1" "T1"
      = (dbPendingBuy, ApproveResult.insufficientCash) ∧
     proposalStatus dbPendingBuy "PR1" = some PStatus.pending) := by
  constructor
  · exact approve_recoverable_failures.1 ⟨[], []⟩ dbPendingSell "PR1" "T1"
      ⟨"P1", "ABC", Side.sell, 5, some 100, PStatus.pending, none, none, none, none⟩
      rfl rfl rfl
  · refine approve_recoverable_failures.2 envABC dbPendingBuy "PR1" "T1"
      ⟨"P1", "ABC", Side.buy, 50, some 100, PStatus.pending, none, none, none, none⟩
      100 rfl rfl rfl rfl ?_
    have hb : getPaperCashBalance dbPendingBuy "P1" = 1000 + 0 - 0 + 0 := rfl
    rw [hb]
    norm_num

/-- C9: approving a pending sell proposal performs no holdings check at all —
with any position table (including none for the symbol), a resolvable price
makes the approval succeed, record a trade of the full proposed quantity with
`amount = quantity * price`, and credit the portfolio's computed cash balance
by that full amount. -/
theorem sell_approval_unchecked :
    ∀ (env : PriceEnv) (s : DBState) (i tid : String) (prop : Proposal) (price : Rat),
      lookupProposal s.proposals i = some prop → prop.status = PStatus.pending →
      prop.side = Side.sell → approveExecutionPrice env prop.symbol = some price →
      ∃ s2 : DBState,
        approvePaperTradeProposal env s i tid
          = (s2, ApproveResult.approved ⟨tid, prop.portfolio_id, prop.symbol, Side.sell,
              prop.quantity, price, prop.quantity * price, "paper_approve"⟩) ∧
        getPaperCashBalance s2 prop.portfolio_id
          = getPaperCashBalance s prop.portfolio_id + prop.quantity * price := by
  intro env s i tid prop price hlk hst hside hpr
  have hins : ¬(prop.side = Side.buy ∧
      getPaperCashBalance s prop.portfolio_id < prop.quantity * price) := by
    rw [hside]
    rintro ⟨h, -⟩
    cases h
  refine ⟨(approvePaperTradeProposal env s i tid).1, ?_, ?_⟩
  · simp only [approvePaperTradeProposal, hlk, hst, hpr, eq_self_iff_true, if_true,
      if_neg hins]
    rw [applyPaperTrade_trade, hside]
  · simp only [approvePaperTradeProposal, hlk, hst, hpr, eq_self_iff_true, if_true,
      if_neg hins, hside]
    rw [balance_setProposals]
    have hb := balance_applyPaperTrade s tid prop.portfolio_id prop.symbol Side.sell
      prop.quantity price "paper_approve" prop.portfolio_id
    simpa using hb

/-- Witness for C9: `dbPendingSell` holds no position at all for `ABC`, yet
the sell of 5 units at the quoted price 100 is approved, recorded with amount
500, and credits the balance by 500. -/
theorem sell_approval_unchecked_witness :
    ∃ s2 : DBState,
      approvePaperTradeProposal envABC dbPendingSell "PR1" "T1"
        = (s2, ApproveResult.approved ⟨"T1", "P1", "ABC", Side.sell, 5, 100, 5 * 100,
            "paper_approve"⟩) ∧
      getPaperCashBalance s2 "P1" = getPaperCashBalance dbPendingSell "P1" + 5 * 100 :=
  sell_approval_unchecked envABC dbPendingSell "PR1" "T1"
    ⟨"P1", "ABC", Side.sell, 5, some 100, PStatus.pending, none, none, none, none⟩
    100 rfl rfl rfl rfl

/-- C10: reading a portfolio id that is not in the store raises nothing:
`get_paper_cash_balance` treats the missing starting cash and the empty
aggregates as zero and returns 0, and `paper_portfolio_summary` returns the
empty mapping (modelled as `none`). -/
theorem missing_portfolio_reads :
    (∀ (s : DBState) (pid : String), lookupPortfolio s.portfolios pid = none →
      (∀ e ∈ s.cash_ledger, e.portfolio_id ≠ pid) →
      (∀ t ∈ s.trades, t.portfolio_id ≠ pid) →
      getPaperCashBalance s pid = 0) ∧
    (∀ (env : PriceEnv) (s : DBState) (pid : String),
      lookupPortfolio s.portfolios pid = none →
      paperPortfolioSummary env s pid = none) := by
  constructor
  · intro s pid hlk hl ht
    have hl0 : ledgerSumFor s pid = 0 := by
      unfold ledgerSumFor
      rw [List.filter_eq_nil.mpr (by intro a ha; simpa using hl a ha)]
      rfl
    have hb0 : tradeSumFor s pid Side.buy = 0 := by
      unfold tradeSumFor
      rw [List.filter_eq_nil.mpr (by intro a ha; simp [ht a ha])]
      rfl
    have hs0 : tradeSumFor s pid Side.sell = 0 := by
      unfold tradeSumFor
      rw [List.filter_eq_nil.mpr (by intro a ha; simp [ht a ha])]
      rfl
    unfold getPaperCashBalance
    rw [hlk, hl0, hb0, hs0]
    norm_num
  · intro env s pid hlk
    unfold paperPortfolioSummary
    rw [hlk]

/-- Witness for C10 at a store that does contain other data: the unknown id
`NOPE` reads as balance 0 and an empty summary. -/
theorem missing_portfolio_reads_witness :
    getPaperCashBalance dbPendingSell "NOPE" = 0 ∧
    paperPortfolioSummary envABC dbPendingSell "NOPE" = none :=
  ⟨missing_portfolio_reads.1 dbPendingSell "NOPE" rfl
      (by intro e he; cases he) (by intro t ht; cases ht),
   missing_portfolio_reads.2 envABC dbPendingSell "NOPE" rfl⟩

/-- Counterexample for C3: at a concrete store where an approval executes all
six steps, the instrumented transaction log of
`approve_paper_trade_proposal` contains both a scope-0 action (the trade
INSERT, in the approver's own `engine.begin()` block) and a scope-1 action
(the cash-ledger SELECT, inside the separate transaction opened by
`get_paper_cash_balance`), so it is false that all of steps 1-6 execute
within a single atomic transaction scope. -/
theorem approve_not_single_txn_counterexample :
    (0, DbAction.write "paper_trades") ∈ approveTxnLog envABC dbPendingSell "PR1" ∧
    (1, DbAction.read "paper_cash_ledger") ∈ approveTxnLog envABC dbPendingSell "PR1" ∧
    ¬(∀ x ∈ approveTxnLog envABC dbPendingSell "PR1",
        ∀ y ∈ approveTxnLog envABC dbPendingSell "PR1", x.1 = y.1) := by
  decide

/-- C3 (amended): in `approve_paper_trade_proposal`, every database write
(the trade INSERT, the position upsert/delete, the proposal UPDATE) runs in
the approver's own transaction scope, and everything that runs in the second
scope — the one `get_paper_cash_balance` opens for itself — is one of that
function's four read-only SELECTs. -/
theorem approve_txn_write_read_separation :
    ∀ (env : PriceEnv) (s : DBState) (i : String) (x : Nat × DbAction),
      x ∈ approveTxnLog env s i →
      (x.2.isWrite = true → x.1 = 0) ∧
      (x.1 = 1 → x.2.isRead = true ∧ x.2 ∈ cashBalanceTxnActions) := by
  intro env s i x hx
  unfold approveTxnLog at hx
  rcases List.mem_cons.mp hx with hhead | htail
  · subst hhead
    exact ⟨fun _ => rfl, fun h => absurd h (by decide)⟩
  · cases hlk : lookupProposal s.proposals i with
    | none =>
      rw [hlk] at htail
      dsimp only at htail
      exact absurd htail (List.not_mem_nil x)
    | some prop =>
      rw [hlk] at htail
      dsimp only at htail
      by_cases hst : prop.status = PStatus.pending
      · rw [if_pos hst] at htail
        cases hpr : approveExecutionPrice env prop.symbol with
        | none =>
          rw [hpr] at htail
          dsimp only at htail
          exact absurd htail (List.not_mem_nil x)
        | some price =>
          rw [hpr] at htail
          dsimp only at htail
          rcases List.mem_append.mp htail with hm | hm
          · obtain ⟨a, ha, hfa⟩ := List.mem_map.mp hm
            subst hfa
            refine ⟨?_, fun _ => ⟨?_, ha⟩⟩
            · intro hw
              exfalso
              fin_cases ha <;> simp [DbAction.isWrite] at hw
            · fin_cases ha <;> rfl
          · by_cases hins : prop.side = Side.buy ∧
                getPaperCashBalance s prop.portfolio_id < prop.quantity * price
            · rw [if_pos hins] at hm
              exact absurd hm (List.not_mem_nil x)
            · rw [if_neg hins] at hm
              fin_cases hm <;>
                exact ⟨fun _ => rfl, fun h => absurd h (by decide)⟩
      · rw [if_neg hst] at htail
        exact absurd htail (List.not_mem_nil x)

/-- Witness for the amended C3: the cash-ledger SELECT sits in scope 1 of the
concrete approval log and is one of the cash-balance reads. -/
theorem approve_txn_write_read_separation_witness :
    (1, DbAction.read "paper_cash_ledger").2.isRead = true ∧
    (1, DbAction.read "paper_cash_ledger").2 ∈ cashBalanceTxnActions :=
  (approve_txn_write_read_separation envABC dbPendingSell "PR1"
    (1, DbAction.read "paper_cash_ledger") (by decide)).2 rfl

/-! Supporting lemmas for the dispatcher theorems. -/

/-- Appending an entry under a different key does not change a lookup. -/
theorem getA_append_ne (args : Args) (k : String) (v : PyVal) (key : String)
    (h : k ≠ key) : getA (args ++ [(k, v)]) key = getA args key := by
  unfold getA
  rw [List.find?_append]
  have hn : List.find? (fun e => decide (e.1 = key)) [(k, v)] = none := by simp [h]
  rw [hn, Option.or_none]

/-- A present argument value is (under some key) a member of the mapping. -/
theorem getA_some_mem (args : Args) (key : String) (w : PyVal)
    (h : getA args key = some w) : ∃ k, (k, w) ∈ args := by
  unfold getA at h
  cases hf : List.find? (fun e => decide (e.1 = key)) args with
  | none =>
    rw [hf] at h
    simp at h
  | some e =>
    rw [hf] at h
    simp only [Option.map] at h
    have h2 : e.2 = w := by
      cases h
      rfl
    exact ⟨e.1, by simpa [← h2] using List.mem_of_find?_eq_some hf⟩

/-- A missing required string argument makes the `reqStrArg` pattern raise its
`ValueError`. -/
theorem reqStrArg_missing (args : Args) (key : String) (k : String → DOut)
    (h : getA args key = none) :
    reqStrArg args key k = DOut.valErr (key ++ " is required") := by
  unfold reqStrArg
  rw [h]
  rfl

/-- The `reqStrArg` pattern only depends on the looked-up key and on the
continuation's behaviour. -/
theorem reqStrArg_congr (args args2 : Args) (key : String) (k k2 : String → DOut)
    (hg : getA args2 key = getA args key) (hk : ∀ s, k2 s = k s) :
    reqStrArg args2 key k2 = reqStrArg args key k := by
  unfold reqStrArg
  rw [hg]
  by_cases hc : pyStrip (pyStrv ((getA args key).getD (PyVal.pystr ""))) = ""
  · rw [if_pos hc, if_pos hc]
  · rw [if_neg hc, if_neg hc, hk]

/-- `float()` on a scalar value either raises `ValueError` or returns a
number — never `TypeError`. -/
theorem scalar_pyFloatE (w : PyVal) (h : scalarVal w) :
    pyFloatE w = Except.error PyNumErr.valueError ∨ ∃ q, pyFloatE w = Except.ok q := by
  cases w with
  | pybool b => exact Or.inr ⟨_, rfl⟩
  | pyint n => exact Or.inr ⟨_, rfl⟩
  | pyfloat q => exact Or.inr ⟨_, rfl⟩
  | pystr s =>
    cases hp : parseFloat s with
    | none =>
      left
      unfold pyFloatE
      dsimp only
      rw [hp]
    | some q =>
      right
      refine ⟨q, ?_⟩
      unfold pyFloatE
      dsimp only
      rw [hp]
  | pynone => exact h.elim
  | pylist xs => exact h.elim
  | pydict kvs => exact h.elim

/-- In a scalar-valued argument mapping, any lookup with a scalar default is
scalar. -/
theorem scalarArgs_getD (args : Args) (key : String) (d : PyVal)
    (hs : scalarArgs args) (hd : scalarVal d) : scalarVal ((getA args key).getD d) := by
  cases hg : getA args key with
  | none => exact hd
  | some w =>
    obtain ⟨k, hk⟩ := getA_some_mem args key w hg
    exact hs (k, w) hk

/-- Branch `dWebSearch` ignores argument keys it does not read. -/
theorem dWebSearch_ignore (env : Env) (args : Args) (k : String) (v : PyVal)
    (h1 : k ≠ "query") :
    dWebSearch env (args ++ [(k, v)]) = dWebSearch env args := by
  unfold dWebSearch reqStrArg
  simp only [getA_append_ne args k v "query" h1]

/-- Branch `dWebFetch` ignores argument keys it does not read. -/
theorem dWebFetch_ignore (env : Env) (args : Args) (k : String) (v : PyVal)
    (h1 : k ≠ "url") (h2 : k ≠ "headers") :
    dWebFetch env (args ++ [(k, v)]) = dWebFetch env args := by
  unfold dWebFetch fetchWithHeaders reqStrArg
  simp only [getA_append_ne args k v "url" h1, getA_append_ne args k v "headers" h2]

/-- Branch `dWebFetchBrowser` ignores argument keys it does not read. -/
theorem dWebFetchBrowser_ignore (env : Env) (args : Args) (k : String) (v : PyVal)
    (h1 : k ≠ "url") (h2 : k ≠ "headers") :
    dWebFetchBrowser env (args ++ [(k, v)]) = dWebFetchBrowser env args := by
  unfold dWebFetchBrowser fetchWithHeaders reqStrArg
  simp only [getA_append_ne args k v "url" h1, getA_append_ne args k v "headers" h2]

/-- Branch `dWebExtract` ignores argument keys it does not read. -/
theorem dWebExtract_ignore (env : Env) (args : Args) (k : String) (v : PyVal)
    (h1 : k ≠ "html") :
    dWebExtract env (args ++ [(k, v)]) = dWebExtract env args := by
  unfold dWebExtract
  simp only [getA_append_ne args k v "html" h1]

/-- Branch `dNewsSearch` ignores argument keys it does not read. -/
theorem dNewsSearch_ignore (env : Env) (args : Args) (k : String) (v : PyVal)
    (h1 : k ≠ "query") (h2 : k ≠ "max_results") :
    dNewsSearch env (args ++ [(k, v)]) = dNewsSearch env args := by
  unfold dNewsSearch reqStrArg
  simp only [getA_append_ne args k v "query" h1, getA_append_ne args k v "max_results" h2]

/-- Branch `dNewsExtract` ignores argument keys it does not read. -/
theorem dNewsExtract_ignore (env : Env) (args : Args) (k : String) (v : PyVal)
    (h1 : k ≠ "url") :
    dNewsExtract env (args ++ [(k, v)]) = dNewsExtract env args := by
  unfold dNewsExtract reqStrArg
  simp only [getA_append_ne args k v "url" h1]

/-- Branch `dNepseCompanyDetails` ignores argument keys it does not read. -/
theorem dNepseCompanyDetails_ignore (env : Env) (args : Args) (k : String) (v : PyVal)
    (h1 : k ≠ "symbol") :
    dNepseCompanyDetails env (args ++ [(k, v)]) = dNepseCompanyDetails env args := by
  unfold dNepseCompanyDetails reqStrArg
  simp only [getA_append_ne args k v "symbol" h1]

/-- Branch `dNepseSymbolSnapshot` ignores argument keys it does not read. -/
theorem dNepseSymbolSnapshot_ignore (env : Env) (args : Args) (k : String) (v : PyVal)
    (h1 : k ≠ "symbol") :
    dNepseSymbolSnapshot env (args ++ [(k, v)]) = dNepseSymbolSnapshot env args := by
  unfold dNepseSymbolSnapshot reqStrArg
  simp only [getA_append_ne args k v "symbol" h1]

/-- Branch `dNepsePriceVolumeHistory` ignores argument keys it does not read. -/
theorem dNepsePriceVolumeHistory_ignore (env : Env) (args : Args) (k : String) (v : PyVal)
    (h1 : k ≠ "symbol") :
    dNepsePriceVolumeHistory env (args ++ [(k, v)]) = dNepsePriceVolumeHistory env args := by
  unfold dNepsePriceVolumeHistory reqStrArg
  simp only [getA_append_ne args k v "symbol" h1]

/-- Branch `dNepseFloorsheetOf` ignores argument keys it does not read. -/
theorem dNepseFloorsheetOf_ignore (env : Env) (args : Args) (k : String) (v : PyVal)
    (h1 : k ≠ "symbol") :
    dNepseFloorsheetOf env (args ++ [(k, v)]) = dNepseFloorsheetOf env args := by
  unfold dNepseFloorsheetOf reqStrArg
  simp only [getA_append_ne args k v "symbol" h1]

/-- Branch `dNepseDailyScripPriceGraph` ignores argument keys it does not read. -/
theorem dNepseDailyScripPriceGraph_ignore (env : Env) (args : Args) (k : String) (v : PyVal)
    (h1 : k ≠ "symbol") :
    dNepseDailyScripPriceGraph env (args ++ [(k, v)]) = dNepseDailyScripPriceGraph env args := by
  unfold dNepseDailyScripPriceGraph reqStrArg
  simp only [getA_append_ne args k v "symbol" h1]

/-- Branch `dNepseDailyIndexGraph` ignores argument keys it does not read. -/
theorem dNepseDailyIndexGraph_ignore (env : Env) (args : Args) (k : String) (v : PyVal)
    (h1 : k ≠ "kind") :
    dNepseDailyIndexGraph env (args ++ [(k, v)]) = dNepseDailyIndexGraph env args := by
  unfold dNepseDailyIndexGraph reqStrArg
  simp only [getA_append_ne args k v "kind" h1]

/-- Branch `dMarketQuote` ignores argument keys it does not read. -/
theorem dMarketQuote_ignore (env : Env) (args : Args) (k : String) (v : PyVal)
    (h1 : k ≠ "symbol") :
    dMarketQuote env (args ++ [(k, v)]) = dMarketQuote env args := by
  unfold dMarketQuote reqStrArg
  simp only [getA_append_ne args k v "symbol" h1]

/-- Branch `dMarketHistory` ignores argument keys it does not read. -/
theorem dMarketHistory_ignore (env : Env) (args : Args) (k : String) (v : PyVal)
    (h1 : k ≠ "symbol") (h2 : k ≠ "start") (h3 : k ≠ "end") (h4 : k ≠ "limit") :
    dMarketHistory env (args ++ [(k, v)]) = dMarketHistory env args := by
  unfold dMarketHistory reqStrArg
  simp only [getA_append_ne args k v "symbol" h1, getA_append_ne args k v "start" h2, getA_append_ne args k v "end" h3, getA_append_ne args k v "limit" h4]

/-- Branch `dMarketFx` ignores argument keys it does not read. -/
theorem dMarketFx_ignore (env : Env) (args : Args) (k : String) (v : PyVal)
    (h1 : k ≠ "pair") :
    dMarketFx env (args ++ [(k, v)]) = dMarketFx env args := by
  unfold dMarketFx reqStrArg
  simp only [getA_append_ne args k v "pair" h1]

/-- Branch `dMarketCrypto` ignores argument keys it does not read. -/
theorem dMarketCrypto_ignore (env : Env) (args : Args) (k : String) (v : PyVal)
    (h1 : k ≠ "symbol") (h2 : k ≠ "vs_currency") :
    dMarketCrypto env (args ++ [(k, v)]) = dMarketCrypto env args := by
  unfold dMarketCrypto reqStrArg
  simp only [getA_append_ne args k v "symbol" h1, getA_append_ne args k v "vs_currency" h2]

/-- Branch `dCompanyProfile` ignores argument keys it does not read. -/
theorem dCompanyProfile_ignore (env : Env) (args : Args) (k : String) (v : PyVal)
    (h1 : k ≠ "ticker") :
    dCompanyProfile env (args ++ [(k, v)]) = dCompanyProfile env args := by
  unfold dCompanyProfile reqStrArg
  simp only [getA_append_ne args k v "ticker" h1]

/-- Branch `dCompanyFinancials` ignores argument keys it does not read. -/
theorem dCompanyFinancials_ignore (env : Env) (args : Args) (k : String) (v : PyVal)
    (h1 : k ≠ "ticker") :
    dCompanyFinancials env (args ++ [(k, v)]) = dCompanyFinancials env args := by
  unfold dCompanyFinancials reqStrArg
  simp only [getA_append_ne args k v "ticker" h1]

/-- Branch `dSecSearch` ignores argument keys it does not read. -/
theorem dSecSearch_ignore (env : Env) (args : Args) (k : String) (v : PyVal)
    (h1 : k ≠ "query") (h2 : k ≠ "limit") :
    dSecSearch env (args ++ [(k, v)]) = dSecSearch env args := by
  unfold dSecSearch reqStrArg
  simp only [getA_append_ne args k v "query" h1, getA_append_ne args k v "limit" h2]

/-- Branch `dSecFiling` ignores argument keys it does not read. -/
theorem dSecFiling_ignore (env : Env) (args : Args) (k : String) (v : PyVal)
    (h1 : k ≠ "url") :
    dSecFiling env (args ++ [(k, v)]) = dSecFiling env args := by
  unfold dSecFiling reqStrArg
  simp only [getA_append_ne args k v "url" h1]

/-- Branch `dMacroSeries` ignores argument keys it does not read. -/
theorem dMacroSeries_ignore (env : Env) (args : Args) (k : String) (v : PyVal)
    (h1 : k ≠ "series_id") :
    dMacroSeries env (args ++ [(k, v)]) = dMacroSeries env args := by
  unfold dMacroSeries reqStrArg
  simp only [getA_append_ne args k v "series_id" h1]

/-- Branch `dSentimentAnalyze` ignores argument keys it does not read. -/
theorem dSentimentAnalyze_ignore (env : Env) (args : Args) (k : String) (v : PyVal)
    (h1 : k ≠ "text") :
    dSentimentAnalyze env (args ++ [(k, v)]) = dSentimentAnalyze env args := by
  unfold dSentimentAnalyze reqStrArg
  simp only [getA_append_ne args k v "text" h1]

/-- Branch `dCalcReturns` ignores argument keys it does not read. -/
theorem dCalcReturns_ignore (env : Env) (args : Args) (k : String) (v : PyVal)
    (h1 : k ≠ "prices") :
    dCalcReturns env (args ++ [(k, v)]) = dCalcReturns env args := by
  unfold dCalcReturns calcListArg
  simp only [getA_append_ne args k v "prices" h1]

/-- Branch `dCalcRisk` ignores argument keys it does not read. -/
theorem dCalcRisk_ignore (env : Env) (args : Args) (k : String) (v : PyVal)
    (h1 : k ≠ "returns") :
    dCalcRisk env (args ++ [(k, v)]) = dCalcRisk env args := by
  unfold dCalcRisk calcListArg
  simp only [getA_append_ne args k v "returns" h1]

/-- Branch `dCalcPortfolio` ignores argument keys it does not read. -/
theorem dCalcPortfolio_ignore (env : Env) (args : Args) (k : String) (v : PyVal)
    (h1 : k ≠ "weights") :
    dCalcPortfolio env (args ++ [(k, v)]) = dCalcPortfolio env args := by
  unfold dCalcPortfolio calcListArg
  simp only [getA_append_ne args k v "weights" h1]

/-- Branch `dMemoryPut` ignores argument keys it does not read. -/
theorem dMemoryPut_ignore (env : Env) (args : Args) (k : String) (v : PyVal)
    (h1 : k ≠ "content") (h2 : k ≠ "tags") (h3 : k ≠ "conversation_id") :
    dMemoryPut env (args ++ [(k, v)]) = dMemoryPut env args := by
  unfold dMemoryPut reqStrArg
  simp only [getA_append_ne args k v "content" h1, getA_append_ne args k v "tags" h2, getA_append_ne args k v "conversation_id" h3]

/-- Branch `dMemorySearch` ignores argument keys it does not read. -/
theorem dMemorySearch_ignore (env : Env) (args : Args) (k : String) (v : PyVal)
    (h1 : k ≠ "query") (h2 : k ≠ "limit") (h3 : k ≠ "conversation_id") :
    dMemorySearch env (args ++ [(k, v)]) = dMemorySearch env args := by
  unfold dMemorySearch reqStrArg
  simp only [getA_append_ne args k v "query" h1, getA_append_ne args k v "limit" h2, getA_append_ne args k v "conversation_id" h3]

/-- Branch `dResearchBundle` ignores argument keys it does not read. -/
theorem dResearchBundle_ignore (env : Env) (args : Args) (k : String) (v : PyVal)
    (h1 : k ≠ "ticker") (h2 : k ≠ "horizon_days") (h3 : k ≠ "news_limit") (h4 : k ≠ "filings_limit") :
    dResearchBundle env (args ++ [(k, v)]) = dResearchBundle env args := by
  unfold dResearchBundle reqStrArg
  simp only [getA_append_ne args k v "ticker" h1, getA_append_ne args k v "horizon_days" h2, getA_append_ne args k v "news_limit" h3, getA_append_ne args k v "filings_limit" h4]

/-- Branch `dReportGenerate` ignores argument keys it does not read. -/
theorem dReportGenerate_ignore (env : Env) (args : Args) (k : String) (v : PyVal)
    (h1 : k ≠ "ticker") (h2 : k ≠ "use_llm") (h3 : k ≠ "horizon_days") :
    dReportGenerate env (args ++ [(k, v)]) = dReportGenerate env args := by
  unfold dReportGenerate reqStrArg
  simp only [getA_append_ne args k v "ticker" h1, getA_append_ne args k v "use_llm" h2, getA_append_ne args k v "horizon_days" h3]

/-- Branch `dComparePrices` ignores argument keys it does not read. -/
theorem dComparePrices_ignore (env : Env) (args : Args) (k : String) (v : PyVal)
    (h1 : k ≠ "symbols") (h2 : k ≠ "start") (h3 : k ≠ "end") (h4 : k ≠ "horizon_days") :
    dComparePrices env (args ++ [(k, v)]) = dComparePrices env args := by
  unfold dComparePrices
  simp only [getA_append_ne args k v "symbols" h1, getA_append_ne args k v "start" h2, getA_append_ne args k v "end" h3, getA_append_ne args k v "horizon_days" h4]

/-- Branch `dPortfolioStats` ignores argument keys it does not read. -/
theorem dPortfolioStats_ignore (env : Env) (args : Args) (k : String) (v : PyVal)
    (h1 : k ≠ "symbols") (h2 : k ≠ "weights") (h3 : k ≠ "start") (h4 : k ≠ "end") (h5 : k ≠ "horizon_days") :
    dPortfolioStats env (args ++ [(k, v)]) = dPortfolioStats env args := by
  unfold dPortfolioStats
  simp only [getA_append_ne args k v "symbols" h1, getA_append_ne args k v "weights" h2, getA_append_ne args k v "start" h3, getA_append_ne args k v "end" h4, getA_append_ne args k v "horizon_days" h5]

/-- Branch `dPaperPortfolioCreate` ignores argument keys it does not read. -/
theorem dPaperPortfolioCreate_ignore (env : Env) (args : Args) (k : String) (v : PyVal)
    (h1 : k ≠ "name") (h2 : k ≠ "starting_cash") (h3 : k ≠ "currency") :
    dPaperPortfolioCreate env (args ++ [(k, v)]) = dPaperPortfolioCreate env args := by
  unfold dPaperPortfolioCreate
  simp only [getA_append_ne args k v "name" h1, getA_append_ne args k v "starting_cash" h2, getA_append_ne args k v "currency" h3]

/-- Branch `dPaperPortfolioSummary` ignores argument keys it does not read. -/
theorem dPaperPortfolioSummary_ignore (env : Env) (args : Args) (k : String) (v : PyVal)
    (h1 : k ≠ "portfolio_id") :
    dPaperPortfolioSummary env (args ++ [(k, v)]) = dPaperPortfolioSummary env args := by
  unfold dPaperPortfolioSummary reqStrArg
  simp only [getA_append_ne args k v "portfolio_id" h1]

/-- Branch `dPaperPositions` ignores argument keys it does not read. -/
theorem dPaperPositions_ignore (env : Env) (args : Args) (k : String) (v : PyVal)
    (h1 : k ≠ "portfolio_id") :
    dPaperPositions env (args ++ [(k, v)]) = dPaperPositions env args := by
  unfold dPaperPositions reqStrArg
  simp only [getA_append_ne args k v "portfolio_id" h1]

/-- Branch `dPaperTrades` ignores argument keys it does not read. -/
theorem dPaperTrades_ignore (env : Env) (args : Args) (k : String) (v : PyVal)
    (h1 : k ≠ "portfolio_id") (h2 : k ≠ "limit") :
    dPaperTrades env (args ++ [(k, v)]) = dPaperTrades env args := by
  unfold dPaperTrades reqStrArg
  simp only [getA_append_ne args k v "portfolio_id" h1, getA_append_ne args k v "limit" h2]

/-- Branch `dPaperTradeProposals` ignores argument keys it does not read. -/
theorem dPaperTradeProposals_ignore (env : Env) (args : Args) (k : String) (v : PyVal)
    (h1 : k ≠ "portfolio_id") (h2 : k ≠ "status") :
    dPaperTradeProposals env (args ++ [(k, v)]) = dPaperTradeProposals env args := by
  unfold dPaperTradeProposals reqStrArg
  simp only [getA_append_ne args k v "portfolio_id" h1, getA_append_ne args k v "status" h2]

/-- Branch `dPaperTradePropose` ignores argument keys it does not read. -/
theorem dPaperTradePropose_ignore (env : Env) (args : Args) (k : String) (v : PyVal)
    (h1 : k ≠ "portfolio_id") (h2 : k ≠ "symbol") (h3 : k ≠ "side") (h4 : k ≠ "quantity") (h5 : k ≠ "reason") (h6 : k ≠ "model") :
    dPaperTradePropose env (args ++ [(k, v)]) = dPaperTradePropose env args := by
  unfold dPaperTradePropose
  simp only [getA_append_ne args k v "portfolio_id" h1, getA_append_ne args k v "symbol" h2, getA_append_ne args k v "side" h3, getA_append_ne args k v "quantity" h4, getA_append_ne args k v "reason" h5, getA_append_ne args k v "model" h6]

/-- Missing `html` rejects `web.extract` (no strip is applied). -/
theorem dWebExtract_missing (env : Env) (args : Args) (h : getA args "html" = none) :
    dWebExtract env args = DOut.valErr "html is required" := by
  unfold dWebExtract
  rw [h]
  rfl

/-- Missing `symbols` rejects `compare.prices` (the `or []` default is caught
by the emptiness check). -/
theorem dComparePrices_missing (env : Env) (args : Args)
    (h : getA args "symbols" = none) :
    dComparePrices env args = DOut.valErr "symbols must be a non-empty list" := by
  unfold dComparePrices
  rw [h]
  rfl

/-- Missing any of the four required arguments of `paper.trade_propose`
produces a `ValueError`, provided the supplied values are scalars (so the
eager `float()` coercion of `quantity` cannot raise `TypeError` first). -/
theorem dPaperTradePropose_missing (env : Env) (args : Args) (r : String)
    (hr : r = "portfolio_id" ∨ r = "symbol" ∨ r = "side" ∨ r = "quantity")
    (hs : scalarArgs args) (h : getA args r = none) :
    ∃ m, dPaperTradePropose env args = DOut.valErr m := by
  have hv : scalarVal ((getA args "quantity").getD (PyVal.pyint 0)) :=
    scalarArgs_getD args "quantity" _ hs trivial
  unfold dPaperTradePropose bindFloat
  rcases hr with rfl | rfl | rfl | rfl
  · rcases scalar_pyFloatE _ hv with he | ⟨q, hq⟩
    · rw [he]
      exact ⟨_, rfl⟩
    · rw [hq, h]
      dsimp only
      exact ⟨"portfolio_id is required", by rw [if_pos (show pyStrip (pyStrv ((none : Option PyVal).getD (PyVal.pystr ""))) = "" from rfl)]⟩
  · rcases scalar_pyFloatE _ hv with he | ⟨q, hq⟩
    · rw [he]
      exact ⟨_, rfl⟩
    · rw [hq, h]
      dsimp only
      by_cases hpid : pyStrip (pyStrv ((getA args "portfolio_id").getD
          (PyVal.pystr ""))) = ""
      · exact ⟨"portfolio_id is required", by rw [if_pos hpid]⟩
      · exact ⟨"symbol is required", by rw [if_neg hpid]; rfl⟩
  · rcases scalar_pyFloatE _ hv with he | ⟨q, hq⟩
    · rw [he]
      exact ⟨_, rfl⟩
    · rw [hq, h]
      dsimp only
      by_cases hpid : pyStrip (pyStrv ((getA args "portfolio_id").getD
          (PyVal.pystr ""))) = ""
      · exact ⟨"portfolio_id is required", by rw [if_pos hpid]⟩
      · by_cases hsym : pyStrip (pyStrv ((getA args "symbol").getD
            (PyVal.pystr ""))) = ""
        · exact ⟨"symbol is required", by rw [if_neg hpid, if_pos hsym]⟩
        · exact ⟨"side must be buy or sell", by rw [if_neg hpid, if_neg hsym]; rfl⟩
  · rw [h, show (none : Option PyVal).getD (PyVal.pyint 0) = PyVal.pyint 0 from rfl]
    dsimp only [pyFloatE]
    by_cases hpid : pyStrip (pyStrv ((getA args "portfolio_id").getD
        (PyVal.pystr ""))) = ""
    · exact ⟨"portfolio_id is required", by rw [if_pos hpid]⟩
    · by_cases hsym : pyStrip (pyStrv ((getA args "symbol").getD
          (PyVal.pystr ""))) = ""
      · exact ⟨"symbol is required", by rw [if_neg hpid, if_pos hsym]⟩
      · by_cases hside : (pyLower (pyStrip (pyStrv ((getA args "side").getD
            (PyVal.pystr "")))) = "buy" ∨
            pyLower (pyStrip (pyStrv ((getA args "side").getD
              (PyVal.pystr "")))) = "sell")
        · exact ⟨"quantity must be > 0", by
            rw [if_neg hpid, if_neg hsym, if_neg (not_not_intro hside),
              if_pos (by norm_num : ((0 : Int) : Rat) ≤ 0)]⟩
        · exact ⟨"side must be buy or sell", by
            rw [if_neg hpid, if_neg hsym, if_pos hside]⟩

/-- Dispatch at name `web.search` selects its branch. -/
theorem dWebSearch_eq (env : Env) (args : Args) :
    dispatch env "web.search" args = dWebSearch env args := rfl

/-- Registry-required arguments of `web.search`. -/
theorem dWebSearch_req : requiredArgs "web.search" = ["query"] := rfl

/-- Declared schema property names of `web.search`. -/
theorem dWebSearch_keys : knownKeys "web.search" = ["query"] := rfl

/-- Dispatch at name `web.fetch` selects its branch. -/
theorem dWebFetch_eq (env : Env) (args : Args) :
    dispatch env "web.fetch" args = dWebFetch env args := rfl

/-- Registry-required arguments of `web.fetch`. -/
theorem dWebFetch_req : requiredArgs "web.fetch" = ["url"] := rfl

/-- Declared schema property names of `web.fetch`. -/
theorem dWebFetch_keys : knownKeys "web.fetch" = ["url", "headers"] := rfl

/-- Dispatch at name `web.fetch_browser` selects its branch. -/
theorem dWebFetchBrowser_eq (env : Env) (args : Args) :
    dispatch env "web.fetch_browser" args = dWebFetchBrowser env args := rfl

/-- Registry-required arguments of `web.fetch_browser`. -/
theorem dWebFetchBrowser_req : requiredArgs "web.fetch_browser" = ["url"] := rfl

/-- Declared schema property names of `web.fetch_browser`. -/
theorem dWebFetchBrowser_keys : knownKeys "web.fetch_browser" = ["url", "headers"] := rfl

/-- Dispatch at name `web.extract` selects its branch. -/
theorem dWebExtract_eq (env : Env) (args : Args) :
    dispatch env "web.extract" args = dWebExtract env args := rfl

/-- Registry-required arguments of `web.extract`. -/
theorem dWebExtract_req : requiredArgs "web.extract" = ["html"] := rfl

/-- Declared schema property names of `web.extract`. -/
theorem dWebExtract_keys : knownKeys "web.extract" = ["html"] := rfl

/-- Dispatch at name `market.quote` selects its branch. -/
theorem dMarketQuote_eq (env : Env) (args : Args) :
    dispatch env "market.quote" args = dMarketQuote env args := rfl

/-- Registry-required arguments of `market.quote`. -/
theorem dMarketQuote_req : requiredArgs "market.quote" = ["symbol"] := rfl

/-- Declared schema property names of `market.quote`. -/
theorem dMarketQuote_keys : knownKeys "market.quote" = ["symbol"] := rfl

/-- Dispatch at name `market.history` selects its branch. -/
theorem dMarketHistory_eq (env : Env) (args : Args) :
    dispatch env "market.history" args = dMarketHistory env args := rfl

/-- Registry-required arguments of `market.history`. -/
theorem dMarketHistory_req : requiredArgs "market.history" = ["symbol"] := rfl

/-- Declared schema property names of `market.history`. -/
theorem dMarketHistory_keys : knownKeys "market.history" = ["symbol", "start", "end", "limit"] := rfl

/-- Dispatch at name `market.fx` selects its branch. -/
theorem dMarketFx_eq (env : Env) (args : Args) :
    dispatch env "market.fx" args = dMarketFx env args := rfl

/-- Registry-required arguments of `market.fx`. -/
theorem dMarketFx_req : requiredArgs "market.fx" = ["pair"] := rfl

/-- Declared schema property names of `market.fx`. -/
theorem dMarketFx_keys : knownKeys "market.fx" = ["pair"] := rfl

/-- Dispatch at name `market.crypto` selects its branch. -/
theorem dMarketCrypto_eq (env : Env) (args : Args) :
    dispatch env "market.crypto" args = dMarketCrypto env args := rfl

/-- Registry-required arguments of `market.crypto`. -/
theorem dMarketCrypto_req : requiredArgs "market.crypto" = ["symbol"] := rfl

/-- Declared schema property names of `market.crypto`. -/
theorem dMarketCrypto_keys : knownKeys "market.crypto" = ["symbol", "vs_currency"] := rfl

/-- Dispatch at name `company.profile` selects its branch. -/
theorem dCompanyProfile_eq (env : Env) (args : Args) :
    dispatch env "company.profile" args = dCompanyProfile env args := rfl

/-- Registry-required arguments of `company.profile`. -/
theorem dCompanyProfile_req : requiredArgs "company.profile" = ["ticker"] := rfl

/-- Declared schema property names of `company.profile`. -/
theorem dCompanyProfile_keys : knownKeys "company.profile" = ["ticker"] := rfl

/-- Dispatch at name `company.financials` selects its branch. -/
theorem dCompanyFinancials_eq (env : Env) (args : Args) :
    dispatch env "company.financials" args = dCompanyFinancials env args := rfl

/-- Registry-required arguments of `company.financials`. -/
theorem dCompanyFinancials_req : requiredArgs "company.financials" = ["ticker"] := rfl

/-- Declared schema property names of `company.financials`. -/
theorem dCompanyFinancials_keys : knownKeys "company.financials" = ["ticker"] := rfl

/-- Dispatch at name `sec.search` selects its branch. -/
theorem dSecSearch_eq (env : Env) (args : Args) :
    dispatch env "sec.search" args = dSecSearch env args := rfl

/-- Registry-required arguments of `sec.search`. -/
theorem dSecSearch_req : requiredArgs "sec.search" = ["query"] := rfl

/-- Declared schema property names of `sec.search`. -/
theorem dSecSearch_keys : knownKeys "sec.search" = ["query", "limit"] := rfl

/-- Dispatch at name `sec.filing` selects its branch. -/
theorem dSecFiling_eq (env : Env) (args : Args) :
    dispatch env "sec.filing" args = dSecFiling env args := rfl

/-- Registry-required arguments of `sec.filing`. -/
theorem dSecFiling_req : requiredArgs "sec.filing" = ["url"] := rfl

/-- Declared schema property names of `sec.filing`. -/
theorem dSecFiling_keys : knownKeys "sec.filing" = ["url"] := rfl

/-- Dispatch at name `macro.series` selects its branch. -/
theorem dMacroSeries_eq (env : Env) (args : Args) :
    dispatch env "macro.series" args = dMacroSeries env args := rfl

/-- Registry-required arguments of `macro.series`. -/
theorem dMacroSeries_req : requiredArgs "macro.series" = ["series_id"] := rfl

/-- Declared schema property names of `macro.series`. -/
theorem dMacroSeries_keys : knownKeys "macro.series" = ["series_id"] := rfl

/-- Dispatch at name `news.search` selects its branch. -/
theorem dNewsSearch_eq (env : Env) (args : Args) :
    dispatch env "news.search" args = dNewsSearch env args := rfl

/-- Registry-required arguments of `news.search`. -/
theorem dNewsSearch_req : requiredArgs "news.search" = ["query"] := rfl

/-- Declared schema property names of `news.search`. -/
theorem dNewsSearch_keys : knownKeys "news.search" = ["query", "max_results"] := rfl

/-- Dispatch at name `news.extract` selects its branch. -/
theorem dNewsExtract_eq (env : Env) (args : Args) :
    dispatch env "news.extract" args = dNewsExtract env args := rfl

/-- Registry-required arguments of `news.extract`. -/
theorem dNewsExtract_req : requiredArgs "news.extract" = ["url"] := rfl

/-- Declared schema property names of `news.extract`. -/
theorem dNewsExtract_keys : knownKeys "news.extract" = ["url"] := rfl

/-- Dispatch at name `nepse.company_details` selects its branch. -/
theorem dNepseCompanyDetails_eq (env : Env) (args : Args) :
    dispatch env "nepse.company_details" args = dNepseCompanyDetails env args := rfl

/-- Registry-required arguments of `nepse.company_details`. -/
theorem dNepseCompanyDetails_req : requiredArgs "nepse.company_details" = ["symbol"] := rfl

/-- Declared schema property names of `nepse.company_details`. -/
theorem dNepseCompanyDetails_keys : knownKeys "nepse.company_details" = ["symbol"] := rfl

/-- Dispatch at name `nepse.price_volume` selects its branch. -/
theorem dNepsePriceVolume_eq (env : Env) (args : Args) :
    dispatch env "nepse.price_volume" args = dNepsePriceVolume env args := rfl

/-- Registry-required arguments of `nepse.price_volume`. -/
theorem dNepsePriceVolume_req : requiredArgs "nepse.price_volume" = [] := rfl

/-- Dispatch at name `nepse.live_market` selects its branch. -/
theorem dNepseLiveMarket_eq (env : Env) (args : Args) :
    dispatch env "nepse.live_market" args = dNepseLiveMarket env args := rfl

/-- Registry-required arguments of `nepse.live_market`. -/
theorem dNepseLiveMarket_req : requiredArgs "nepse.live_market" = [] := rfl

/-- Dispatch at name `nepse.symbol_snapshot` selects its branch. -/
theorem dNepseSymbolSnapshot_eq (env : Env) (args : Args) :
    dispatch env "nepse.symbol_snapshot" args = dNepseSymbolSnapshot env args := rfl

/-- Registry-required arguments of `nepse.symbol_snapshot`. -/
theorem dNepseSymbolSnapshot_req : requiredArgs "nepse.symbol_snapshot" = ["symbol"] := rfl

/-- Declared schema property names of `nepse.symbol_snapshot`. -/
theorem dNepseSymbolSnapshot_keys : knownKeys "nepse.symbol_snapshot" = ["symbol"] := rfl

/-- Dispatch at name `nepse.summary` selects its branch. -/
theorem dNepseSummary_eq (env : Env) (args : Args) :
    dispatch env "nepse.summary" args = dNepseSummary env args := rfl

/-- Registry-required arguments of `nepse.summary`. -/
theorem dNepseSummary_req : requiredArgs "nepse.summary" = [] := rfl

/-- Dispatch at name `nepse.index` selects its branch. -/
theorem dNepseIndex_eq (env : Env) (args : Args) :
    dispatch env "nepse.index" args = dNepseIndex env args := rfl

/-- Registry-required arguments of `nepse.index`. -/
theorem dNepseIndex_req : requiredArgs "nepse.index" = [] := rfl

/-- Dispatch at name `nepse.subindices` selects its branch. -/
theorem dNepseSubindices_eq (env : Env) (args : Args) :
    dispatch env "nepse.subindices" args = dNepseSubindices env args := rfl

/-- Registry-required arguments of `nepse.subindices`. -/
theorem dNepseSubindices_req : requiredArgs "nepse.subindices" = [] := rfl

/-- Dispatch at name `nepse.is_open` selects its branch. -/
theorem dNepseIsOpen_eq (env : Env) (args : Args) :
    dispatch env "nepse.is_open" args = dNepseIsOpen env args := rfl

/-- Registry-required arguments of `nepse.is_open`. -/
theorem dNepseIsOpen_req : requiredArgs "nepse.is_open" = [] := rfl

/-- Dispatch at name `nepse.top_gainers` selects its branch. -/
theorem dNepseTopGainers_eq (env : Env) (args : Args) :
    dispatch env "nepse.top_gainers" args = dNepseTopGainers env args := rfl

/-- Registry-required arguments of `nepse.top_gainers`. -/
theorem dNepseTopGainers_req : requiredArgs "nepse.top_gainers" = [] := rfl

/-- Dispatch at name `nepse.top_losers` selects its branch. -/
theorem dNepseTopLosers_eq (env : Env) (args : Args) :
    dispatch env "nepse.top_losers" args = dNepseTopLosers env args := rfl

/-- Registry-required arguments of `nepse.top_losers`. -/
theorem dNepseTopLosers_req : requiredArgs "nepse.top_losers" = [] := rfl

/-- Dispatch at name `nepse.top_trade_scrips` selects its branch. -/
theorem dNepseTopTradeScrips_eq (env : Env) (args : Args) :
    dispatch env "nepse.top_trade_scrips" args = dNepseTopTradeScrips env args := rfl

/-- Registry-required arguments of `nepse.top_trade_scrips`. -/
theorem dNepseTopTradeScrips_req : requiredArgs "nepse.top_trade_scrips" = [] := rfl

/-- Dispatch at name `nepse.top_transaction_scrips` selects its branch. -/
theorem dNepseTopTransactionScrips_eq (env : Env) (args : Args) :
    dispatch env "nepse.top_transaction_scrips" args = dNepseTopTransactionScrips env args := rfl

/-- Registry-required arguments of `nepse.top_transaction_scrips`. -/
theorem dNepseTopTransactionScrips_req : requiredArgs "nepse.top_transaction_scrips" = [] := rfl

/-- Dispatch at name `nepse.top_turnover_scrips` selects its branch. -/
theorem dNepseTopTurnoverScrips_eq (env : Env) (args : Args) :
    dispatch env "nepse.top_turnover_scrips" args = dNepseTopTurnoverScrips env args := rfl

/-- Registry-required arguments of `nepse.top_turnover_scrips`. -/
theorem dNepseTopTurnoverScrips_req : requiredArgs "nepse.top_turnover_scrips" = [] := rfl

/-- Dispatch at name `nepse.supply_demand` selects its branch. -/
theorem dNepseSupplyDemand_eq (env : Env) (args : Args) :
    dispatch env "nepse.supply_demand" args = dNepseSupplyDemand env args := rfl

/-- Registry-required arguments of `nepse.supply_demand`. -/
theorem dNepseSupplyDemand_req : requiredArgs "nepse.supply_demand" = [] := rfl

/-- Dispatch at name `nepse.trade_turnover_transaction` selects its branch. -/
theorem dNepseTradeTurnoverTransaction_eq (env : Env) (args : Args) :
    dispatch env "nepse.trade_turnover_transaction" args = dNepseTradeTurnoverTransaction env args := rfl

/-- Registry-required arguments of `nepse.trade_turnover_transaction`. -/
theorem dNepseTradeTurnoverTransaction_req : requiredArgs "nepse.trade_turnover_transaction" = [] := rfl

/-- Dispatch at name `nepse.company_list` selects its branch. -/
theorem dNepseCompanyList_eq (env : Env) (args : Args) :
    dispatch env "nepse.company_list" args = dNepseCompanyList env args := rfl

/-- Registry-required arguments of `nepse.company_list`. -/
theorem dNepseCompanyList_req : requiredArgs "nepse.company_list" = [] := rfl

/-- Dispatch at name `nepse.sector_scrips` selects its branch. -/
theorem dNepseSectorScrips_eq (env : Env) (args : Args) :
    dispatch env "nepse.sector_scrips" args = dNepseSectorScrips env args := rfl

/-- Registry-required arguments of `nepse.sector_scrips`. -/
theorem dNepseSectorScrips_req : requiredArgs "nepse.sector_scrips" = [] := rfl

/-- Dispatch at name `nepse.security_list` selects its branch. -/
theorem dNepseSecurityList_eq (env : Env) (args : Args) :
    dispatch env "nepse.security_list" args = dNepseSecurityList env args := rfl

/-- Registry-required arguments of `nepse.security_list`. -/
theorem dNepseSecurityList_req : requiredArgs "nepse.security_list" = [] := rfl

/-- Dispatch at name `nepse.price_volume_history` selects its branch. -/
theorem dNepsePriceVolumeHistory_eq (env : Env) (args : Args) :
    dispatch env "nepse.price_volume_history" args = dNepsePriceVolumeHistory env args := rfl

/-- Registry-required arguments of `nepse.price_volume_history`. -/
theorem dNepsePriceVolumeHistory_req : requiredArgs "nepse.price_volume_history" = ["symbol"] := rfl

/-- Declared schema property names of `nepse.price_volume_history`. -/
theorem dNepsePriceVolumeHistory_keys : knownKeys "nepse.price_volume_history" = ["symbol"] := rfl

/-- Dispatch at name `nepse.floorsheet` selects its branch. -/
theorem dNepseFloorsheet_eq (env : Env) (args : Args) :
    dispatch env "nepse.floorsheet" args = dNepseFloorsheet env args := rfl

/-- Registry-required arguments of `nepse.floorsheet`. -/
theorem dNepseFloorsheet_req : requiredArgs "nepse.floorsheet" = [] := rfl

/-- Dispatch at name `nepse.floorsheet_of` selects its branch. -/
theorem dNepseFloorsheetOf_eq (env : Env) (args : Args) :
    dispatch env "nepse.floorsheet_of" args = dNepseFloorsheetOf env args := rfl

/-- Registry-required arguments of `nepse.floorsheet_of`. -/
theorem dNepseFloorsheetOf_req : requiredArgs "nepse.floorsheet_of" = ["symbol"] := rfl

/-- Declared schema property names of `nepse.floorsheet_of`. -/
theorem dNepseFloorsheetOf_keys : knownKeys "nepse.floorsheet_of" = ["symbol"] := rfl

/-- Dispatch at name `nepse.daily_scrip_price_graph` selects its branch. -/
theorem dNepseDailyScripPriceGraph_eq (env : Env) (args : Args) :
    dispatch env "nepse.daily_scrip_price_graph" args = dNepseDailyScripPriceGraph env args := rfl

/-- Registry-required arguments of `nepse.daily_scrip_price_graph`. -/
theorem dNepseDailyScripPriceGraph_req : requiredArgs "nepse.daily_scrip_price_graph" = ["symbol"] := rfl

/-- Declared schema property names of `nepse.daily_scrip_price_graph`. -/
theorem dNepseDailyScripPriceGraph_keys : knownKeys "nepse.daily_scrip_price_graph" = ["symbol"] := rfl

/-- Dispatch at name `nepse.daily_index_graph` selects its branch. -/
theorem dNepseDailyIndexGraph_eq (env : Env) (args : Args) :
    dispatch env "nepse.daily_index_graph" args = dNepseDailyIndexGraph env args := rfl

/-- Registry-required arguments of `nepse.daily_index_graph`. -/
theorem dNepseDailyIndexGraph_req : requiredArgs "nepse.daily_index_graph" = ["kind"] := rfl

/-- Declared schema property names of `nepse.daily_index_graph`. -/
theorem dNepseDailyIndexGraph_keys : knownKeys "nepse.daily_index_graph" = ["kind"] := rfl

/-- Dispatch at name `sentiment.analyze` selects its branch. -/
theorem dSentimentAnalyze_eq (env : Env) (args : Args) :
    dispatch env "sentiment.analyze" args = dSentimentAnalyze env args := rfl

/-- Registry-required arguments of `sentiment.analyze`. -/
theorem dSentimentAnalyze_req : requiredArgs "sentiment.analyze" = ["text"] := rfl

/-- Declared schema property names of `sentiment.analyze`. -/
theorem dSentimentAnalyze_keys : knownKeys "sentiment.analyze" = ["text"] := rfl

/-- Dispatch at name `calc.returns` selects its branch. -/
theorem dCalcReturns_eq (env : Env) (args : Args) :
    dispatch env "calc.returns" args = dCalcReturns env args := rfl

/-- Declared schema property names of `calc.returns`. -/
theorem dCalcReturns_keys : knownKeys "calc.returns" = ["prices"] := rfl

/-- Dispatch at name `calc.risk` selects its branch. -/
theorem dCalcRisk_eq (env : Env) (args : Args) :
    dispatch env "calc.risk" args = dCalcRisk env args := rfl

/-- Declared schema property names of `calc.risk`. -/
theorem dCalcRisk_keys : knownKeys "calc.risk" = ["returns"] := rfl

/-- Dispatch at name `calc.portfolio` selects its branch. -/
theorem dCalcPortfolio_eq (env : Env) (args : Args) :
    dispatch env "calc.portfolio" args = dCalcPortfolio env args := rfl

/-- Declared schema property names of `calc.portfolio`. -/
theorem dCalcPortfolio_keys : knownKeys "calc.portfolio" = ["weights"] := rfl

/-- Dispatch at name `memory.put` selects its branch. -/
theorem dMemoryPut_eq (env : Env) (args : Args) :
    dispatch env "memory.put" args = dMemoryPut env args := rfl

/-- Registry-required arguments of `memory.put`. -/
theorem dMemoryPut_req : requiredArgs "memory.put" = ["content"] := rfl

/-- Declared schema property names of `memory.put`. -/
theorem dMemoryPut_keys : knownKeys "memory.put" = ["content", "tags", "conversation_id"] := rfl

/-- Dispatch at name `memory.search` selects its branch. -/
theorem dMemorySearch_eq (env : Env) (args : Args) :
    dispatch env "memory.search" args = dMemorySearch env args := rfl

/-- Registry-required arguments of `memory.search`. -/
theorem dMemorySearch_req : requiredArgs "memory.search" = ["query"] := rfl

/-- Declared schema property names of `memory.search`. -/
theorem dMemorySearch_keys : knownKeys "memory.search" = ["query", "limit", "conversation_id"] := rfl

/-- Dispatch at name `research.bundle` selects its branch. -/
theorem dResearchBundle_eq (env : Env) (args : Args) :
    dispatch env "research.bundle" args = dResearchBundle env args := rfl

/-- Registry-required arguments of `research.bundle`. -/
theorem dResearchBundle_req : requiredArgs "research.bundle" = ["ticker"] := rfl

/-- Declared schema property names of `research.bundle`. -/
theorem dResearchBundle_keys : knownKeys "research.bundle" = ["ticker", "horizon_days", "news_limit", "filings_limit"] := rfl

/-- Dispatch at name `report.generate` selects its branch. -/
theorem dReportGenerate_eq (env : Env) (args : Args) :
    dispatch env "report.generate" args = dReportGenerate env args := rfl

/-- Registry-required arguments of `report.generate`. -/
theorem dReportGenerate_req : requiredArgs "report.generate" = ["ticker"] := rfl

/-- Declared schema property names of `report.generate`. -/
theorem dReportGenerate_keys : knownKeys "report.generate" = ["ticker", "use_llm", "horizon_days"] := rfl

/-- Dispatch at name `compare.prices` selects its branch. -/
theorem dComparePrices_eq (env : Env) (args : Args) :
    dispatch env "compare.prices" args = dComparePrices env args := rfl

/-- Registry-required arguments of `compare.prices`. -/
theorem dComparePrices_req : requiredArgs "compare.prices" = ["symbols"] := rfl

/-- Declared schema property names of `compare.prices`. -/
theorem dComparePrices_keys : knownKeys "compare.prices" = ["symbols", "start", "end", "horizon_days"] := rfl

/-- Dispatch at name `portfolio.stats` selects its branch. -/
theorem dPortfolioStats_eq (env : Env) (args : Args) :
    dispatch env "portfolio.stats" args = dPortfolioStats env args := rfl

/-- Declared schema property names of `portfolio.stats`. -/
theorem dPortfolioStats_keys : knownKeys "portfolio.stats" = ["symbols", "weights", "start", "end", "horizon_days"] := rfl

/-- Dispatch at name `paper.portfolios` selects its branch. -/
theorem dPaperPortfolios_eq (env : Env) (args : Args) :
    dispatch env "paper.portfolios" args = dPaperPortfolios env args := rfl

/-- Registry-required arguments of `paper.portfolios`. -/
theorem dPaperPortfolios_req : requiredArgs "paper.portfolios" = [] := rfl

/-- Dispatch at name `paper.portfolio_create` selects its branch. -/
theorem dPaperPortfolioCreate_eq (env : Env) (args : Args) :
    dispatch env "paper.portfolio_create" args = dPaperPortfolioCreate env args := rfl

/-- Registry-required arguments of `paper.portfolio_create`. -/
theorem dPaperPortfolioCreate_req : requiredArgs "paper.portfolio_create" = [] := rfl

/-- Declared schema property names of `paper.portfolio_create`. -/
theorem dPaperPortfolioCreate_keys : knownKeys "paper.portfolio_create" = ["name", "starting_cash", "currency"] := rfl

/-- Dispatch at name `paper.portfolio_summary` selects its branch. -/
theorem dPaperPortfolioSummary_eq (env : Env) (args : Args) :
    dispatch env "paper.portfolio_summary" args = dPaperPortfolioSummary env args := rfl

/-- Registry-required arguments of `paper.portfolio_summary`. -/
theorem dPaperPortfolioSummary_req : requiredArgs "paper.portfolio_summary" = ["portfolio_id"] := rfl

/-- Declared schema property names of `paper.portfolio_summary`. -/
theorem dPaperPortfolioSummary_keys : knownKeys "paper.portfolio_summary" = ["portfolio_id"] := rfl

/-- Dispatch at name `paper.positions` selects its branch. -/
theorem dPaperPositions_eq (env : Env) (args : Args) :
    dispatch env "paper.positions" args = dPaperPositions env args := rfl

/-- Registry-required arguments of `paper.positions`. -/
theorem dPaperPositions_req : requiredArgs "paper.positions" = ["portfolio_id"] := rfl

/-- Declared schema property names of `paper.positions`. -/
theorem dPaperPositions_keys : knownKeys "paper.positions" = ["portfolio_id"] := rfl

/-- Dispatch at name `paper.trades` selects its branch. -/
theorem dPaperTrades_eq (env : Env) (args : Args) :
    dispatch env "paper.trades" args = dPaperTrades env args := rfl

/-- Registry-required arguments of `paper.trades`. -/
theorem dPaperTrades_req : requiredArgs "paper.trades" = ["portfolio_id"] := rfl

/-- Declared schema property names of `paper.trades`. -/
theorem dPaperTrades_keys : knownKeys "paper.trades" = ["portfolio_id", "limit"] := rfl

/-- Dispatch at name `paper.trade_proposals` selects its branch. -/
theorem dPaperTradeProposals_eq (env : Env) (args : Args) :
    dispatch env "paper.trade_proposals" args = dPaperTradeProposals env args := rfl

/-- Registry-required arguments of `paper.trade_proposals`. -/
theorem dPaperTradeProposals_req : requiredArgs "paper.trade_proposals" = ["portfolio_id"] := rfl

/-- Declared schema property names of `paper.trade_proposals`. -/
theorem dPaperTradeProposals_keys : knownKeys "paper.trade_proposals" = ["portfolio_id", "status"] := rfl

/-- Dispatch at name `paper.trade_propose` selects its branch. -/
theorem dPaperTradePropose_eq (env : Env) (args : Args) :
    dispatch env "paper.trade_propose" args = dPaperTradePropose env args := rfl

/-- Registry-required arguments of `paper.trade_propose`. -/
theorem dPaperTradePropose_req : requiredArgs "paper.trade_propose" = ["portfolio_id", "symbol", "side", "quantity"] := rfl

/-- Declared schema property names of `paper.trade_propose`. -/
theorem dPaperTradePropose_keys : knownKeys "paper.trade_propose" = ["portfolio_id", "symbol", "side", "quantity", "reason", "model"] := rfl

/-- The dispatcher rejects a name outside the registry with the unknown-tool
`KeyError` (mapped to a 404 not-found by the `/invoke` route). -/
theorem dispatch_unknown_name (env : Env) (name : String) (args : Args)
    (h : name ∉ toolNames) :
    dispatch env name args = DOut.notFound ("Unknown tool: " ++ name) := by
  have hc : toolNames.contains name = false := by
    cases h2 : toolNames.contains name
    · rfl
    · exact absurd (List.mem_of_elem_eq_true h2) h
  unfold dispatch
  rw [if_pos hc]

set_option maxHeartbeats 1000000 in
/-- Every registered tool outside the four lenient ones rejects a call that
misses one of its registry-required arguments with a `ValueError`, before any
domain function is invoked (for scalar argument values, so the eager numeric
coercions also stay inside the `ValueError` class). -/
theorem dispatch_missing_required (env : Env) (name : String) (args : Args)
    (r : String) (hmem : name ∈ toolNames) (hlen : name ∉ lenientTools)
    (hr : r ∈ requiredArgs name) (hs : scalarArgs args)
    (hget : getA args r = none) :
    ∃ m, dispatch env name args = DOut.valErr m := by
  replace hmem : name ∈ ["web.search", "web.fetch", "web.fetch_browser", "web.extract", "market.quote", "market.history", "market.fx", "market.crypto", "company.profile", "company.financials", "sec.search", "sec.filing", "macro.series", "news.search", "news.extract", "nepse.company_details", "nepse.price_volume", "nepse.live_market", "nepse.symbol_snapshot", "nepse.summary", "nepse.index", "nepse.subindices", "nepse.is_open", "nepse.top_gainers", "nepse.top_losers", "nepse.top_trade_scrips", "nepse.top_transaction_scrips", "nepse.top_turnover_scrips", "nepse.supply_demand", "nepse.trade_turnover_transaction", "nepse.company_list", "nepse.sector_scrips", "nepse.security_list", "nepse.price_volume_history", "nepse.floorsheet", "nepse.floorsheet_of", "nepse.daily_scrip_price_graph", "nepse.daily_index_graph", "sentiment.analyze", "calc.returns", "calc.risk", "calc.portfolio", "memory.put", "memory.search", "research.bundle", "report.generate", "compare.prices", "portfolio.stats", "paper.portfolios", "paper.portfolio_create", "paper.portfolio_summary", "paper.positions", "paper.trades", "paper.trade_proposals", "paper.trade_propose"] := hmem
  simp only [List.mem_cons, List.mem_nil_iff, or_false] at hmem
  rcases hmem with rfl | rfl | rfl | rfl | rfl | rfl | rfl | rfl | rfl | rfl | rfl | rfl | rfl | rfl | rfl | rfl | rfl | rfl | rfl | rfl | rfl | rfl | rfl | rfl | rfl | rfl | rfl | rfl | rfl | rfl | rfl | rfl | rfl | rfl | rfl | rfl | rfl | rfl | rfl | rfl | rfl | rfl | rfl | rfl | rfl | rfl | rfl | rfl | rfl | rfl | rfl | rfl | rfl | rfl | rfl
  · rw [dWebSearch_req] at hr
    obtain rfl := List.mem_singleton.mp hr
    exact ⟨_, (dWebSearch_eq env args).trans (reqStrArg_missing args "query" _ hget)⟩
  · rw [dWebFetch_req] at hr
    obtain rfl := List.mem_singleton.mp hr
    refine ⟨"url" ++ " is required", (dWebFetch_eq env args).trans ?_⟩
    unfold dWebFetch fetchWithHeaders
    exact reqStrArg_missing args "url" _ hget
  · rw [dWebFetchBrowser_req] at hr
    obtain rfl := List.mem_singleton.mp hr
    refine ⟨"url" ++ " is required", (dWebFetchBrowser_eq env args).trans ?_⟩
    unfold dWebFetchBrowser fetchWithHeaders
    exact reqStrArg_missing args "url" _ hget
  · rw [dWebExtract_req] at hr
    obtain rfl := List.mem_singleton.mp hr
    exact ⟨_, (dWebExtract_eq env args).trans (dWebExtract_missing env args hget)⟩
  · rw [dMarketQuote_req] at hr
    obtain rfl := List.mem_singleton.mp hr
    exact ⟨_, (dMarketQuote_eq env args).trans (reqStrArg_missing args "symbol" _ hget)⟩
  · rw [dMarketHistory_req] at hr
    obtain rfl := List.mem_singleton.mp hr
    exact ⟨_, (dMarketHistory_eq env args).trans (reqStrArg_missing args "symbol" _ hget)⟩
  · rw [dMarketFx_req] at hr
    obtain rfl := List.mem_singleton.mp hr
    exact ⟨_, (dMarketFx_eq env args).trans (reqStrArg_missing args "pair" _ hget)⟩
  · rw [dMarketCrypto_req] at hr
    obtain rfl := List.mem_singleton.mp hr
    exact ⟨_, (dMarketCrypto_eq env args).trans (reqStrArg_missing args "symbol" _ hget)⟩
  · rw [dCompanyProfile_req] at hr
    obtain rfl := List.mem_singleton.mp hr
    exact ⟨_, (dCompanyProfile_eq env args).trans (reqStrArg_missing args "ticker" _ hget)⟩
  · rw [dCompanyFinancials_req] at hr
    obtain rfl := List.mem_singleton.mp hr
    exact ⟨_, (dCompanyFinancials_eq env args).trans (reqStrArg_missing args "ticker" _ hget)⟩
  · rw [dSecSearch_req] at hr
    obtain rfl := List.mem_singleton.mp hr
    exact ⟨_, (dSecSearch_eq env args).trans (reqStrArg_missing args "query" _ hget)⟩
  · rw [dSecFiling_req] at hr
    obtain rfl := List.mem_singleton.mp hr
    exact ⟨_, (dSecFiling_eq env args).trans (reqStrArg_missing args "url" _ hget)⟩
  · rw [dMacroSeries_req] at hr
    obtain rfl := List.mem_singleton.mp hr
    exact ⟨_, (dMacroSeries_eq env args).trans (reqStrArg_missing args "series_id" _ hget)⟩
  · rw [dNewsSearch_req] at hr
    obtain rfl := List.mem_singleton.mp hr
    exact ⟨_, (dNewsSearch_eq env args).trans (reqStrArg_missing args "query" _ hget)⟩
  · rw [dNewsExtract_req] at hr
    obtain rfl := List.mem_singleton.mp hr
    exact ⟨_, (dNewsExtract_eq env args).trans (reqStrArg_missing args "url" _ hget)⟩
  · rw [dNepseCompanyDetails_req] at hr
    obtain rfl := List.mem_singleton.mp hr
    exact ⟨_, (dNepseCompanyDetails_eq env args).trans (reqStrArg_missing args "symbol" _ hget)⟩
  · rw [dNepsePriceVolume_req] at hr
    exact absurd hr (List.not_mem_nil r)
  · rw [dNepseLiveMarket_req] at hr
    exact absurd hr (List.not_mem_nil r)
  · rw [dNepseSymbolSnapshot_req] at hr
    obtain rfl := List.mem_singleton.mp hr
    exact ⟨_, (dNepseSymbolSnapshot_eq env args).trans (reqStrArg_missing args "symbol" _ hget)⟩
  · rw [dNepseSummary_req] at hr
    exact absurd hr (List.not_mem_nil r)
  · rw [dNepseIndex_req] at hr
    exact absurd hr (List.not_mem_nil r)
  · rw [dNepseSubindices_req] at hr
    exact absurd hr (List.not_mem_nil r)
  · rw [dNepseIsOpen_req] at hr
    exact absurd hr (List.not_mem_nil r)
  · rw [dNepseTopGainers_req] at hr
    exact absurd hr (List.not_mem_nil r)
  · rw [dNepseTopLosers_req] at hr
    exact absurd hr (List.not_mem_nil r)
  · rw [dNepseTopTradeScrips_req] at hr
    exact absurd hr (List.not_mem_nil r)
  · rw [dNepseTopTransactionScrips_req] at hr
    exact absurd hr (List.not_mem_nil r)
  · rw [dNepseTopTurnoverScrips_req] at hr
    exact absurd hr (List.not_mem_nil r)
  · rw [dNepseSupplyDemand_req] at hr
    exact absurd hr (List.not_mem_nil r)
  · rw [dNepseTradeTurnoverTransaction_req] at hr
    exact absurd hr (List.not_mem_nil r)
  · rw [dNepseCompanyList_req] at hr
    exact absurd hr (List.not_mem_nil r)
  · rw [dNepseSectorScrips_req] at hr
    exact absurd hr (List.not_mem_nil r)
  · rw [dNepseSecurityList_req] at hr
    exact absurd hr (List.not_mem_nil r)
  · rw [dNepsePriceVolumeHistory_req] at hr
    obtain rfl := List.mem_singleton.mp hr
    exact ⟨_, (dNepsePriceVolumeHistory_eq env args).trans (reqStrArg_missing args "symbol" _ hget)⟩
  · rw [dNepseFloorsheet_req] at hr
    exact absurd hr (List.not_mem_nil r)
  · rw [dNepseFloorsheetOf_req] at hr
    obtain rfl := List.mem_singleton.mp hr
    exact ⟨_, (dNepseFloorsheetOf_eq env args).trans (reqStrArg_missing args "symbol" _ hget)⟩
  · rw [dNepseDailyScripPriceGraph_req] at hr
    obtain rfl := List.mem_singleton.mp hr
    exact ⟨_, (dNepseDailyScripPriceGraph_eq env args).trans (reqStrArg_missing args "symbol" _ hget)⟩
  · rw [dNepseDailyIndexGraph_req] at hr
    obtain rfl := List.mem_singleton.mp hr
    exact ⟨_, (dNepseDailyIndexGraph_eq env args).trans (reqStrArg_missing args "kind" _ hget)⟩
  · rw [dSentimentAnalyze_req] at hr
    obtain rfl := List.mem_singleton.mp hr
    exact ⟨_, (dSentimentAnalyze_eq env args).trans (reqStrArg_missing args "text" _ hget)⟩
  · exact absurd (by decide : "calc.returns" ∈ lenientTools) hlen
  · exact absurd (by decide : "calc.risk" ∈ lenientTools) hlen
  · exact absurd (by decide : "calc.portfolio" ∈ lenientTools) hlen
  · rw [dMemoryPut_req] at hr
    obtain rfl := List.mem_singleton.mp hr
    exact ⟨_, (dMemoryPut_eq env args).trans (reqStrArg_missing args "content" _ hget)⟩
  · rw [dMemorySearch_req] at hr
    obtain rfl := List.mem_singleton.mp hr
    exact ⟨_, (dMemorySearch_eq env args).trans (reqStrArg_missing args "query" _ hget)⟩
  · rw [dResearchBundle_req] at hr
    obtain rfl := List.mem_singleton.mp hr
    exact ⟨_, (dResearchBundle_eq env args).trans (reqStrArg_missing args "ticker" _ hget)⟩
  · rw [dReportGenerate_req] at hr
    obtain rfl := List.mem_singleton.mp hr
    exact ⟨_, (dReportGenerate_eq env args).trans (reqStrArg_missing args "ticker" _ hget)⟩
  · rw [dComparePrices_req] at hr
    obtain rfl := List.mem_singleton.mp hr
    exact ⟨_, (dComparePrices_eq env args).trans (dComparePrices_missing env args hget)⟩
  · exact absurd (by decide : "portfolio.stats" ∈ lenientTools) hlen
  · rw [dPaperPortfolios_req] at hr
    exact absurd hr (List.not_mem_nil r)
  · rw [dPaperPortfolioCreate_req] at hr
    exact absurd hr (List.not_mem_nil r)
  · rw [dPaperPortfolioSummary_req] at hr
    obtain rfl := List.mem_singleton.mp hr
    exact ⟨_, (dPaperPortfolioSummary_eq env args).trans (reqStrArg_missing args "portfolio_id" _ hget)⟩
  · rw [dPaperPositions_req] at hr
    obtain rfl := List.mem_singleton.mp hr
    exact ⟨_, (dPaperPositions_eq env args).trans (reqStrArg_missing args "portfolio_id" _ hget)⟩
  · rw [dPaperTrades_req] at hr
    obtain rfl := List.mem_singleton.mp hr
    exact ⟨_, (dPaperTrades_eq env args).trans (reqStrArg_missing args "portfolio_id" _ hget)⟩
  · rw [dPaperTradeProposals_req] at hr
    obtain rfl := List.mem_singleton.mp hr
    exact ⟨_, (dPaperTradeProposals_eq env args).trans (reqStrArg_missing args "portfolio_id" _ hget)⟩
  · rw [dPaperTradePropose_req] at hr
    simp only [List.mem_cons, List.mem_nil_iff, or_false] at hr
    obtain ⟨m, hm⟩ := dPaperTradePropose_missing env args r hr hs hget
    exact ⟨m, (dPaperTradePropose_eq env args).trans hm⟩

set_option maxHeartbeats 1000000 in
/-- The dispatcher ignores argument keys outside a tool's declared schema
properties: appending such an entry never changes the outcome. -/
theorem dispatch_ignores_unknown (env : Env) (name : String) (args : Args)
    (k : String) (v : PyVal) (hk : k ∉ knownKeys name) :
    dispatch env name (args ++ [(k, v)]) = dispatch env name args := by
  by_cases hmem : name ∈ toolNames
  · replace hmem : name ∈ ["web.search", "web.fetch", "web.fetch_browser", "web.extract", "market.quote", "market.history", "market.fx", "market.crypto", "company.profile", "company.financials", "sec.search", "sec.filing", "macro.series", "news.search", "news.extract", "nepse.company_details", "nepse.price_volume", "nepse.live_market", "nepse.symbol_snapshot", "nepse.summary", "nepse.index", "nepse.subindices", "nepse.is_open", "nepse.top_gainers", "nepse.top_losers", "nepse.top_trade_scrips", "nepse.top_transaction_scrips", "nepse.top_turnover_scrips", "nepse.supply_demand", "nepse.trade_turnover_transaction", "nepse.company_list", "nepse.sector_scrips", "nepse.security_list", "nepse.price_volume_history", "nepse.floorsheet", "nepse.floorsheet_of", "nepse.daily_scrip_price_graph", "nepse.daily_index_graph", "sentiment.analyze", "calc.returns", "calc.risk", "calc.portfolio", "memory.put", "memory.search", "research.bundle", "report.generate", "compare.prices", "portfolio.stats", "paper.portfolios", "paper.portfolio_create", "paper.portfolio_summary", "paper.positions", "paper.trades", "paper.trade_proposals", "paper.trade_propose"] := hmem
    simp only [List.mem_cons, List.mem_nil_iff, or_false] at hmem
    rcases hmem with rfl | rfl | rfl | rfl | rfl | rfl | rfl | rfl | rfl | rfl | rfl | rfl | rfl | rfl | rfl | rfl | rfl | rfl | rfl | rfl | rfl | rfl | rfl | rfl | rfl | rfl | rfl | rfl | rfl | rfl | rfl | rfl | rfl | rfl | rfl | rfl | rfl | rfl | rfl | rfl | rfl | rfl | rfl | rfl | rfl | rfl | rfl | rfl | rfl | rfl | rfl | rfl | rfl | rfl | rfl
    · rw [dWebSearch_keys] at hk
      simp only [List.mem_cons, List.mem_nil_iff, or_false] at hk
      exact (dWebSearch_eq env (args ++ [(k, v)])).trans
        ((dWebSearch_ignore env args k v hk).trans (dWebSearch_eq env args).symm)
    · rw [dWebFetch_keys] at hk
      simp only [List.mem_cons, List.mem_nil_iff, or_false, not_or] at hk
      exact (dWebFetch_eq env (args ++ [(k, v)])).trans
        ((dWebFetch_ignore env args k v hk.1 hk.2).trans (dWebFetch_eq env args).symm)
    · rw [dWebFetchBrowser_keys] at hk
      simp only [List.mem_cons, List.mem_nil_iff, or_false, not_or] at hk
      exact (dWebFetchBrowser_eq env (args ++ [(k, v)])).trans
        ((dWebFetchBrowser_ignore env args k v hk.1 hk.2).trans (dWebFetchBrowser_eq env args).symm)
    · rw [dWebExtract_keys] at hk
      simp only [List.mem_cons, List.mem_nil_iff, or_false] at hk
      exact (dWebExtract_eq env (args ++ [(k, v)])).trans
        ((dWebExtract_ignore env args k v hk).trans (dWebExtract_eq env args).symm)
    · rw [dMarketQuote_keys] at hk
      simp only [List.mem_cons, List.mem_nil_iff, or_false] at hk
      exact (dMarketQuote_eq env (args ++ [(k, v)])).trans
        ((dMarketQuote_ignore env args k v hk).trans (dMarketQuote_eq env args).symm)
    · rw [dMarketHistory_keys] at hk
      simp only [List.mem_cons, List.mem_nil_iff, or_false, not_or] at hk
      exact (dMarketHistory_eq env (args ++ [(k, v)])).trans
        ((dMarketHistory_ignore env args k v hk.1 hk.2.1 hk.2.2.1 hk.2.2.2).trans (dMarketHistory_eq env args).symm)
    · rw [dMarketFx_keys] at hk
      simp only [List.mem_cons, List.mem_nil_iff, or_false] at hk
      exact (dMarketFx_eq env (args ++ [(k, v)])).trans
        ((dMarketFx_ignore env args k v hk).trans (dMarketFx_eq env args).symm)
    · rw [dMarketCrypto_keys] at hk
      simp only [List.mem_cons, List.mem_nil_iff, or_false, not_or] at hk
      exact (dMarketCrypto_eq env (args ++ [(k, v)])).trans
        ((dMarketCrypto_ignore env args k v hk.1 hk.2).trans (dMarketCrypto_eq env args).symm)
    · rw [dCompanyProfile_keys] at hk
      simp only [List.mem_cons, List.mem_nil_iff, or_false] at hk
      exact (dCompanyProfile_eq env (args ++ [(k, v)])).trans
        ((dCompanyProfile_ignore env args k v hk).trans (dCompanyProfile_eq env args).symm)
    · rw [dCompanyFinancials_keys] at hk
      simp only [List.mem_cons, List.mem_nil_iff, or_false] at hk
      exact (dCompanyFinancials_eq env (args ++ [(k, v)])).trans
        ((dCompanyFinancials_ignore env args k v hk).trans (dCompanyFinancials_eq env args).symm)
    · rw [dSecSearch_keys] at hk
      simp only [List.mem_cons, List.mem_nil_iff, or_false, not_or] at hk
      exact (dSecSearch_eq env (args ++ [(k, v)])).trans
        ((dSecSearch_ignore env args k v hk.1 hk.2).trans (dSecSearch_eq env args).symm)
    · rw [dSecFiling_keys] at hk
      simp only [List.mem_cons, List.mem_nil_iff, or_false] at hk
      exact (dSecFiling_eq env (args ++ [(k, v)])).trans
        ((dSecFiling_ignore env args k v hk).trans (dSecFiling_eq env args).symm)
    · rw [dMacroSeries_keys] at hk
      simp only [List.mem_cons, List.mem_nil_iff, or_false] at hk
      exact (dMacroSeries_eq env (args ++ [(k, v)])).trans
        ((dMacroSeries_ignore env args k v hk).trans (dMacroSeries_eq env args).symm)
    · rw [dNewsSearch_keys] at hk
      simp only [List.mem_cons, List.mem_nil_iff, or_false, not_or] at hk
      exact (dNewsSearch_eq env (args ++ [(k, v)])).trans
        ((dNewsSearch_ignore env args k v hk.1 hk.2).trans (dNewsSearch_eq env args).symm)
    · rw [dNewsExtract_keys] at hk
      simp only [List.mem_cons, List.mem_nil_iff, or_false] at hk
      exact (dNewsExtract_eq env (args ++ [(k, v)])).trans
        ((dNewsExtract_ignore env args k v hk).trans (dNewsExtract_eq env args).symm)
    · rw [dNepseCompanyDetails_keys] at hk
      simp only [List.mem_cons, List.mem_nil_iff, or_false] at hk
      exact (dNepseCompanyDetails_eq env (args ++ [(k, v)])).trans
        ((dNepseCompanyDetails_ignore env args k v hk).trans (dNepseCompanyDetails_eq env args).symm)
    · exact (dNepsePriceVolume_eq env (args ++ [(k, v)])).trans (dNepsePriceVolume_eq env args).symm
    · exact (dNepseLiveMarket_eq env (args ++ [(k, v)])).trans (dNepseLiveMarket_eq env args).symm
    · rw [dNepseSymbolSnapshot_keys] at hk
      simp only [List.mem_cons, List.mem_nil_iff, or_false] at hk
      exact (dNepseSymbolSnapshot_eq env (args ++ [(k, v)])).trans
        ((dNepseSymbolSnapshot_ignore env args k v hk).trans (dNepseSymbolSnapshot_eq env args).symm)
    · exact (dNepseSummary_eq env (args ++ [(k, v)])).trans (dNepseSummary_eq env args).symm
    · exact (dNepseIndex_eq env (args ++ [(k, v)])).trans (dNepseIndex_eq env args).symm
    · exact (dNepseSubindices_eq env (args ++ [(k, v)])).trans (dNepseSubindices_eq env args).symm
    · exact (dNepseIsOpen_eq env (args ++ [(k, v)])).trans (dNepseIsOpen_eq env args).symm
    · exact (dNepseTopGainers_eq env (args ++ [(k, v)])).trans (dNepseTopGainers_eq env args).symm
    · exact (dNepseTopLosers_eq env (args ++ [(k, v)])).trans (dNepseTopLosers_eq env args).symm
    · exact (dNepseTopTradeScrips_eq env (args ++ [(k, v)])).trans (dNepseTopTradeScrips_eq env args).symm
    · exact (dNepseTopTransactionScrips_eq env (args ++ [(k, v)])).trans (dNepseTopTransactionScrips_eq env args).symm
    · exact (dNepseTopTurnoverScrips_eq env (args ++ [(k, v)])).trans (dNepseTopTurnoverScrips_eq env args).symm
    · exact (dNepseSupplyDemand_eq env (args ++ [(k, v)])).trans (dNepseSupplyDemand_eq env args).symm
    · exact (dNepseTradeTurnoverTransaction_eq env (args ++ [(k, v)])).trans (dNepseTradeTurnoverTransaction_eq env args).symm
    · exact (dNepseCompanyList_eq env (args ++ [(k, v)])).trans (dNepseCompanyList_eq env args).symm
    · exact (dNepseSectorScrips_eq env (args ++ [(k, v)])).trans (dNepseSectorScrips_eq env args).symm
    · exact (dNepseSecurityList_eq env (args ++ [(k, v)])).trans (dNepseSecurityList_eq env args).symm
    · rw [dNepsePriceVolumeHistory_keys] at hk
      simp only [List.mem_cons, List.mem_nil_iff, or_false] at hk
      exact (dNepsePriceVolumeHistory_eq env (args ++ [(k, v)])).trans
        ((dNepsePriceVolumeHistory_ignore env args k v hk).trans (dNepsePriceVolumeHistory_eq env args).symm)
    · exact (dNepseFloorsheet_eq env (args ++ [(k, v)])).trans (dNepseFloorsheet_eq env args).symm
    · rw [dNepseFloorsheetOf_keys] at hk
      simp only [List.mem_cons, List.mem_nil_iff, or_false] at hk
      exact (dNepseFloorsheetOf_eq env (args ++ [(k, v)])).trans
        ((dNepseFloorsheetOf_ignore env args k v hk).trans (dNepseFloorsheetOf_eq env args).symm)
    · rw [dNepseDailyScripPriceGraph_keys] at hk
      simp only [List.mem_cons, List.mem_nil_iff, or_false] at hk
      exact (dNepseDailyScripPriceGraph_eq env (args ++ [(k, v)])).trans
        ((dNepseDailyScripPriceGraph_ignore env args k v hk).trans (dNepseDailyScripPriceGraph_eq env args).symm)
    · rw [dNepseDailyIndexGraph_keys] at hk
      simp only [List.mem_cons, List.mem_nil_iff, or_false] at hk
      exact (dNepseDailyIndexGraph_eq env (args ++ [(k, v)])).trans
        ((dNepseDailyIndexGraph_ignore env args k v hk).trans (dNepseDailyIndexGraph_eq env args).symm)
    · rw [dSentimentAnalyze_keys] at hk
      simp only [List.mem_cons, List.mem_nil_iff, or_false] at hk
      exact (dSentimentAnalyze_eq env (args ++ [(k, v)])).trans
        ((dSentimentAnalyze_ignore env args k v hk).trans (dSentimentAnalyze_eq env args).symm)
    · rw [dCalcReturns_keys] at hk
      simp only [List.mem_cons, List.mem_nil_iff, or_false] at hk
      exact (dCalcReturns_eq env (args ++ [(k, v)])).trans
        ((dCalcReturns_ignore env args k v hk).trans (dCalcReturns_eq env args).symm)
    · rw [dCalcRisk_keys] at hk
      simp only [List.mem_cons, List.mem_nil_iff, or_false] at hk
      exact (dCalcRisk_eq env (args ++ [(k, v)])).trans
        ((dCalcRisk_ignore env args k v hk).trans (dCalcRisk_eq env args).symm)
    · rw [dCalcPortfolio_keys] at hk
      simp only [List.mem_cons, List.mem_nil_iff, or_false] at hk
      exact (dCalcPortfolio_eq env (args ++ [(k, v)])).trans
        ((dCalcPortfolio_ignore env args k v hk).trans (dCalcPortfolio_eq env args).symm)
    · rw [dMemoryPut_keys] at hk
      simp only [List.mem_cons, List.mem_nil_iff, or_false, not_or] at hk
      exact (dMemoryPut_eq env (args ++ [(k, v)])).trans
        ((dMemoryPut_ignore env args k v hk.1 hk.2.1 hk.2.2).trans (dMemoryPut_eq env args).symm)
    · rw [dMemorySearch_keys] at hk
      simp only [List.mem_cons, List.mem_nil_iff, or_false, not_or] at hk
      exact (dMemorySearch_eq env (args ++ [(k, v)])).trans
        ((dMemorySearch_ignore env args k v hk.1 hk.2.1 hk.2.2).trans (dMemorySearch_eq env args).symm)
    · rw [dResearchBundle_keys] at hk
      simp only [List.mem_cons, List.mem_nil_iff, or_false, not_or] at hk
      exact (dResearchBundle_eq env (args ++ [(k, v)])).trans
        ((dResearchBundle_ignore env args k v hk.1 hk.2.1 hk.2.2.1 hk.2.2.2).trans (dResearchBundle_eq env args).symm)
    · rw [dReportGenerate_keys] at hk
      simp only [List.mem_cons, List.mem_nil_iff, or_false, not_or] at hk
      exact (dReportGenerate_eq env (args ++ [(k, v)])).trans
        ((dReportGenerate_ignore env args k v hk.1 hk.2.1 hk.2.2).trans (dReportGenerate_eq env args).symm)
    · rw [dComparePrices_keys] at hk
      simp only [List.mem_cons, List.mem_nil_iff, or_false, not_or] at hk
      exact (dComparePrices_eq env (args ++ [(k, v)])).trans
        ((dComparePrices_ignore env args k v hk.1 hk.2.1 hk.2.2.1 hk.2.2.2).trans (dComparePrices_eq env args).symm)
    · rw [dPortfolioStats_keys] at hk
      simp only [List.mem_cons, List.mem_nil_iff, or_false, not_or] at hk
      exact (dPortfolioStats_eq env (args ++ [(k, v)])).trans
        ((dPortfolioStats_ignore env args k v hk.1 hk.2.1 hk.2.2.1 hk.2.2.2.1 hk.2.2.2.2).trans (dPortfolioStats_eq env args).symm)
    · exact (dPaperPortfolios_eq env (args ++ [(k, v)])).trans (dPaperPortfolios_eq env args).symm
    · rw [dPaperPortfolioCreate_keys] at hk
      simp only [List.mem_cons, List.mem_nil_iff, or_false, not_or] at hk
      exact (dPaperPortfolioCreate_eq env (args ++ [(k, v)])).trans
        ((dPaperPortfolioCreate_ignore env args k v hk.1 hk.2.1 hk.2.2).trans (dPaperPortfolioCreate_eq env args).symm)
    · rw [dPaperPortfolioSummary_keys] at hk
      simp only [List.mem_cons, List.mem_nil_iff, or_false] at hk
      exact (dPaperPortfolioSummary_eq env (args ++ [(k, v)])).trans
        ((dPaperPortfolioSummary_ignore env args k v hk).trans (dPaperPortfolioSummary_eq env args).symm)
    · rw [dPaperPositions_keys] at hk
      simp only [List.mem_cons, List.mem_nil_iff, or_false] at hk
      exact (dPaperPositions_eq env (args ++ [(k, v)])).trans
        ((dPaperPositions_ignore env args k v hk).trans (dPaperPositions_eq env args).symm)
    · rw [dPaperTrades_keys] at hk
      simp only [List.mem_cons, List.mem_nil_iff, or_false, not_or] at hk
      exact (dPaperTrades_eq env (args ++ [(k, v)])).trans
        ((dPaperTrades_ignore env args k v hk.1 hk.2).trans (dPaperTrades_eq env args).symm)
    · rw [dPaperTradeProposals_keys] at hk
      simp only [List.mem_cons, List.mem_nil_iff, or_false, not_or] at hk
      exact (dPaperTradeProposals_eq env (args ++ [(k, v)])).trans
        ((dPaperTradeProposals_ignore env args k v hk.1 hk.2).trans (dPaperTradeProposals_eq env args).symm)
    · rw [dPaperTradePropose_keys] at hk
      simp only [List.mem_cons, List.mem_nil_iff, or_false, not_or] at hk
      exact (dPaperTradePropose_eq env (args ++ [(k, v)])).trans
        ((dPaperTradePropose_ignore env args k v hk.1 hk.2.1 hk.2.2.1 hk.2.2.2.1 hk.2.2.2.2.1 hk.2.2.2.2.2).trans (dPaperTradePropose_eq env args).symm)
  · have hc : toolNames.contains name = false := by
      cases h2 : toolNames.contains name
      · rfl
      · exact absurd (List.mem_of_elem_eq_true h2) hmem
    unfold dispatch
    rw [if_pos hc, if_pos hc]

/-- C7 (amended): the dispatcher rejects an unknown tool name with the
unknown-tool `KeyError` (surfaced by the `/invoke` route as a 404); every
registered tool except `calc.returns`, `calc.risk`, `calc.portfolio` and
`portfolio.stats` rejects a call missing a registry-required argument with a
`ValueError` before its domain function runs (for scalar argument values);
and every tool ignores argument keys outside its declared schema properties,
so a call with all required arguments plus extra unknown arguments is
accepted with the unknowns ignored.  The four lenient tools are the
correction: each substitutes an empty list for its missing required list
argument and invokes its domain function anyway. -/
theorem dispatch_validation_contract :
    (∀ (env : Env) (name : String) (args : Args), name ∉ toolNames →
      dispatch env name args = DOut.notFound ("Unknown tool: " ++ name)) ∧
    (∀ (env : Env) (name : String) (args : Args) (r : String),
      name ∈ toolNames → name ∉ lenientTools → r ∈ requiredArgs name →
      scalarArgs args → getA args r = none →
      ∃ m, dispatch env name args = DOut.valErr m) ∧
    (∀ (env : Env) (name : String) (args : Args) (k : String) (v : PyVal),
      k ∉ knownKeys name →
      dispatch env name (args ++ [(k, v)]) = dispatch env name args) :=
  ⟨dispatch_unknown_name, dispatch_missing_required, dispatch_ignores_unknown⟩

/-- Counterexample to C7 as stated: `calc.returns` declares `prices` as
required, yet a call with no arguments at all is not rejected before domain
code — the branch substitutes the empty list and invokes the `calc_returns`
domain function, returning its result. -/
theorem lenient_missing_required_counterexample :
    "prices" ∈ requiredArgs "calc.returns" ∧
    getA ([] : Args) "prices" = none ∧
    dispatch env0 "calc.returns" [] = DOut.ok (PyVal.pystr "calc_returns") :=
  ⟨by decide, rfl, (dCalcReturns_eq env0 []).trans rfl⟩

/-- The three parts of the dispatch validation contract at concrete inputs:
a bogus name is rejected as unknown, `market.quote` without `symbol` is a
`ValueError`, and an extra unknown key on `web.search` changes nothing. -/
theorem dispatch_validation_contract_witness :
    dispatch env0 "bogus.tool" [] =
      DOut.notFound ("Unknown tool: " ++ "bogus.tool") ∧
    (∃ m, dispatch env0 "market.quote" [] = DOut.valErr m) ∧
    dispatch env0 "web.search"
        ([("query", PyVal.pystr "tesla")] ++ [("junk", PyVal.pyint 1)]) =
      dispatch env0 "web.search" [("query", PyVal.pystr "tesla")] :=
  ⟨dispatch_validation_contract.1 env0 "bogus.tool" [] (by decide),
   dispatch_validation_contract.2.1 env0 "market.quote" [] "symbol" (by decide)
     (by decide) (by decide) (fun e he => absurd he (List.not_mem_nil e)) rfl,
   dispatch_validation_contract.2.2 env0 "web.search"
     [("query", PyVal.pystr "tesla")] "junk" (PyVal.pyint 1) (by decide)⟩

/-- The `reqStrArg` pattern passes the stripped string to its continuation
when the strip is nonempty. -/
theorem reqStrArg_present (args : Args) (key : String) (k : String → DOut)
    (s : String)
    (hs : s = pyStrip (pyStrv ((getA args key).getD (PyVal.pystr ""))))
    (hne : s ≠ "") :
    reqStrArg args key k = k s := by
  subst hs
  unfold reqStrArg
  rw [if_neg hne]

/-- The truncated list never exceeds the cap. -/
theorem truncList_length_le (xs : List PyVal) (limit : Nat) :
    (truncList xs limit).length ≤ limit := by
  unfold truncList
  by_cases h : xs.length ≤ limit
  · rw [if_pos h]
    exact h
  · rw [if_neg h]
    rw [List.length_take]
    exact min_le_left _ _

/-- Short data passes through `_truncate_list` unchanged. -/
theorem truncList_eq_of_le (xs : List PyVal) (limit : Nat)
    (h : xs.length ≤ limit) : truncList xs limit = xs := by
  unfold truncList
  rw [if_pos h]

/-- Long data is cut to the first `limit` items by `_truncate_list`. -/
theorem truncList_eq_take (xs : List PyVal) (limit : Nat)
    (h : limit < xs.length) : truncList xs limit = xs.take limit := by
  unfold truncList
  rw [if_neg (not_le.mpr h)]

/-- Replacing the value at key `k` in place leaves lookups of a key `k2 ≠ k`
over the association list unchanged. -/
theorem find?_set_map_ne (m : List (String × PyVal)) (k k2 : String)
    (v : PyVal) (h : k2 ≠ k) :
    List.find? (fun e => decide (e.1 = k2))
        (m.map (fun e => if e.1 = k then (k, v) else e)) =
      List.find? (fun e => decide (e.1 = k2)) m := by
  induction m with
  | nil => rfl
  | cons a m ih =>
    by_cases ha : a.1 = k
    · rw [List.map_cons, if_pos ha,
        List.find?_cons_of_neg _ (by simp [Ne.symm h]),
        List.find?_cons_of_neg _ (by simp [ha, Ne.symm h])]
      exact ih
    · by_cases hb : a.1 = k2
      · rw [List.map_cons, if_neg ha, List.find?_cons_of_pos _ (by simp [hb]),
          List.find?_cons_of_pos _ (by simp [hb])]
      · rw [List.map_cons, if_neg ha, List.find?_cons_of_neg _ (by simp [hb]),
          List.find?_cons_of_neg _ (by simp [hb])]
        exact ih

/-- When key `k` occurs, replacing its value in place makes `(k, v)` the
found entry. -/
theorem find?_set_map_self (m : List (String × PyVal)) (k : String)
    (v : PyVal)
    (h : (List.find? (fun e => decide (e.1 = k)) m).isSome) :
    List.find? (fun e => decide (e.1 = k))
        (m.map (fun e => if e.1 = k then (k, v) else e)) = some (k, v) := by
  induction m with
  | nil => simp at h
  | cons a m ih =>
    by_cases ha : a.1 = k
    · rw [List.map_cons, if_pos ha, List.find?_cons_of_pos _ (by simp)]
    · have h2 : (List.find? (fun e => decide (e.1 = k)) m).isSome := by
        rw [List.find?_cons_of_neg _ (by simp [ha])] at h
        exact h
      rw [List.map_cons, if_neg ha, List.find?_cons_of_neg _ (by simp [ha])]
      exact ih h2

/-- Python dict assignment then lookup of the same key yields the assigned
value. -/
theorem dictGet_dictSet_self (m : List (String × PyVal)) (k : String)
    (v : PyVal) : dictGet (dictSet m k v) k = some v := by
  unfold dictGet dictSet
  by_cases h : (List.find? (fun e => decide (e.1 = k)) m).isSome
  · rw [if_pos h, find?_set_map_self m k v h]
    rfl
  · rw [if_neg h, List.find?_append]
    rw [Option.not_isSome_iff_eq_none] at h
    rw [h, Option.none_or, List.find?_cons_of_pos _ (by simp)]
    rfl

/-- Python dict assignment at key `k` leaves lookups of a different key `k2`
unchanged. -/
theorem dictGet_dictSet_ne (m : List (String × PyVal)) (k k2 : String)
    (v : PyVal) (h : k2 ≠ k) : dictGet (dictSet m k v) k2 = dictGet m k2 := by
  unfold dictGet dictSet
  by_cases hp : (List.find? (fun e => decide (e.1 = k)) m).isSome
  · rw [if_pos hp, find?_set_map_ne m k k2 v h]
  · rw [if_neg hp, List.find?_append,
      List.find?_cons_of_neg _ (by simp [Ne.symm h]),
      show (List.find? (fun e => decide (e.1 = k2))
        ([] : List (String × PyVal))) = none from rfl,
      Option.or_none]

/-- A key-preserving value map commutes with association-list lookup. -/
theorem dictGet_map_value (m : List (String × PyVal)) (k : String)
    (g : PyVal → PyVal) :
    dictGet (m.map (fun e => (e.1, g e.2))) k = (dictGet m k).map g := by
  induction m with
  | nil => rfl
  | cons a m ih =>
    unfold dictGet
    by_cases hb : a.1 = k
    · rw [List.map_cons, List.find?_cons_of_pos _ (by simp [hb]),
        List.find?_cons_of_pos _ (by simp [hb])]
      rfl
    · rw [List.map_cons, List.find?_cons_of_neg _ (by simp [hb]),
        List.find?_cons_of_neg _ (by simp [hb])]
      exact ih

/-- C8 (amended): each of the seven unbounded NEPSE list endpoints returns
the `listPayload` dictionary built from its backend rows with cap 200, whose
`_truncated` flag is true exactly when the data exceeded the cap, whose
`_limit` is the cap, and whose `items` are the data cut to at most the cap
(unchanged when short, the first 200 when long); the sector-scrips endpoint
returns `_truncate_sector_map` of the backend sector map with cap 50, which
truncates every sector list to at most 50 items and records `_limit`, but
sets its `_truncated` flag to true unconditionally — also when no sector
exceeded the cap — which is the correction to the claim that `_truncated` is
true exactly when data was lost. -/
theorem output_truncation_markers :
    (∀ (env : Env) (args : Args),
      dispatch env "nepse.price_volume" args =
        DOut.ok (listPayload (env.rows "nepse_price_volume" []) 200) ∧
      dispatch env "nepse.live_market" args =
        DOut.ok (listPayload (env.rows "nepse_live_market" []) 200) ∧
      dispatch env "nepse.company_list" args =
        DOut.ok (listPayload (env.rows "nepse_company_list" []) 200) ∧
      dispatch env "nepse.security_list" args =
        DOut.ok (listPayload (env.rows "nepse_security_list" []) 200) ∧
      dispatch env "nepse.floorsheet" args =
        DOut.ok (listPayload (env.rows "nepse_floorsheet" []) 200) ∧
      dispatch env "nepse.sector_scrips" args =
        DOut.ok (truncSectorMap env.sectorMap 50)) ∧
    (∀ (env : Env) (args : Args) (s : String),
      s = pyStrip (pyStrv ((getA args "symbol").getD (PyVal.pystr ""))) →
      s ≠ "" →
      dispatch env "nepse.price_volume_history" args =
        DOut.ok (listPayload
          (env.rows "nepse_price_volume_history" [PyVal.pystr s]) 200) ∧
      dispatch env "nepse.floorsheet_of" args =
        DOut.ok (listPayload
          (env.rows "nepse_floorsheet_of" [PyVal.pystr s]) 200)) ∧
    (∀ (data : List PyVal) (limit : Nat),
      (truncList data limit).length ≤ limit ∧
      (data.length ≤ limit → truncList data limit = data) ∧
      (limit < data.length → truncList data limit = data.take limit) ∧
      outGet (DOut.ok (listPayload data limit)) "items" =
        some (PyVal.pylist (truncList data limit)) ∧
      outGet (DOut.ok (listPayload data limit)) "_truncated" =
        some (PyVal.pybool (decide (data.length > limit))) ∧
      outGet (DOut.ok (listPayload data limit)) "_limit" =
        some (PyVal.pyint limit)) ∧
    (∀ (data : List (String × PyVal)) (limit : Nat),
      outGet (DOut.ok (truncSectorMap data limit)) "_truncated" =
        some (PyVal.pybool true) ∧
      outGet (DOut.ok (truncSectorMap data limit)) "_limit" =
        some (PyVal.pyint limit) ∧
      (∀ (k : String) (xs : List PyVal), k ≠ "_truncated" → k ≠ "_limit" →
        dictGet data k = some (PyVal.pylist xs) →
        outGet (DOut.ok (truncSectorMap data limit)) k =
          some (PyVal.pylist (truncList xs limit)))) := by
  refine ⟨?_, ?_, ?_, ?_⟩
  · intro env args
    exact ⟨(dNepsePriceVolume_eq env args).trans rfl,
      (dNepseLiveMarket_eq env args).trans rfl,
      (dNepseCompanyList_eq env args).trans rfl,
      (dNepseSecurityList_eq env args).trans rfl,
      (dNepseFloorsheet_eq env args).trans rfl,
      (dNepseSectorScrips_eq env args).trans rfl⟩
  · intro env args s hs hne
    exact ⟨(dNepsePriceVolumeHistory_eq env args).trans
        ((reqStrArg_present args "symbol" _ s hs hne).trans rfl),
      (dNepseFloorsheetOf_eq env args).trans
        ((reqStrArg_present args "symbol" _ s hs hne).trans rfl)⟩
  · intro data limit
    exact ⟨truncList_length_le data limit, truncList_eq_of_le data limit,
      truncList_eq_take data limit, rfl, rfl, rfl⟩
  · intro data limit
    refine ⟨?_, ?_, ?_⟩
    · exact (dictGet_dictSet_ne _ "_limit" "_truncated" _ (by decide)).trans
        (dictGet_dictSet_self _ "_truncated" _)
    · exact dictGet_dictSet_self _ "_limit" _
    · intro k xs hk1 hk2 hget
      have h1 : outGet (DOut.ok (truncSectorMap data limit)) k =
          dictGet (data.map (fun e => (e.1, truncMapValue limit e.2))) k :=
        (dictGet_dictSet_ne _ "_limit" k _ hk2).trans
          (dictGet_dictSet_ne _ "_truncated" k _ hk1)
      rw [h1, dictGet_map_value data k (truncMapValue limit), hget]
      rfl

/-- Counterexample to C8 as stated: a sector map with a single one-item
sector is far below the 50-item cap — nothing is truncated, the sector list
comes back unchanged — yet the endpoint reports `_truncated = true`. -/
theorem sector_map_truncated_flag_counterexample :
    ([PyVal.pystr "NABIL"] : List PyVal).length ≤ 50 ∧
    outGet (dispatch env1 "nepse.sector_scrips" []) "Banking" =
      some (PyVal.pylist [PyVal.pystr "NABIL"]) ∧
    outGet (dispatch env1 "nepse.sector_scrips" []) "_truncated" =
      some (PyVal.pybool true) := by
  refine ⟨by decide, ?_, ?_⟩
  · rw [dNepseSectorScrips_eq]
    rfl
  · rw [dNepseSectorScrips_eq]
    rfl

/-- The truncation-marker theorem at concrete inputs: a one-symbol history
call produces the capped payload, a one-item list is left unchanged by the
cap, and a one-item sector passes through the sector-map truncation with its
list intact. -/
theorem output_truncation_markers_witness :
    dispatch env1 "nepse.price_volume_history"
        [("symbol", PyVal.pystr "NABIL")] =
      DOut.ok (listPayload
        (env1.rows "nepse_price_volume_history" [PyVal.pystr "NABIL"]) 200) ∧
    truncList [PyVal.pystr "NABIL"] 50 = [PyVal.pystr "NABIL"] ∧
    outGet (DOut.ok (truncSectorMap env1.sectorMap 50)) "Banking" =
      some (PyVal.pylist (truncList [PyVal.pystr "NABIL"] 50)) :=
  ⟨(output_truncation_markers.2.1 env1 [("symbol", PyVal.pystr "NABIL")]
      "NABIL" rfl (by decide)).1,
   (output_truncation_markers.2.2.1 [PyVal.pystr "NABIL"] 50).2.1 (by decide),
   (output_truncation_markers.2.2.2 env1.sectorMap 50).2.2 "Banking"
     [PyVal.pystr "NABIL"] (by decide) (by decide) rfl⟩

end Northstar
